import Mathlib

/-!
# Tactility wifi service (`WifiEsp.cpp`): radio state machine

A shallow embedding of `TactilityHeadless/Source/service/wifi/WifiEsp.cpp` and of the event bus
`TactilityCore/Source/Pubsub.cpp`.

Modelling conventions
* The `Wifi` class instance is a record. Besides the fields of the C++ class it carries the
  observable traces of the external collaborators the code talks to: the events handed to
  `tt_pubsub_publish` (`published`), the calls made to the ESP-IDF driver (`driver_calls`), the
  calls to `settings::save` (`saved`), the functions handed to `getMainDispatcher().dispatch`
  (`dispatched`, FIFO), whether a fatal check (`tt_assert`, `tt_crash`, `ESP_ERROR_CHECK`)
  terminated the process (`fault`), and the writes to `radio_state` (`radio_state_changes`).
* Everything the code cannot decide on its own is an explicit input (`Env`): the result codes of
  the driver calls, whether a timed mutex acquisition succeeded, the value returned by
  `EventFlag::wait`, the notifications handled by the driver task while the connect command is
  blocked in that wait, the tick counter and the credential store.
* A mutex acquisition with `TtWaitForever` always succeeds; `malloc` always succeeds.
* A command, a public call and a run of the notification handler are atomic, except that
  notifications are handled while the connect command is blocked in its wait. The enable and
  disable commands are given once more with notifications handled by the driver task after
  `esp_wifi_start()` and `esp_wifi_stop()` (`dispatchEnable_interleaved`,
  `dispatchDisable_interleaved`).
* The value of the connect command's wait is a free input of `dispatchConnect`;
  `dispatchConnect_signalled` reads it from the wait-signal the notification handler raises.
* C strings (`ssid`, `password`) are modelled by their contents as `String`.
* `esp_err_t` is `Int` with `ESP_OK = 0`; `TickType_t` and `uint32_t` are `Nat` modulo `2 ^ 32`.
* The commands run with `wifi_singleton` equal to their context argument.
-/

namespace WifiEsp

/-! ## Constants and plain data -/

abbrev esp_err_t := Int

def ESP_OK : esp_err_t := 0

def ESP_ERR_NO_MEM : esp_err_t := 0x101

/-- BIT0 -/
def WIFI_CONNECTED_BIT : Nat := 1

/-- BIT1 -/
def WIFI_FAIL_BIT : Nat := 2

/-- Auto-scan interval in milliseconds. -/
def AUTO_SCAN_INTERVAL : Nat := 10000

/-- Largest value of `TickType_t` (32-bit ticks). -/
def portMAX_DELAY : Nat := 0xFFFFFFFF

inductive WifiRadioState
  | WIFI_RADIO_ON_PENDING
  | WIFI_RADIO_ON
  | WIFI_RADIO_CONNECTION_PENDING
  | WIFI_RADIO_CONNECTION_ACTIVE
  | WIFI_RADIO_OFF_PENDING
  | WIFI_RADIO_OFF
  deriving DecidableEq, Repr

inductive WifiEventType
  | WifiEventTypeRadioStateOn
  | WifiEventTypeRadioStateOnPending
  | WifiEventTypeRadioStateOff
  | WifiEventTypeRadioStateOffPending
  | WifiEventTypeScanStarted
  | WifiEventTypeScanFinished
  | WifiEventTypeDisconnected
  | WifiEventTypeConnectionPending
  | WifiEventTypeConnectionSuccess
  | WifiEventTypeConnectionFailed
  deriving DecidableEq, Repr

open WifiRadioState WifiEventType

/-- The record `settings::WifiApSettings`. -/
structure WifiApSettings where
  ssid : String
  password : String
  auto_connect : Bool
  deriving DecidableEq, Repr

/-- The driver's `wifi_ap_record_t`, restricted to the members the service reads. -/
structure wifi_ap_record_t where
  ssid : String
  rssi : Int
  authmode : Nat
  primary : Nat
  deriving DecidableEq, Repr

/-- The record `WifiApRecord` handed to callers of `getScanResults`. -/
structure WifiApRecord where
  ssid : String
  rssi : Int
  auth_mode : Nat
  deriving DecidableEq, Repr

/-- The functions handed to the main dispatcher. -/
inductive Command
  | dispatchAutoConnect
  | dispatchEnable
  | dispatchDisable
  | dispatchScan
  | dispatchConnect
  | dispatchDisconnectButKeepActive
  deriving DecidableEq, Repr

/-- The ESP-IDF calls issued by the service. -/
inductive DriverCall
  | esp_netif_destroy
  | esp_netif_create_default_wifi_sta
  | esp_wifi_init
  | esp_wifi_set_storage
  | esp_event_handler_instance_register_wifi
  | esp_event_handler_instance_register_ip
  | esp_event_handler_instance_unregister_wifi
  | esp_event_handler_instance_unregister_ip
  | esp_wifi_set_mode_sta
  | esp_wifi_set_mode_null
  | esp_wifi_start
  | esp_wifi_stop
  | esp_wifi_deinit
  | esp_wifi_connect
  | esp_wifi_scan_start
  | esp_wifi_scan_stop
  | esp_wifi_scan_get_ap_records
  | esp_wifi_set_config (ssid password : String)
  | esp_wifi_sta_get_rssi
  deriving DecidableEq, Repr

/-- The fatal checks of the code. -/
inductive Fault
  | tt_crash
  | tt_assert
  | esp_error_check
  | tt_check
  deriving DecidableEq, Repr

/-- The driver notifications dispatched on by `eventHandler`. A scan-done notification comes with
what the driver will answer to `esp_wifi_scan_get_ap_records`: a result code and the access
points it found. -/
inductive Notification
  | WIFI_EVENT_STA_START
  | WIFI_EVENT_STA_DISCONNECTED
  | IP_EVENT_STA_GOT_IP
  | WIFI_EVENT_SCAN_DONE (scan_result : esp_err_t) (found : List wifi_ap_record_t)
  | other
  deriving DecidableEq, Repr

/-- The credential store as the service sees it: `settings::contains` and `settings::load`. -/
structure Settings where
  contains : String → Bool
  load : String → Option WifiApSettings

/-- The inputs of one command or one public call. -/
structure Env where
  /-- timed acquisition of `radioMutex` -/
  radio_lock : Bool := true
  /-- timed acquisition of `dataMutex` -/
  data_lock : Bool := true
  esp_wifi_init : esp_err_t := ESP_OK
  register_wifi : esp_err_t := ESP_OK
  register_ip : esp_err_t := ESP_OK
  set_mode_sta : esp_err_t := ESP_OK
  set_mode_null : esp_err_t := ESP_OK
  esp_wifi_start : esp_err_t := ESP_OK
  esp_wifi_stop : esp_err_t := ESP_OK
  unregister_wifi : esp_err_t := ESP_OK
  unregister_ip : esp_err_t := ESP_OK
  esp_wifi_deinit : esp_err_t := ESP_OK
  esp_wifi_scan_start : esp_err_t := ESP_OK
  esp_wifi_set_config : esp_err_t := ESP_OK
  /-- value returned by `connection_wait_flags.wait`: a free input, so that every outcome of the
  wait is covered; `dispatchConnect_signalled` reads it from the wait-signal instead -/
  wait_bits : Nat := WIFI_CONNECTED_BIT
  /-- notifications handled while the connect command is blocked in the wait -/
  during_wait : List Notification := []
  /-- value of `tt::kernel::getTicks()` -/
  ticks : Nat := 0
  /-- result of `settings::save` -/
  save_ok : Bool := true
  /-- timed acquisition of `dataMutex` inside the `connect` call of the auto-connect command -/
  connect_lock : Bool := true
  /-- the build constant `portTICK_PERIOD_MS` (milliseconds per tick) -/
  portTICK_PERIOD_MS : Nat := 1
  settings : Settings := ⟨fun _ => false, fun _ => none⟩

/-! ## The `Wifi` instance -/

structure Wifi where
  radio_state : WifiRadioState := WIFI_RADIO_OFF
  scan_active : Bool := false
  secure_connection : Bool := false
  /-- whether `netif` is non-null -/
  netif : Bool := false
  /-- the scan buffer: `none` is `nullptr`, `some l` a buffer of `l.length` records -/
  scan_list : Option (List wifi_ap_record_t) := none
  scan_list_count : Nat := 0
  scan_list_limit : Nat
  last_scan_time : Nat := portMAX_DELAY
  /-- whether the handler instance is non-null -/
  event_handler_any_id : Bool := false
  /-- whether the handler instance is non-null -/
  event_handler_got_ip : Bool := false
  connection_wait_flags : Nat := 0
  connection_target : WifiApSettings := ⟨"", "", false⟩
  pause_auto_connect : Bool := false
  connection_target_remember : Bool := false
  /-- events handed to `tt_pubsub_publish`, oldest first -/
  published : List WifiEventType := []
  /-- driver calls, oldest first -/
  driver_calls : List DriverCall := []
  /-- arguments of the `settings::save` calls, oldest first -/
  saved : List WifiApSettings := []
  /-- functions handed to the main dispatcher, oldest first -/
  dispatched : List Command := []
  /-- set when a fatal check terminated the process -/
  fault : Option Fault := none
  /-- every call of `setRadioState`, as (state before the call, state written), oldest first -/
  radio_state_changes : List (WifiRadioState × WifiRadioState) := []
  deriving DecidableEq, Repr

namespace Wifi

def getRadioState (wifi : Wifi) : WifiRadioState := wifi.radio_state

def setRadioState (wifi : Wifi) (newState : WifiRadioState) : Wifi :=
  { wifi with
    radio_state := newState
    radio_state_changes := wifi.radio_state_changes ++ [(wifi.radio_state, newState)] }

def isScanActive (wifi : Wifi) : Bool := wifi.scan_active

def setScanActive (wifi : Wifi) (newState : Bool) : Wifi :=
  { wifi with scan_active := newState }

def isSecureConnection (wifi : Wifi) : Bool := wifi.secure_connection

def setSecureConnection (wifi : Wifi) (newState : Bool) : Wifi :=
  { wifi with secure_connection := newState }

/-- Record a call to the driver. -/
def call (wifi : Wifi) (c : DriverCall) : Wifi :=
  { wifi with driver_calls := wifi.driver_calls ++ [c] }

/-- The call `getMainDispatcher().dispatch(f, wifi)`. -/
def dispatch (wifi : Wifi) (f : Command) : Wifi :=
  { wifi with dispatched := wifi.dispatched ++ [f] }

/-- A failed fatal check. -/
def abort (wifi : Wifi) (f : Fault) : Wifi :=
  { wifi with fault := some f }

/-- The main dispatcher has taken the oldest function off its queue; `rest` remains. -/
def dequeue (wifi : Wifi) (rest : List Command) : Wifi :=
  { wifi with dispatched := rest }

end Wifi

/-! ## Scan buffer helpers -/

def scan_list_alloc (wifi : Wifi) : Wifi :=
  if wifi.scan_list ≠ none then wifi.abort Fault.tt_assert
  else
    { wifi with
      scan_list := some (List.replicate wifi.scan_list_limit ⟨"", 0, 0, 0⟩)
      scan_list_count := 0 }

def scan_list_alloc_safely (wifi : Wifi) : Wifi :=
  if wifi.scan_list = none then scan_list_alloc wifi else wifi

def scan_list_free (wifi : Wifi) : Wifi :=
  if wifi.scan_list = none then wifi.abort Fault.tt_assert
  else { wifi with scan_list := none, scan_list_count := 0 }

def scan_list_free_safely (wifi : Wifi) : Wifi :=
  if wifi.scan_list ≠ none then scan_list_free wifi else wifi

def publish_event_simple (wifi : Wifi) (type : WifiEventType) : Wifi :=
  { wifi with published := wifi.published ++ [type] }

/-! ## Enable and disable commands -/

def dispatchEnable (env : Env) (wifi : Wifi) : Wifi :=
  let state := wifi.getRadioState
  if state = WIFI_RADIO_ON ∨ state = WIFI_RADIO_ON_PENDING ∨ state = WIFI_RADIO_OFF_PENDING then
    wifi
  else if env.radio_lock then
    let wifi := wifi.setRadioState WIFI_RADIO_ON_PENDING
    let wifi := publish_event_simple wifi WifiEventTypeRadioStateOnPending
    let wifi := if wifi.netif then wifi.call DriverCall.esp_netif_destroy else wifi
    let wifi := { wifi.call DriverCall.esp_netif_create_default_wifi_sta with netif := true }
    let wifi := wifi.call DriverCall.esp_wifi_init
    if env.esp_wifi_init ≠ ESP_OK then
      let wifi := wifi.setRadioState WIFI_RADIO_OFF
      publish_event_simple wifi WifiEventTypeRadioStateOff
    else
      let wifi := wifi.call DriverCall.esp_wifi_set_storage
      let wifi := wifi.call DriverCall.esp_event_handler_instance_register_wifi
      if env.register_wifi ≠ ESP_OK then wifi.abort Fault.esp_error_check
      else
        let wifi := { wifi with event_handler_any_id := true }
        let wifi := wifi.call DriverCall.esp_event_handler_instance_register_ip
        if env.register_ip ≠ ESP_OK then wifi.abort Fault.esp_error_check
        else
          let wifi := { wifi with event_handler_got_ip := true }
          let wifi := wifi.call DriverCall.esp_wifi_set_mode_sta
          if env.set_mode_sta ≠ ESP_OK then
            let wifi := wifi.setRadioState WIFI_RADIO_OFF
            let wifi := wifi.call DriverCall.esp_wifi_deinit
            publish_event_simple wifi WifiEventTypeRadioStateOff
          else
            let wifi := wifi.call DriverCall.esp_wifi_start
            if env.esp_wifi_start ≠ ESP_OK then
              let wifi := wifi.setRadioState WIFI_RADIO_OFF
              let wifi := wifi.call DriverCall.esp_wifi_set_mode_null
              let wifi := wifi.call DriverCall.esp_wifi_deinit
              publish_event_simple wifi WifiEventTypeRadioStateOff
            else
              let wifi := wifi.setRadioState WIFI_RADIO_ON
              publish_event_simple wifi WifiEventTypeRadioStateOn
  else
    wifi

def dispatchDisable (env : Env) (wifi : Wifi) : Wifi :=
  if ¬ env.radio_lock then wifi
  else
    let state := wifi.getRadioState
    if state = WIFI_RADIO_OFF ∨ state = WIFI_RADIO_OFF_PENDING ∨ state = WIFI_RADIO_ON_PENDING then
      wifi
    else
      let wifi := wifi.setRadioState WIFI_RADIO_OFF_PENDING
      let wifi := publish_event_simple wifi WifiEventTypeRadioStateOffPending
      let wifi := scan_list_free_safely wifi
      let wifi := wifi.call DriverCall.esp_wifi_stop
      if env.esp_wifi_stop ≠ ESP_OK then
        let wifi := wifi.setRadioState WIFI_RADIO_ON
        publish_event_simple wifi WifiEventTypeRadioStateOn
      else
        let wifi := wifi.call DriverCall.esp_wifi_set_mode_null
        let wifi := wifi.call DriverCall.esp_event_handler_instance_unregister_wifi
        let wifi := wifi.call DriverCall.esp_event_handler_instance_unregister_ip
        let wifi := wifi.call DriverCall.esp_wifi_deinit
        if ¬ wifi.netif then wifi.abort Fault.tt_assert
        else
          let wifi := wifi.call DriverCall.esp_netif_destroy
          let wifi := { wifi with netif := false }
          let wifi := wifi.setScanActive false
          let wifi := wifi.setRadioState WIFI_RADIO_OFF
          publish_event_simple wifi WifiEventTypeRadioStateOff

/-! ## The wait-signal -/

/-- Modelled from the spec: the `EventFlag` class is not part of the sources. The wait-signal is
a set of bits; `set` raises the given bits. -/
def EventFlag_set (flags bits : Nat) : Nat := flags ||| bits

/-- Modelled from the spec: the `EventFlag` class is not part of the sources. `clear` lowers the
given bits of the 32-bit wait-signal. -/
def EventFlag_clear (flags bits : Nat) : Nat := flags &&& (0xFFFFFFFF ^^^ bits)

/-- Modelled from the spec: the `EventFlag` class is not part of the sources. `wait(mask)`
without a timeout blocks until a bit of `mask` is raised in the wait-signal and returns the raised
bits of `mask`; `none` stands for a wait that does not return. -/
def EventFlag_wait (flags mask : Nat) : Option Nat :=
  if flags &&& mask ≠ 0 then some (flags &&& mask) else none

/-! ## Scan results and the notification handler -/

/-- The driver call `esp_wifi_scan_get_ap_records(&number, ap_records)` by its ESP-IDF contract:
on success it copies the first `number` of the access points it found into the buffer and stores
how many it copied in `number`; on failure it leaves both untouched. Returns the result code, the
new value of `number` and the new buffer. -/
def esp_wifi_scan_get_ap_records (scan_result : esp_err_t) (found : List wifi_ap_record_t)
    (number : Nat) (ap_records : Option (List wifi_ap_record_t)) :
    esp_err_t × Nat × Option (List wifi_ap_record_t) :=
  if scan_result = ESP_OK then
    let copied := found.take number
    (scan_result, copied.length, ap_records.map (fun buf => copied ++ buf.drop copied.length))
  else
    (scan_result, number, ap_records)

def copy_scan_list (scan_result : esp_err_t) (found : List wifi_ap_record_t) (wifi : Wifi) :
    Bool × Wifi :=
  let state := wifi.getRadioState
  let can_fetch_results :=
    (state = WIFI_RADIO_ON ∨ state = WIFI_RADIO_CONNECTION_ACTIVE) ∧ wifi.isScanActive
  if ¬ can_fetch_results then (false, wifi)
  else
    let wifi := scan_list_alloc_safely wifi
    let wifi := { wifi with scan_list_count := 0 }
    let record_count := wifi.scan_list_limit
    let wifi := wifi.call DriverCall.esp_wifi_scan_get_ap_records
    let res := esp_wifi_scan_get_ap_records scan_result found record_count wifi.scan_list
    let wifi := { wifi with scan_list := res.2.2 }
    let record_count := res.2.1
    if res.1 = ESP_OK then
      let safe_record_count := min wifi.scan_list_limit record_count
      (true, { wifi with scan_list_count := safe_record_count })
    else
      (false, wifi)

/-- The loop of `find_auto_connect_ap` over the records `scan_list[0 .. scan_list_count)`:
`some settings` stands for `return true` with the loaded settings, `none` for leaving the loop
(by `break` or at its end) and returning `false`. -/
def find_auto_connect_ap_loop (settings : Settings) :
    List wifi_ap_record_t → Option WifiApSettings
  | [] => none
  | record :: rest =>
    if settings.contains record.ssid then
      match settings.load record.ssid with
      | some loaded => if loaded.auto_connect then some loaded else none
      | none => none
    else find_auto_connect_ap_loop settings rest

def find_auto_connect_ap (env : Env) (wifi : Wifi) : Option WifiApSettings :=
  if env.data_lock then
    find_auto_connect_ap_loop env.settings ((wifi.scan_list.getD []).take wifi.scan_list_count)
  else none

/-- The body of `eventHandler` once `wifi_singleton` is known to be non-null. -/
def eventHandler_body (event : Notification) (wifi : Wifi) : Wifi :=
  match event with
  | Notification.WIFI_EVENT_STA_START =>
    if wifi.getRadioState = WIFI_RADIO_CONNECTION_PENDING then
      wifi.call DriverCall.esp_wifi_connect
    else wifi
  | Notification.WIFI_EVENT_STA_DISCONNECTED =>
    let wifi :=
      if wifi.getRadioState = WIFI_RADIO_CONNECTION_PENDING then
        { wifi with connection_wait_flags := EventFlag_set wifi.connection_wait_flags WIFI_FAIL_BIT }
      else wifi
    let wifi := wifi.setRadioState WIFI_RADIO_ON
    publish_event_simple wifi WifiEventTypeDisconnected
  | Notification.IP_EVENT_STA_GOT_IP =>
    if wifi.getRadioState = WIFI_RADIO_CONNECTION_PENDING then
      { wifi with
        connection_wait_flags := EventFlag_set wifi.connection_wait_flags WIFI_CONNECTED_BIT
        pause_auto_connect := false }
    else wifi
  | Notification.WIFI_EVENT_SCAN_DONE scan_result found =>
    let copied := copy_scan_list scan_result found wifi
    let copied_list := copied.1
    let wifi := copied.2
    let state := wifi.getRadioState
    let wifi :=
      if state ≠ WIFI_RADIO_OFF ∧ state ≠ WIFI_RADIO_OFF_PENDING then
        (wifi.setScanActive false).call DriverCall.esp_wifi_scan_stop
      else wifi
    let wifi := publish_event_simple wifi WifiEventTypeScanFinished
    if copied_list ∧ wifi.getRadioState = WIFI_RADIO_ON ∧ ¬ wifi.pause_auto_connect then
      wifi.dispatch Command.dispatchAutoConnect
    else wifi
  | Notification.other => wifi

def eventHandler (event : Notification) (wifi_singleton : Option Wifi) : Option Wifi :=
  match wifi_singleton with
  | none => none
  | some wifi => some (eventHandler_body event wifi)

/-! ## Scan, connect and disconnect commands -/

def dispatchScan (env : Env) (wifi : Wifi) : Wifi :=
  if ¬ env.radio_lock then wifi
  else
    let state := wifi.getRadioState
    if state ≠ WIFI_RADIO_ON ∧ state ≠ WIFI_RADIO_CONNECTION_ACTIVE ∧
        state ≠ WIFI_RADIO_CONNECTION_PENDING then
      wifi
    else if wifi.isScanActive then wifi
    else
      let wifi := { wifi with last_scan_time := env.ticks % 2 ^ 32 }
      let wifi := wifi.call DriverCall.esp_wifi_scan_start
      if env.esp_wifi_scan_start ≠ ESP_OK then wifi
      else
        let wifi := wifi.setScanActive true
        publish_event_simple wifi WifiEventTypeScanStarted

/-- The part of `dispatchConnect` after the wait on `connection_wait_flags` has returned `bits`;
`password` is `wifi_config.sta.password`, copied from the connection target before the wait. -/
def dispatchConnect_after_wait (password : String) (bits : Nat) (wifi : Wifi) : Wifi :=
  let wifi :=
    if bits &&& WIFI_CONNECTED_BIT ≠ 0 then
      let wifi := wifi.setSecureConnection (password ≠ "")
      let wifi := wifi.setRadioState WIFI_RADIO_CONNECTION_ACTIVE
      let wifi := publish_event_simple wifi WifiEventTypeConnectionSuccess
      if wifi.connection_target_remember then
        { wifi with saved := wifi.saved ++ [wifi.connection_target] }
      else wifi
    else if bits &&& WIFI_FAIL_BIT ≠ 0 then
      let wifi := wifi.setRadioState WIFI_RADIO_ON
      publish_event_simple wifi WifiEventTypeConnectionFailed
    else
      let wifi := wifi.setRadioState WIFI_RADIO_ON
      publish_event_simple wifi WifiEventTypeConnectionFailed
  { wifi with
    connection_wait_flags :=
      EventFlag_clear wifi.connection_wait_flags (WIFI_FAIL_BIT ||| WIFI_CONNECTED_BIT) }

/-- The part of `dispatchConnect` from `setRadioState(WIFI_RADIO_CONNECTION_PENDING)` on. While the
command is blocked in the wait the driver task runs `eventHandler` on `env.during_wait`. -/
def dispatchConnect_from_pending (env : Env) (wifi : Wifi) : Wifi :=
  let wifi := wifi.setRadioState WIFI_RADIO_CONNECTION_PENDING
  let wifi := publish_event_simple wifi WifiEventTypeConnectionPending
  let ssid := wifi.connection_target.ssid
  let password := wifi.connection_target.password
  let wifi := wifi.call (DriverCall.esp_wifi_set_config ssid password)
  if env.esp_wifi_set_config ≠ ESP_OK then
    let wifi := wifi.setRadioState WIFI_RADIO_ON
    publish_event_simple wifi WifiEventTypeConnectionFailed
  else
    let wifi := wifi.call DriverCall.esp_wifi_start
    if env.esp_wifi_start ≠ ESP_OK then
      let wifi := wifi.setRadioState WIFI_RADIO_ON
      publish_event_simple wifi WifiEventTypeConnectionFailed
    else
      let wifi := env.during_wait.foldl (fun w event => eventHandler_body event w) wifi
      let bits := env.wait_bits
      dispatchConnect_after_wait password bits wifi

def dispatchConnect (env : Env) (wifi : Wifi) : Wifi :=
  if ¬ env.radio_lock then wifi
  else
    let radio_state := wifi.getRadioState
    if radio_state = WIFI_RADIO_ON ∨ radio_state = WIFI_RADIO_CONNECTION_ACTIVE ∨
        radio_state = WIFI_RADIO_CONNECTION_PENDING then
      let wifi := wifi.call DriverCall.esp_wifi_stop
      let wifi := wifi.setScanActive false
      if env.esp_wifi_stop ≠ ESP_OK then wifi
      else dispatchConnect_from_pending env wifi
    else dispatchConnect_from_pending env wifi

def dispatchDisconnectButKeepActive (env : Env) (wifi : Wifi) : Wifi :=
  if ¬ env.radio_lock then wifi
  else
    let wifi := wifi.call DriverCall.esp_wifi_stop
    if env.esp_wifi_stop ≠ ESP_OK then wifi
    else
      let wifi := wifi.call (DriverCall.esp_wifi_set_config "" "")
      if env.esp_wifi_set_config ≠ ESP_OK then
        let wifi := wifi.setRadioState WIFI_RADIO_OFF
        publish_event_simple wifi WifiEventTypeRadioStateOff
      else
        let wifi := wifi.call DriverCall.esp_wifi_start
        if env.esp_wifi_start ≠ ESP_OK then
          let wifi := wifi.setRadioState WIFI_RADIO_OFF
          publish_event_simple wifi WifiEventTypeRadioStateOff
        else
          let wifi := wifi.setRadioState WIFI_RADIO_ON
          publish_event_simple wifi WifiEventTypeDisconnected

/-! ## Public functions

Each takes `wifi_singleton`; a timed acquisition of `dataMutex` is the argument
`lock_acquired`. -/

def getRadioState (wifi_singleton : Option Wifi) : WifiRadioState :=
  match wifi_singleton with
  | some wifi => wifi.getRadioState
  | none => WIFI_RADIO_OFF

def getConnectionTarget (wifi_singleton : Option Wifi) : String :=
  match wifi_singleton with
  | none => ""
  | some wifi =>
    let state := wifi.getRadioState
    if state ≠ WIFI_RADIO_CONNECTION_PENDING ∧ state ≠ WIFI_RADIO_CONNECTION_ACTIVE then ""
    else wifi.connection_target.ssid

def scan (wifi_singleton : Option Wifi) : Option Wifi :=
  match wifi_singleton with
  | none => none
  | some wifi => some (wifi.dispatch Command.dispatchScan)

def isScanning (wifi_singleton : Option Wifi) : Bool :=
  match wifi_singleton with
  | none => false
  | some wifi => wifi.isScanActive

def connect (ap : WifiApSettings) (remember : Bool) (lock_acquired : Bool)
    (wifi_singleton : Option Wifi) : Option Wifi :=
  match wifi_singleton with
  | none => none
  | some wifi =>
    if ¬ lock_acquired then some wifi
    else
      let wifi := { wifi with pause_auto_connect := true }
      let wifi := { wifi with connection_target := ap }
      let wifi := { wifi with connection_target_remember := remember }
      some (wifi.dispatch Command.dispatchConnect)

def disconnect (lock_acquired : Bool) (wifi_singleton : Option Wifi) : Option Wifi :=
  match wifi_singleton with
  | none => none
  | some wifi =>
    if ¬ lock_acquired then some wifi
    else
      let wifi := { wifi with connection_target := ⟨"", "", false⟩ }
      let wifi := { wifi with pause_auto_connect := true }
      some (wifi.dispatch Command.dispatchDisconnectButKeepActive)

def setScanRecords (records : Nat) (lock_acquired : Bool) (wifi_singleton : Option Wifi) :
    Option Wifi :=
  match wifi_singleton with
  | none => none
  | some wifi =>
    if ¬ lock_acquired then some wifi
    else if records ≠ wifi.scan_list_limit then
      let wifi := scan_list_free_safely wifi
      some { wifi with scan_list_limit := records }
    else some wifi

def getScanResults (lock_acquired : Bool) (wifi_singleton : Option Wifi) : List WifiApRecord :=
  match wifi_singleton with
  | none => []
  | some wifi =>
    if ¬ lock_acquired then []
    else if wifi.scan_list_count > 0 then
      ((wifi.scan_list.getD []).take wifi.scan_list_count).map
        (fun record => ⟨record.ssid, record.rssi, record.authmode⟩)
    else []

def setEnabled (enabled : Bool) (lock_acquired : Bool) (wifi_singleton : Option Wifi) :
    Option Wifi :=
  match wifi_singleton with
  | none => none
  | some wifi =>
    if ¬ lock_acquired then some wifi
    else
      let wifi :=
        if enabled then wifi.dispatch Command.dispatchEnable
        else wifi.dispatch Command.dispatchDisable
      let wifi := { wifi with pause_auto_connect := false }
      some { wifi with last_scan_time := 0 }

def isConnectionSecure (lock_acquired : Bool) (wifi_singleton : Option Wifi) : Bool :=
  match wifi_singleton with
  | none => false
  | some wifi => if ¬ lock_acquired then false else wifi.isSecureConnection

/-! ## Auto-connect -/

def dispatchAutoConnect (env : Env) (wifi : Wifi) : Wifi :=
  match find_auto_connect_ap env wifi with
  | some settings => (connect settings false env.connect_lock (some wifi)).getD wifi
  | none => wifi

def shouldScanForAutoConnect (env : Env) (wifi : Wifi) : Bool :=
  if ¬ env.data_lock then false
  else
    let is_radio_in_scannable_state :=
      wifi.getRadioState = WIFI_RADIO_ON ∧ ¬ wifi.isScanActive ∧ ¬ wifi.pause_auto_connect
    if ¬ is_radio_in_scannable_state then false
    else
      let current_time := env.ticks % 2 ^ 32
      let scan_time_has_looped := decide (current_time < wifi.last_scan_time)
      let no_recent_scan :=
        decide ((current_time + 2 ^ 32 - wifi.last_scan_time) % 2 ^ 32 >
          AUTO_SCAN_INTERVAL / env.portTICK_PERIOD_MS)
      scan_time_has_looped || no_recent_scan

def onAutoConnectTimer (env : Env) (wifi : Wifi) : Wifi :=
  let should_auto_scan := shouldScanForAutoConnect env wifi
  if should_auto_scan then wifi.dispatch Command.dispatchScan else wifi

/-! ## Executions

What can happen to a running service: a public call from some task, a tick of the auto-connect
timer, a driver notification, or the main dispatcher running the oldest function handed to it. -/

inductive Action
  | setEnabled (enabled : Bool) (lock_acquired : Bool)
  | scan
  | connect (ap : WifiApSettings) (remember : Bool) (lock_acquired : Bool)
  | disconnect (lock_acquired : Bool)
  | setScanRecords (records : Nat) (lock_acquired : Bool)
  | onAutoConnectTimer (env : Env)
  | eventHandler (event : Notification)
  | execute (env : Env)

def runCommand (f : Command) (env : Env) (wifi : Wifi) : Wifi :=
  match f with
  | Command.dispatchAutoConnect => dispatchAutoConnect env wifi
  | Command.dispatchEnable => dispatchEnable env wifi
  | Command.dispatchDisable => dispatchDisable env wifi
  | Command.dispatchScan => dispatchScan env wifi
  | Command.dispatchConnect => dispatchConnect env wifi
  | Command.dispatchDisconnectButKeepActive => dispatchDisconnectButKeepActive env wifi

/-- One action on a running service. Nothing happens any more once a fatal check has fired. -/
def step (wifi : Wifi) (a : Action) : Wifi :=
  if wifi.fault ≠ none then wifi
  else
    match a with
    | Action.setEnabled enabled lock_acquired => (setEnabled enabled lock_acquired (some wifi)).getD wifi
    | Action.scan => (scan (some wifi)).getD wifi
    | Action.connect ap remember lock_acquired => (connect ap remember lock_acquired (some wifi)).getD wifi
    | Action.disconnect lock_acquired => (disconnect lock_acquired (some wifi)).getD wifi
    | Action.setScanRecords records lock_acquired =>
      (setScanRecords records lock_acquired (some wifi)).getD wifi
    | Action.onAutoConnectTimer env => onAutoConnectTimer env wifi
    | Action.eventHandler event => (eventHandler event (some wifi)).getD wifi
    | Action.execute env =>
      match wifi.dispatched with
      | [] => wifi
      | f :: rest => runCommand f env (wifi.dequeue rest)

def run (wifi : Wifi) (actions : List Action) : Wifi :=
  actions.foldl step wifi

/-! ## Public functions with a fatal check -/

/-- The event bus of the running service, which the model identifies with what was published on
it; `tt_crash` when the service is not running. -/
def getPubsub (wifi_singleton : Option Wifi) : Except Fault (List WifiEventType) :=
  match wifi_singleton with
  | none => Except.error Fault.tt_crash
  | some wifi => Except.ok wifi.published

/-- The signal strength: `result` and `driver_rssi` are what `esp_wifi_sta_get_rssi` returns and
stores. -/
def getRssi (result : esp_err_t) (driver_rssi : Int) (wifi_singleton : Option Wifi) :
    Except Fault Int :=
  match wifi_singleton with
  | none => Except.error Fault.tt_assert
  | some _ => if result = ESP_OK then Except.ok driver_rssi else Except.ok 1

/-- The instance `onStart` constructs, `limit` being `TT_WIFI_SCAN_RECORD_LIMIT`: radio `Off`, no
interface handle, no scan buffer, nothing published, nothing queued. -/
def wifi_started (limit : Nat) : Wifi := { scan_list_limit := limit }

/-! ## Read accessors and the wait for the data lock

The definitions above take a `TtWaitForever` acquisition as successful. To tell a bounded wait
from an unbounded one the read accessors are given once more, with the wait explicit: `busy`
says for how long another task keeps `dataMutex`, and the result `none` means that the call
never returns. -/

/-- The `timeout` argument of `Mutex::acquire`. -/
inductive Timeout
  | ticks (n : Nat)
  | TtWaitForever
  deriving DecidableEq, Repr

/-- Modelled from the spec: the `Mutex` class is not part of the sources. A task asking for a
mutex that another task releases after `n` ticks (`busy = some n`, free when `n = 0`) or never
(`busy = none`) gets `some true` when it acquired the mutex, `some false` when its timeout
expired first, and `none` when it waits for ever. -/
def Mutex_acquire (busy : Option Nat) (timeout : Timeout) : Option Bool :=
  match timeout, busy with
  | Timeout.ticks n, some held => some (decide (held ≤ n))
  | Timeout.ticks _, none => some false
  | Timeout.TtWaitForever, some _ => some true
  | Timeout.TtWaitForever, none => none

namespace Wifi

def getRadioState_wait (busy : Option Nat) (wifi : Wifi) : Option WifiRadioState :=
  match Mutex_acquire busy Timeout.TtWaitForever with
  | some _ => some wifi.radio_state
  | none => none

def isScanActive_wait (busy : Option Nat) (wifi : Wifi) : Option Bool :=
  match Mutex_acquire busy Timeout.TtWaitForever with
  | some _ => some wifi.scan_active
  | none => none

end Wifi

def getRadioState_wait (busy : Option Nat) (wifi_singleton : Option Wifi) :
    Option WifiRadioState :=
  match wifi_singleton with
  | some wifi => wifi.getRadioState_wait busy
  | none => some WIFI_RADIO_OFF

def getConnectionTarget_wait (busy : Option Nat) (wifi_singleton : Option Wifi) :
    Option String :=
  match wifi_singleton with
  | none => some ""
  | some wifi =>
    match wifi.getRadioState_wait busy with
    | none => none
    | some state =>
      if state ≠ WIFI_RADIO_CONNECTION_PENDING ∧ state ≠ WIFI_RADIO_CONNECTION_ACTIVE then some ""
      else some wifi.connection_target.ssid

def isScanning_wait (busy : Option Nat) (wifi_singleton : Option Wifi) : Option Bool :=
  match wifi_singleton with
  | none => some false
  | some wifi => wifi.isScanActive_wait busy

/-- The timed acquisition `lock->acquire(10 / portTICK_PERIOD_MS)`; once it succeeded the
recursive mutex is held by the caller and the nested acquisitions return at once. -/
def getScanResults_wait (portTICK_PERIOD_MS : Nat) (busy : Option Nat)
    (wifi_singleton : Option Wifi) : Option (List WifiApRecord) :=
  match wifi_singleton with
  | none => some []
  | some wifi =>
    match Mutex_acquire busy (Timeout.ticks (10 / portTICK_PERIOD_MS)) with
    | none => none
    | some lock_acquired => some (getScanResults lock_acquired (some wifi))

/-- The timed acquisition `lock->acquire(10 / portTICK_PERIOD_MS)`; once it succeeded the
recursive mutex is held by the caller and the nested acquisition returns at once. -/
def isConnectionSecure_wait (portTICK_PERIOD_MS : Nat) (busy : Option Nat)
    (wifi_singleton : Option Wifi) : Option Bool :=
  match wifi_singleton with
  | none => some false
  | some wifi =>
    match Mutex_acquire busy (Timeout.ticks (10 / portTICK_PERIOD_MS)) with
    | none => none
    | some lock_acquired => some (isConnectionSecure lock_acquired (some wifi))

/-! ## The event bus (`TactilityCore/Source/Pubsub.cpp`)

The bus is a record of the counter `last_id` and the subscriber list `items`. The bus mutex is
taken with `TtWaitForever`, so the acquisitions succeed and each locked section is atomic. A
callback and its context pointer are modelled by numbers naming them, a message by a number; the
invocations `it.callback(message, it.callback_context)` are recorded in `delivered` with their
arguments. A callback does not itself call into the bus. The handle returned by
`tt_pubsub_subscribe` is the counter converted to a pointer; the conversion and its inverse in
`tt_pubsub_unsubscribe` keep the value. `tt_pubsub_subscribe` reads the counter for its return
value after it has released the mutex, so it is given in two parts: the locked section and the
return statement. -/

/-- Width in bits of `PubSub::last_id` and of `PubSubSubscription::id`: `tt_pubsub_unsubscribe`
compares the stored id with a `uint64_t`. -/
def ID_BITS : Nat := 64

/-- One entry of the subscriber list. -/
structure PubSubSubscription where
  id : Nat
  callback : Nat
  callback_context : Nat
  deriving DecidableEq, Repr

/-- One invocation `callback(message, callback_context)`. -/
structure CallbackCall where
  callback : Nat
  message : Nat
  callback_context : Nat
  deriving DecidableEq, Repr

/-- The bus. `delivered` lists the callback invocations, oldest first. `fault` records a failed
`tt_assert` or `tt_check`. -/
structure PubSub where
  last_id : Nat := 0
  items : List PubSubSubscription := []
  delivered : List CallbackCall := []
  fault : Option Fault := none
  deriving DecidableEq, Repr

/-- The locked section of `tt_pubsub_subscribe`: the counter is incremented and the new
subscription, with the new counter value as its id, is appended. -/
def tt_pubsub_subscribe_locked (pubsub : PubSub) (callback callback_context : Nat) : PubSub :=
  let last_id := (pubsub.last_id + 1) % 2 ^ ID_BITS
  let subscription : PubSubSubscription :=
    { id := last_id, callback := callback, callback_context := callback_context }
  { pubsub with last_id := last_id, items := pubsub.items ++ [subscription] }

/-- The return statement of `tt_pubsub_subscribe`, `return (PubSubSubscription*)pubsub->last_id`,
which runs after the mutex has been released: the handle is the counter as it is then. -/
def tt_pubsub_subscribe_return (pubsub : PubSub) : Nat := pubsub.last_id

/-- A call of `tt_pubsub_subscribe` during which no other task calls into the bus: the bus
afterwards and the handle returned. -/
def tt_pubsub_subscribe (pubsub : PubSub) (callback callback_context : Nat) : PubSub × Nat :=
  let pubsub := tt_pubsub_subscribe_locked pubsub callback callback_context
  (pubsub, tt_pubsub_subscribe_return pubsub)

/-- The loop of `tt_pubsub_unsubscribe`: the first entry with the id is erased and the loop is
left; the first component is `result`. -/
def tt_pubsub_unsubscribe_loop (id : Nat) :
    List PubSubSubscription → Bool × List PubSubSubscription
  | [] => (false, [])
  | it :: rest =>
    if it.id = id then (true, rest)
    else ((tt_pubsub_unsubscribe_loop id rest).1, it :: (tt_pubsub_unsubscribe_loop id rest).2)

/-- `tt_pubsub_unsubscribe`: `tt_assert(pubsub_subscription)`, the loop, `tt_check(result)`. -/
def tt_pubsub_unsubscribe (pubsub : PubSub) (pubsub_subscription : Nat) : PubSub :=
  if pubsub_subscription = 0 then { pubsub with fault := some Fault.tt_assert }
  else
    let id := pubsub_subscription
    let found := tt_pubsub_unsubscribe_loop id pubsub.items
    if found.1 then { pubsub with items := found.2 }
    else { pubsub with items := found.2, fault := some Fault.tt_check }

/-- The invocation `it.callback(message, it.callback_context)`. -/
def callback_call (message : Nat) (it : PubSubSubscription) : CallbackCall :=
  ⟨it.callback, message, it.callback_context⟩

/-- `tt_pubsub_publish`: the callbacks are called in list order. -/
def tt_pubsub_publish (pubsub : PubSub) (message : Nat) : PubSub :=
  pubsub.items.foldl
    (fun bus it => { bus with delivered := bus.delivered ++ [callback_call message it] }) pubsub

/-- A call on the bus that runs from its start to its return without another call on the bus
in between. -/
inductive PubSubCall
  | subscribe (callback callback_context : Nat)
  | unsubscribe (pubsub_subscription : Nat)
  | publish (message : Nat)
  deriving DecidableEq, Repr

/-- One call on the bus; the second component collects the handles returned by
`tt_pubsub_subscribe`, oldest first. Nothing runs after a failed check. -/
def pubsub_step (state : PubSub × List Nat) (call : PubSubCall) : PubSub × List Nat :=
  if state.1.fault ≠ none then state
  else
    match call with
    | PubSubCall.subscribe callback callback_context =>
      ((tt_pubsub_subscribe state.1 callback callback_context).1,
        state.2 ++ [(tt_pubsub_subscribe state.1 callback callback_context).2])
    | PubSubCall.unsubscribe pubsub_subscription =>
      (tt_pubsub_unsubscribe state.1 pubsub_subscription, state.2)
    | PubSubCall.publish message => (tt_pubsub_publish state.1 message, state.2)

/-- A sequence of calls on a bus. -/
def pubsub_run (state : PubSub × List Nat) (calls : List PubSubCall) : PubSub × List Nat :=
  calls.foldl pubsub_step state

/-- A newly constructed bus. -/
def pubsub_new : PubSub := {}

/-! ## Auxiliary definitions and concrete inputs

Names for intermediate states of the connect command, for what the notification handler leaves
alone, and the concrete instances, inputs and runs at which the code is evaluated below. -/

/-- A freshly constructed instance with the scan limit set to 16. -/
def wifi_fresh : Wifi := { scan_list_limit := 16 }

/-- Every driver call succeeds, every lock is obtained. -/
def env_ok : Env := {}

/-- The wait of the connect command is answered by an address-acquired notification. -/
def env_got_ip : Env := { during_wait := [Notification.IP_EVENT_STA_GOT_IP] }

/-- The fresh instance after `setEnabled(true)` and a successful enable command: the radio is
`On`. -/
def wifi_on : Wifi :=
  run wifi_fresh [Action.setEnabled true true, Action.execute env_ok]

/-- The switched-on radio after a successful `connect` to the protected network "home": the
radio is `ConnectionActive`. -/
def wifi_connected : Wifi :=
  run wifi_on [Action.connect ⟨"home", "pw", false⟩ false true, Action.execute env_got_ip]

/-- The driver refuses to stop (`ESP_FAIL`). -/
def env_stop_fails : Env := { esp_wifi_stop := -1 }

/-- The stop succeeds, every later teardown step fails. -/
def env_teardown_fails : Env :=
  { set_mode_null := -1, unregister_wifi := -1, unregister_ip := -1, esp_wifi_deinit := -1 }

/-- The driver cannot start for lack of memory. -/
def env_start_fails : Env := { esp_wifi_start := ESP_ERR_NO_MEM }

/-- The forward steps of the enable sequence: init, set-mode (station) and start. -/
def isEnableStep (c : DriverCall) : Bool :=
  c = DriverCall.esp_wifi_init ∨ c = DriverCall.esp_wifi_set_mode_sta ∨
    c = DriverCall.esp_wifi_start

/-- The part of the instance a run of the notification handler does not touch, and the shape of
what it publishes: only `Disconnected` and `ScanFinished`. -/
def HandlerFrame (before after : Wifi) : Prop :=
  after.connection_target = before.connection_target ∧
  after.connection_target_remember = before.connection_target_remember ∧
  after.secure_connection = before.secure_connection ∧
  after.saved = before.saved ∧
  after.fault = before.fault ∧
  ∃ events, after.published = before.published ++ events ∧
    ∀ e ∈ events, e = WifiEventTypeDisconnected ∨ e = WifiEventTypeScanFinished

/-- The state in which `dispatchConnect` enters its wait, `wifi` being the state in which it
set `ConnectionPending`. -/
def connect_wait_entry (wifi : Wifi) : Wifi :=
  ((publish_event_simple (wifi.setRadioState WIFI_RADIO_CONNECTION_PENDING)
    WifiEventTypeConnectionPending).call
      (DriverCall.esp_wifi_set_config wifi.connection_target.ssid
        wifi.connection_target.password)).call DriverCall.esp_wifi_start

/-- The state in which `dispatchConnect` leaves its wait. -/
def connect_wait_exit (env : Env) (wifi : Wifi) : Wifi :=
  env.during_wait.foldl (fun w event => eventHandler_body event w) (connect_wait_entry wifi)

/-- The state in which `dispatchConnect` sets `ConnectionPending`: the driver has been stopped
first when the radio was on. -/
def connect_stopped (wifi : Wifi) : Wifi :=
  if wifi.radio_state = WIFI_RADIO_ON ∨ wifi.radio_state = WIFI_RADIO_CONNECTION_ACTIVE ∨
      wifi.radio_state = WIFI_RADIO_CONNECTION_PENDING then
    (wifi.call DriverCall.esp_wifi_stop).setScanActive false
  else wifi

/-- The public call `connect(ap, remember)` obtaining the data lock, followed by the main
dispatcher running the command it handed over. -/
def connect_then_execute (ap : WifiApSettings) (remember : Bool) (env : Env) (wifi : Wifi) :
    Wifi :=
  run wifi [Action.connect ap remember true, Action.execute env]

/-- The wait returns with the `Failed` bit after a disconnected notification. -/
def env_wait_failed : Env :=
  { wait_bits := WIFI_FAIL_BIT, during_wait := [Notification.WIFI_EVENT_STA_DISCONNECTED] }

/-- A scan in progress on a switched-on radio whose scan limit was set to 5 beforehand. -/
def wifi_scanning_limit5 : Wifi :=
  run wifi_fresh [Action.setScanRecords 5 true, Action.setEnabled true true,
    Action.execute env_ok, Action.scan, Action.execute env_ok]

/-- The switched-on, connected radio with a scan in progress. -/
def wifi_connected_scanning : Wifi :=
  run wifi_connected [Action.scan, Action.execute env_ok]

/-- Twelve access points named after their position. -/
def twelve_access_points : List wifi_ap_record_t :=
  (List.range 12).map (fun i => ⟨toString i, -40 - i, 3, 1⟩)

/-- A credential store that knows "home" (auto-connect on) and "guest" (auto-connect off). -/
def store_home_guest : Settings :=
  ⟨fun ssid => ssid = "home" ∨ ssid = "guest",
    fun ssid =>
      if ssid = "home" then some ⟨"home", "pw", true⟩
      else if ssid = "guest" then some ⟨"guest", "", false⟩
      else none⟩

/-- Every call succeeds and the credential store is `store_home_guest`. -/
def env_store : Env := { settings := store_home_guest }

/-- The access point "home" as the driver reports it. -/
def ap_home : wifi_ap_record_t := ⟨"home", -60, 3, 6⟩

/-- The access point "guest" as the driver reports it. -/
def ap_guest : wifi_ap_record_t := ⟨"guest", -40, 0, 1⟩

/-- The network the user connects to by hand. -/
def ap_cafe : WifiApSettings := ⟨"cafe", "espresso", false⟩

/-- The run up to the point where the auto-connect evaluation is about to execute: the radio is
enabled, a scan is started and finishes with "home" in range, which queues the evaluation; before
the evaluation runs, the user asks for a connection to "cafe". -/
def manual_connect_before_evaluation : List Action :=
  [Action.setEnabled true true, Action.execute env_ok, Action.scan, Action.execute env_ok,
    Action.eventHandler (Notification.WIFI_EVENT_SCAN_DONE ESP_OK [ap_home]),
    Action.connect ap_cafe true true]

/-- The switched-on radio after a scan that found "guest" first and "home" second; the
auto-connect evaluation queued by the scan-done notification is the oldest queued function. -/
def wifi_guest_then_home : Wifi :=
  run wifi_on [Action.scan, Action.execute env_ok,
    Action.eventHandler (Notification.WIFI_EVENT_SCAN_DONE ESP_OK [ap_guest, ap_home])]

/-- The same with "home" found first and "guest" second. -/
def wifi_home_then_guest : Wifi :=
  run wifi_on [Action.scan, Action.execute env_ok,
    Action.eventHandler (Notification.WIFI_EVENT_SCAN_DONE ESP_OK [ap_home, ap_guest])]

/-- The switched-on radio after a scan requested at tick 5000 that found nothing. -/
def wifi_scanned_at_5000 : Wifi :=
  run wifi_on [Action.scan, Action.execute { ticks := 5000 },
    Action.eventHandler (Notification.WIFI_EVENT_SCAN_DONE ESP_OK []), Action.execute env_ok]

/-- The switched-on radio after a scan requested 296 ticks before the tick counter wraps, that
found nothing. -/
def wifi_scanned_before_wrap : Wifi :=
  run wifi_on [Action.scan, Action.execute { ticks := 4294967000 },
    Action.eventHandler (Notification.WIFI_EVENT_SCAN_DONE ESP_OK []), Action.execute env_ok]

/-- The public call `disconnect()` obtaining the data lock, followed by the main dispatcher
running the command it handed over. -/
def disconnect_then_execute (env : Env) (wifi : Wifi) : Wifi :=
  run wifi [Action.disconnect true, Action.execute env]

/-- The scan buffer invariant: without a buffer the record count is 0; an allocated buffer has room
for exactly `scan_list_limit` records, of which at most that many are counted. -/
def ScanListInv (wifi : Wifi) : Prop :=
  (wifi.scan_list = none → wifi.scan_list_count = 0) ∧
  ∀ buffer, wifi.scan_list = some buffer →
    buffer.length = wifi.scan_list_limit ∧ wifi.scan_list_count ≤ wifi.scan_list_limit

/-- The scan buffer, its record count and the scan limit are the same in both states. -/
def ScanFrame (before after : Wifi) : Prop :=
  after.scan_list = before.scan_list ∧ after.scan_list_count = before.scan_list_count ∧
    after.scan_list_limit = before.scan_list_limit

/-- The driver refuses the configuration (`ESP_FAIL`). -/
def env_config_fails : Env := { esp_wifi_set_config := -1 }

/-- The driver cannot register the first event handler for lack of memory. -/
def env_register_fails : Env := { register_wifi := ESP_ERR_NO_MEM }

/-- The switched-on radio with a scan in progress. -/
def wifi_on_scanning : Wifi := run wifi_on [Action.scan, Action.execute env_ok]

/-- The radio after a scan was started and a `disconnect()` whose command could not configure
the driver: the state is `Off` while the scan is still marked active. -/
def wifi_off_scanning : Wifi :=
  run wifi_on_scanning [Action.disconnect true, Action.execute env_config_fails]

/-- A freshly started service on which `connect` was called without a prior enable and the
driver refused the configuration: the connect command leaves the radio state `On` with no
interface handle. -/
def wifi_on_without_enable : Wifi :=
  run (wifi_started 16) [Action.connect ap_cafe false true, Action.execute env_config_fails]

/-- The radio states of the enable/disable cycle. -/
def inEnableCycle (state : WifiRadioState) : Prop :=
  state = WIFI_RADIO_OFF ∨ state = WIFI_RADIO_ON_PENDING ∨ state = WIFI_RADIO_ON ∨
    state = WIFI_RADIO_OFF_PENDING

/-- A `setEnabled` call, or the main dispatcher running the oldest queued function. -/
def isSetEnabledStep : Action → Bool
  | Action.setEnabled _ _ => true
  | Action.execute _ => true
  | _ => false

/-- The radio state and every state written so far lie in the enable/disable cycle, and only enable
and disable commands are queued. -/
def EnableCycleInv (wifi : Wifi) : Prop :=
  inEnableCycle wifi.radio_state ∧
  (∀ p ∈ wifi.radio_state_changes, inEnableCycle p.1 ∧ inEnableCycle p.2) ∧
  ∀ f ∈ wifi.dispatched, f = Command.dispatchEnable ∨ f = Command.dispatchDisable

/-- The writes to the radio state by a command that goes through the pending state `pending`:
none, the pending state alone (the command was cut short by a fatal check), or the pending state
followed by `On` or `Off`. -/
def ThroughPending (pending : WifiRadioState) (before after : Wifi) : Prop :=
  (after.radio_state = before.radio_state ∧
    after.radio_state_changes = before.radio_state_changes) ∨
  (after.radio_state = pending ∧
    after.radio_state_changes = before.radio_state_changes ++ [(before.radio_state, pending)]) ∨
  (after.radio_state = WIFI_RADIO_OFF ∧
    after.radio_state_changes =
      before.radio_state_changes ++ [(before.radio_state, pending), (pending, WIFI_RADIO_OFF)]) ∨
  (after.radio_state = WIFI_RADIO_ON ∧
    after.radio_state_changes =
      before.radio_state_changes ++ [(before.radio_state, pending), (pending, WIFI_RADIO_ON)])

/-- A run of `setEnabled` calls and command executions with failing driver steps. -/
def enable_disable_run : List Action :=
  [Action.setEnabled true true, Action.execute env_start_fails, Action.setEnabled true true,
    Action.execute env_ok, Action.setEnabled false true, Action.execute env_stop_fails,
    Action.setEnabled false true, Action.setEnabled true false, Action.execute env_teardown_fails,
    Action.execute env_ok]

/-- The connect command with the value of its wait read from the wait-signal: the driver task
handles `env.during_wait` while the command is blocked, and the wait returns the bits they
raised; `env.wait_bits` is not used. `none` stands for a command that stays blocked in the
wait. When the command returns before the wait it is `dispatchConnect`. -/
def dispatchConnect_signalled (env : Env) (wifi : Wifi) : Option Wifi :=
  if env.radio_lock = true ∧
      (wifi.radio_state = WIFI_RADIO_ON ∨ wifi.radio_state = WIFI_RADIO_CONNECTION_ACTIVE ∨
        wifi.radio_state = WIFI_RADIO_CONNECTION_PENDING → env.esp_wifi_stop = ESP_OK) ∧
      env.esp_wifi_set_config = ESP_OK ∧ env.esp_wifi_start = ESP_OK then
    (EventFlag_wait (connect_wait_exit env (connect_stopped wifi)).connection_wait_flags
      (WIFI_FAIL_BIT ||| WIFI_CONNECTED_BIT)).map
      (fun bits => dispatchConnect { env with wait_bits := bits } wifi)
  else some (dispatchConnect env wifi)

/-- Modelled from the spec: `settings::save` is not part of the sources. The credential store
after the saves `saved` have succeeded, oldest first: a saved name is known to the store and
loads what was saved last under it. -/
def Settings.after_saves (store : Settings) (saved : List WifiApSettings) : Settings :=
  saved.foldl
    (fun s ap =>
      ⟨fun ssid => decide (ssid = ap.ssid) || s.contains ssid,
        fun ssid => if ssid = ap.ssid then some ap else s.load ssid⟩)
    store

/-- Every driver call succeeds and the address-acquired notification is handled while the
connect command waits; the value of the wait is left to the wait-signal. -/
def env_address_acquired : Env :=
  { during_wait := [Notification.IP_EVENT_STA_GOT_IP], wait_bits := 0 }

/-- Every driver call succeeds and no notification is handled while the connect command
waits. -/
def env_no_notification : Env := { during_wait := [], wait_bits := 0 }

/-- The freshly started service after `setEnabled(true)` and the enable command with every
driver call succeeding. -/
def scenario_enabled (limit : Nat) : Wifi :=
  run (wifi_started limit) [Action.setEnabled true true, Action.execute env_ok]

/-- Then `scan()`, the scan command, and the scan-done notification with the records `found`. -/
def scenario_scanned (limit : Nat) (found : List wifi_ap_record_t) : Wifi :=
  run (scenario_enabled limit)
    [Action.scan, Action.execute env_ok,
      Action.eventHandler (Notification.WIFI_EVENT_SCAN_DONE ESP_OK found)]

/-- Then the auto-connect evaluation queued by the scan-done notification (the credential store
is empty) and `connect(ap, true)`: the connect command is queued. -/
def scenario_connect_called (limit : Nat) (found : List wifi_ap_record_t) (ap : WifiApSettings) :
    Wifi :=
  run (scenario_scanned limit found) [Action.execute env_ok, Action.connect ap true true]

/-- Then the main dispatcher runs the connect command, in whose wait the address-acquired
notification is handled; the wait returns what the wait-signal holds. -/
def scenario_connected (limit : Nat) (found : List wifi_ap_record_t) (ap : WifiApSettings) :
    Option Wifi :=
  dispatchConnect_signalled env_address_acquired
    ((scenario_connect_called limit found ap).dequeue [])

/-- What holds of a bus and the handles it has returned as long as the counter has not wrapped:
the counter is the number of handles returned, the handles are 1, 2, 3, ... in this order, every
subscription carries a handle that was returned, and no two subscriptions carry the same. -/
def PubSubInv (state : PubSub × List Nat) : Prop :=
  state.1.last_id = state.2.length ∧ state.2 = List.range' 1 state.2.length ∧
  (∀ it ∈ state.1.items, it.id ∈ state.2) ∧ (state.1.items.map PubSubSubscription.id).Nodup

/-- The bus when two tasks subscribe at the same time: the first task (callback 7) has left the
locked section of its call and is preempted before its return statement; the second task
(callback 8) has run its whole call. -/
def pubsub_overlapping : PubSub × Nat :=
  tt_pubsub_subscribe (tt_pubsub_subscribe_locked pubsub_new 7 70) 8 80

/-- Two subscriptions, the first is unsubscribed, a third subscription, two messages. -/
def pubsub_calls : List PubSubCall :=
  [PubSubCall.subscribe 7 70, PubSubCall.subscribe 8 80, PubSubCall.unsubscribe 1,
    PubSubCall.subscribe 9 90, PubSubCall.publish 5, PubSubCall.publish 6]

/-- The radio states that are not pending: `Off`, `On` and `ConnectionActive`. -/
def isSettled (state : WifiRadioState) : Prop :=
  state = WIFI_RADIO_OFF ∨ state = WIFI_RADIO_ON ∨ state = WIFI_RADIO_CONNECTION_ACTIVE

/-- Handling `events` in turn from `wifi`, an address-acquired notification is handled while the
radio state is `ConnectionPending`. -/
def address_acquired_while_pending : List Notification → Wifi → Bool
  | [], _ => false
  | event :: rest, wifi =>
    (decide (event = Notification.IP_EVENT_STA_GOT_IP) &&
      decide (wifi.radio_state = WIFI_RADIO_CONNECTION_PENDING)) ||
      address_acquired_while_pending rest (eventHandler_body event wifi)

/-- The action is a `setEnabled` call that obtains the data lock, or it handles an
address-acquired notification while the radio state is `ConnectionPending`: directly, or in the
wait of the connect command the main dispatcher runs. -/
def liftsPause (wifi : Wifi) : Action → Bool
  | Action.setEnabled _ lock_acquired => lock_acquired
  | Action.eventHandler event => address_acquired_while_pending [event] wifi
  | Action.execute env =>
    match wifi.dispatched with
    | Command.dispatchConnect :: rest =>
      address_acquired_while_pending env.during_wait
        (connect_wait_entry (connect_stopped (wifi.dequeue rest)))
    | _ => false
  | _ => false

/-- No action of the run lifts the pause. -/
def pauseKept : Wifi → List Action → Bool
  | _, [] => true
  | wifi, a :: rest => !liftsPause wifi a && pauseKept (step wifi a) rest

/-- The state in which the main dispatcher runs the auto-connect evaluation queued by the scan
that found "home" first and "guest" second. -/
def wifi_evaluation_start : Wifi := wifi_home_then_guest.dequeue []

/-- The state in which the main dispatcher runs the connect command after `connect("cafe")` was
called while a scan was in progress. -/
def wifi_connect_start : Wifi :=
  (run wifi_on_scanning [Action.connect ap_cafe false true]).dequeue []

/-- The state in which that connect command waits for the driver: `ConnectionPending`, the scan
no longer marked active. -/
def wifi_waiting_after_scan : Wifi := connect_wait_entry (connect_stopped wifi_connect_start)

/-- The part of `dispatchEnable` after `esp_wifi_start()` has returned. -/
def dispatchEnable_after_start (env : Env) (wifi : Wifi) : Wifi :=
  if env.esp_wifi_start ≠ ESP_OK then
    let wifi := wifi.setRadioState WIFI_RADIO_OFF
    let wifi := wifi.call DriverCall.esp_wifi_set_mode_null
    let wifi := wifi.call DriverCall.esp_wifi_deinit
    publish_event_simple wifi WifiEventTypeRadioStateOff
  else
    let wifi := wifi.setRadioState WIFI_RADIO_ON
    publish_event_simple wifi WifiEventTypeRadioStateOn

/-- The enable command when the driver task runs `eventHandler` on `events` while the command is
between `esp_wifi_start()` and its check of the result; both handlers are registered by then, and
the handler takes `dataMutex` only, which the command does not hold there. -/
def dispatchEnable_interleaved (env : Env) (events : List Notification) (wifi : Wifi) : Wifi :=
  let state := wifi.getRadioState
  if state = WIFI_RADIO_ON ∨ state = WIFI_RADIO_ON_PENDING ∨ state = WIFI_RADIO_OFF_PENDING then
    wifi
  else if env.radio_lock then
    let wifi := wifi.setRadioState WIFI_RADIO_ON_PENDING
    let wifi := publish_event_simple wifi WifiEventTypeRadioStateOnPending
    let wifi := if wifi.netif then wifi.call DriverCall.esp_netif_destroy else wifi
    let wifi := { wifi.call DriverCall.esp_netif_create_default_wifi_sta with netif := true }
    let wifi := wifi.call DriverCall.esp_wifi_init
    if env.esp_wifi_init ≠ ESP_OK then
      let wifi := wifi.setRadioState WIFI_RADIO_OFF
      publish_event_simple wifi WifiEventTypeRadioStateOff
    else
      let wifi := wifi.call DriverCall.esp_wifi_set_storage
      let wifi := wifi.call DriverCall.esp_event_handler_instance_register_wifi
      if env.register_wifi ≠ ESP_OK then wifi.abort Fault.esp_error_check
      else
        let wifi := { wifi with event_handler_any_id := true }
        let wifi := wifi.call DriverCall.esp_event_handler_instance_register_ip
        if env.register_ip ≠ ESP_OK then wifi.abort Fault.esp_error_check
        else
          let wifi := { wifi with event_handler_got_ip := true }
          let wifi := wifi.call DriverCall.esp_wifi_set_mode_sta
          if env.set_mode_sta ≠ ESP_OK then
            let wifi := wifi.setRadioState WIFI_RADIO_OFF
            let wifi := wifi.call DriverCall.esp_wifi_deinit
            publish_event_simple wifi WifiEventTypeRadioStateOff
          else
            let wifi := wifi.call DriverCall.esp_wifi_start
            let wifi := events.foldl (fun w event => eventHandler_body event w) wifi
            dispatchEnable_after_start env wifi
  else
    wifi

/-- The part of `dispatchDisable` after `esp_wifi_stop()` has returned. -/
def dispatchDisable_after_stop (env : Env) (wifi : Wifi) : Wifi :=
  if env.esp_wifi_stop ≠ ESP_OK then
    let wifi := wifi.setRadioState WIFI_RADIO_ON
    publish_event_simple wifi WifiEventTypeRadioStateOn
  else
    let wifi := wifi.call DriverCall.esp_wifi_set_mode_null
    let wifi := wifi.call DriverCall.esp_event_handler_instance_unregister_wifi
    let wifi := wifi.call DriverCall.esp_event_handler_instance_unregister_ip
    let wifi := wifi.call DriverCall.esp_wifi_deinit
    if ¬ wifi.netif then wifi.abort Fault.tt_assert
    else
      let wifi := wifi.call DriverCall.esp_netif_destroy
      let wifi := { wifi with netif := false }
      let wifi := wifi.setScanActive false
      let wifi := wifi.setRadioState WIFI_RADIO_OFF
      publish_event_simple wifi WifiEventTypeRadioStateOff

/-- The disable command when the driver task runs `eventHandler` on `events` while the command is
between `esp_wifi_stop()` and its check of the result; the handlers are unregistered only later,
and the handler takes `dataMutex` only, which the command does not hold there. -/
def dispatchDisable_interleaved (env : Env) (events : List Notification) (wifi : Wifi) : Wifi :=
  if ¬ env.radio_lock then wifi
  else
    let state := wifi.getRadioState
    if state = WIFI_RADIO_OFF ∨ state = WIFI_RADIO_OFF_PENDING ∨ state = WIFI_RADIO_ON_PENDING then
      wifi
    else
      let wifi := wifi.setRadioState WIFI_RADIO_OFF_PENDING
      let wifi := publish_event_simple wifi WifiEventTypeRadioStateOffPending
      let wifi := scan_list_free_safely wifi
      let wifi := wifi.call DriverCall.esp_wifi_stop
      let wifi := events.foldl (fun w event => eventHandler_body event w) wifi
      dispatchDisable_after_stop env wifi

/-- The state in which the main dispatcher runs the disable command after `setEnabled(false)` on
the connected radio. -/
def wifi_disable_start : Wifi := (run wifi_connected [Action.setEnabled false true]).dequeue []

/-! # Properties -/

/-! ## Disable command -/

/-- C1 (as stated, refuted): run on the switched-on radio (state `On`, interface handle
allocated) with the radio lock obtained, a failing `esp_wifi_stop` makes the disable command end
in `On`, not `Off`; it publishes `RadioOffPending` and then, last, `RadioOn`. -/
theorem dispatchDisable_stop_failure_ends_on :
    (dispatchDisable env_stop_fails wifi_on).radio_state = WIFI_RADIO_ON ∧
    (dispatchDisable env_stop_fails wifi_on).radio_state ≠ WIFI_RADIO_OFF ∧
    (dispatchDisable env_stop_fails wifi_on).published =
      wifi_on.published ++ [WifiEventTypeRadioStateOffPending, WifiEventTypeRadioStateOn] ∧
    wifi_on.radio_state = WIFI_RADIO_ON ∧ wifi_on.netif = true ∧ wifi_on.fault = none := by
  decide

/-- C1 (amended): from every state in which disable is valid, once the command holds the radio
lock: if `esp_wifi_stop` succeeds and the interface handle is allocated, then whatever the
results of unsetting the mode, unregistering the two handlers and deinit, the command ends in
`Off`, without a fatal check, having published `RadioOffPending` and last `RadioOff`; if
`esp_wifi_stop` fails it ends in `On` having published `RadioOffPending` and last `RadioOn`. -/
theorem dispatchDisable_terminal (env : Env) (wifi : Wifi)
    (hstate : wifi.radio_state = WIFI_RADIO_ON ∨ wifi.radio_state = WIFI_RADIO_CONNECTION_ACTIVE ∨
      wifi.radio_state = WIFI_RADIO_CONNECTION_PENDING)
    (hlock : env.radio_lock = true) (hfault : wifi.fault = none) :
    (env.esp_wifi_stop = ESP_OK → wifi.netif = true →
      (dispatchDisable env wifi).radio_state = WIFI_RADIO_OFF ∧
      (dispatchDisable env wifi).fault = none ∧
      (dispatchDisable env wifi).published =
        wifi.published ++ [WifiEventTypeRadioStateOffPending, WifiEventTypeRadioStateOff]) ∧
    (env.esp_wifi_stop ≠ ESP_OK →
      (dispatchDisable env wifi).radio_state = WIFI_RADIO_ON ∧
      (dispatchDisable env wifi).published =
        wifi.published ++ [WifiEventTypeRadioStateOffPending, WifiEventTypeRadioStateOn]) := by
  constructor
  · intro hstop hnetif
    rcases hstate with h | h | h <;>
    · cases hl : wifi.scan_list <;>
        simp [dispatchDisable, scan_list_free_safely, scan_list_free, publish_event_simple,
          Wifi.getRadioState, Wifi.setRadioState, Wifi.setScanActive, Wifi.call, Wifi.abort,
          h, hl, hlock, hstop, hnetif, hfault]
  · intro hstop
    rcases hstate with h | h | h <;>
    · cases hl : wifi.scan_list <;>
        simp [dispatchDisable, scan_list_free_safely, scan_list_free, publish_event_simple,
          Wifi.getRadioState, Wifi.setRadioState, Wifi.setScanActive, Wifi.call, Wifi.abort,
          h, hl, hlock, hstop, hfault]

/-- Witness for `dispatchDisable_terminal`: the connected radio, all teardown steps failing except
the stop. -/
theorem dispatchDisable_terminal_witness :
    wifi_connected.radio_state = WIFI_RADIO_CONNECTION_ACTIVE ∧
    env_teardown_fails.radio_lock = true ∧ env_teardown_fails.esp_wifi_stop = ESP_OK ∧
    env_teardown_fails.esp_wifi_deinit ≠ ESP_OK ∧ wifi_connected.netif = true ∧
    (dispatchDisable env_teardown_fails wifi_connected).radio_state = WIFI_RADIO_OFF ∧
    (dispatchDisable env_teardown_fails wifi_connected).fault = none ∧
    (dispatchDisable env_teardown_fails wifi_connected).published =
      wifi_connected.published ++
        [WifiEventTypeRadioStateOffPending, WifiEventTypeRadioStateOff] :=
  ⟨by decide, by decide, by decide, by decide, by decide,
    (dispatchDisable_terminal env_teardown_fails wifi_connected (by decide) (by decide)
      (by decide)).1 (by decide) (by decide)⟩

/-! ## Enable command -/

/-- C2: the enable command started in `Off` (radio lock obtained), when one of init, set-mode or
start fails: it ends in `Off` without a fatal check, the events it publishes are exactly
`RadioOnPending` then `RadioOff` (so `RadioOn` is not among them), and among its driver calls the
forward steps init, set-mode, start occur once each up to and including the failing one and not
after it; what follows the failing step is only the rollback (`esp_wifi_set_mode(WIFI_MODE_NULL)`
after a failed start, `esp_wifi_deinit` after a failed set-mode or start). The handler
registrations, which lie between init and set-mode and are fatal checks, are assumed to succeed
when they are reached. -/
theorem dispatchEnable_failure_rolls_back (env : Env) (wifi : Wifi)
    (hstate : wifi.radio_state = WIFI_RADIO_OFF) (hlock : env.radio_lock = true)
    (hfault : wifi.fault = none)
    (hreg : env.esp_wifi_init = ESP_OK → env.register_wifi = ESP_OK ∧ env.register_ip = ESP_OK)
    (hfail : env.esp_wifi_init ≠ ESP_OK ∨ env.set_mode_sta ≠ ESP_OK ∨
      env.esp_wifi_start ≠ ESP_OK) :
    (dispatchEnable env wifi).radio_state = WIFI_RADIO_OFF ∧
    (dispatchEnable env wifi).fault = none ∧
    (∃ events, (dispatchEnable env wifi).published = wifi.published ++ events ∧
      events = [WifiEventTypeRadioStateOnPending, WifiEventTypeRadioStateOff] ∧
      WifiEventTypeRadioStateOn ∉ events) ∧
    (∃ calls, (dispatchEnable env wifi).driver_calls = wifi.driver_calls ++ calls ∧
      calls =
        (if wifi.netif then [DriverCall.esp_netif_destroy] else []) ++
        [DriverCall.esp_netif_create_default_wifi_sta, DriverCall.esp_wifi_init] ++
        (if env.esp_wifi_init ≠ ESP_OK then []
         else
          [DriverCall.esp_wifi_set_storage, DriverCall.esp_event_handler_instance_register_wifi,
            DriverCall.esp_event_handler_instance_register_ip,
            DriverCall.esp_wifi_set_mode_sta] ++
          (if env.set_mode_sta ≠ ESP_OK then [DriverCall.esp_wifi_deinit]
           else
            [DriverCall.esp_wifi_start, DriverCall.esp_wifi_set_mode_null,
              DriverCall.esp_wifi_deinit])) ∧
      calls.filter isEnableStep =
        (if env.esp_wifi_init ≠ ESP_OK then [DriverCall.esp_wifi_init]
         else if env.set_mode_sta ≠ ESP_OK then
          [DriverCall.esp_wifi_init, DriverCall.esp_wifi_set_mode_sta]
         else
          [DriverCall.esp_wifi_init, DriverCall.esp_wifi_set_mode_sta,
            DriverCall.esp_wifi_start])) := by
  by_cases h1 : env.esp_wifi_init = ESP_OK
  · obtain ⟨hr1, hr2⟩ := hreg h1
    by_cases h2 : env.set_mode_sta = ESP_OK
    · have h3 : env.esp_wifi_start ≠ ESP_OK := by
        rcases hfail with h | h | h
        · exact absurd h1 h
        · exact absurd h2 h
        · exact h
      cases hn : wifi.netif <;>
        simp [dispatchEnable, publish_event_simple, Wifi.getRadioState, Wifi.setRadioState,
          Wifi.call, Wifi.abort, isEnableStep, hstate, hlock, hfault, h1, h2, h3, hr1, hr2, hn]
    · cases hn : wifi.netif <;>
        simp [dispatchEnable, publish_event_simple, Wifi.getRadioState, Wifi.setRadioState,
          Wifi.call, Wifi.abort, isEnableStep, hstate, hlock, hfault, h1, h2, hr1, hr2, hn]
  · cases hn : wifi.netif <;>
      simp [dispatchEnable, publish_event_simple, Wifi.getRadioState, Wifi.setRadioState,
        Wifi.call, Wifi.abort, isEnableStep, hstate, hlock, hfault, h1, hn]

/-- Witness for `dispatchEnable_failure_rolls_back`: a fresh instance, the driver start failing
for lack of memory. -/
theorem dispatchEnable_failure_rolls_back_witness :
    wifi_fresh.radio_state = WIFI_RADIO_OFF ∧ env_start_fails.radio_lock = true ∧
    env_start_fails.esp_wifi_start ≠ ESP_OK ∧
    (dispatchEnable env_start_fails wifi_fresh).radio_state = WIFI_RADIO_OFF ∧
    (dispatchEnable env_start_fails wifi_fresh).fault = none :=
  ⟨by decide, by decide, by decide,
    (dispatchEnable_failure_rolls_back env_start_fails wifi_fresh (by decide) (by decide)
      (by decide) (by decide) (by decide)).1,
    (dispatchEnable_failure_rolls_back env_start_fails wifi_fresh (by decide) (by decide)
      (by decide) (by decide) (by decide)).2.1⟩

/-- C3 (evaluation at the failing input): the guard of the enable command lets the connection
states through. Run on an established connection (state `ConnectionActive`) with every driver
call succeeding, the command is not a no-op: it publishes `RadioOnPending` and `RadioOn`, issues
eight driver calls, among them `esp_netif_destroy` and `esp_wifi_init`, and leaves the radio
state `On`. -/
theorem dispatchEnable_from_connection_not_noop :
    wifi_connected.radio_state = WIFI_RADIO_CONNECTION_ACTIVE ∧
    dispatchEnable env_ok wifi_connected ≠ wifi_connected ∧
    (dispatchEnable env_ok wifi_connected).radio_state = WIFI_RADIO_ON ∧
    (dispatchEnable env_ok wifi_connected).published =
      wifi_connected.published ++
        [WifiEventTypeRadioStateOnPending, WifiEventTypeRadioStateOn] ∧
    (dispatchEnable env_ok wifi_connected).driver_calls =
      wifi_connected.driver_calls ++
      [DriverCall.esp_netif_destroy, DriverCall.esp_netif_create_default_wifi_sta,
        DriverCall.esp_wifi_init, DriverCall.esp_wifi_set_storage,
        DriverCall.esp_event_handler_instance_register_wifi,
        DriverCall.esp_event_handler_instance_register_ip, DriverCall.esp_wifi_set_mode_sta,
        DriverCall.esp_wifi_start] := by
  decide

/-! ## What the notification handler leaves alone -/

theorem HandlerFrame.refl (wifi : Wifi) : HandlerFrame wifi wifi :=
  ⟨rfl, rfl, rfl, rfl, rfl, [], by simp, by simp⟩

theorem HandlerFrame.trans {a b c : Wifi} (hab : HandlerFrame a b) (hbc : HandlerFrame b c) :
    HandlerFrame a c := by
  obtain ⟨h1, h2, h3, h4, h5, e1, he1, hm1⟩ := hab
  obtain ⟨g1, g2, g3, g4, g5, e2, he2, hm2⟩ := hbc
  refine ⟨g1.trans h1, g2.trans h2, g3.trans h3, g4.trans h4, g5.trans h5, e1 ++ e2, ?_, ?_⟩
  · rw [he2, he1, List.append_assoc]
  · intro e he
    rcases List.mem_append.mp he with h | h
    · exact hm1 e h
    · exact hm2 e h

theorem copy_scan_list_frame (scan_result : esp_err_t) (found : List wifi_ap_record_t)
    (wifi : Wifi) :
    HandlerFrame wifi (copy_scan_list scan_result found wifi).2 ∧
    (copy_scan_list scan_result found wifi).2.published = wifi.published ∧
    (copy_scan_list scan_result found wifi).2.radio_state = wifi.radio_state ∧
    (copy_scan_list scan_result found wifi).2.pause_auto_connect = wifi.pause_auto_connect := by
  unfold copy_scan_list HandlerFrame
  cases hl : wifi.scan_list <;>
    simp only [scan_list_alloc_safely, scan_list_alloc, esp_wifi_scan_get_ap_records,
      Wifi.getRadioState, Wifi.isScanActive, Wifi.call, Wifi.abort, hl] <;>
    split_ifs <;> simp_all

theorem eventHandler_body_frame (event : Notification) (wifi : Wifi) :
    HandlerFrame wifi (eventHandler_body event wifi) := by
  cases event with
  | WIFI_EVENT_STA_START =>
    unfold eventHandler_body HandlerFrame
    by_cases h : wifi.getRadioState = WIFI_RADIO_CONNECTION_PENDING <;> simp [h, Wifi.call]
  | WIFI_EVENT_STA_DISCONNECTED =>
    unfold eventHandler_body HandlerFrame
    by_cases h : wifi.getRadioState = WIFI_RADIO_CONNECTION_PENDING <;>
      simp [h, Wifi.setRadioState, publish_event_simple]
  | IP_EVENT_STA_GOT_IP =>
    unfold eventHandler_body HandlerFrame
    by_cases h : wifi.getRadioState = WIFI_RADIO_CONNECTION_PENDING <;> simp [h]
  | WIFI_EVENT_SCAN_DONE scan_result found =>
    obtain ⟨⟨c1, c2, c3, c4, c5, -⟩, hp, -, -⟩ := copy_scan_list_frame scan_result found wifi
    unfold eventHandler_body HandlerFrame
    simp only [Wifi.getRadioState, Wifi.setScanActive, Wifi.call, Wifi.dispatch,
      publish_event_simple]
    split_ifs <;> simp [c1, c2, c3, c4, c5, hp]
  | other => exact HandlerFrame.refl wifi

theorem eventHandler_fold_frame (events : List Notification) (wifi : Wifi) :
    HandlerFrame wifi (events.foldl (fun w event => eventHandler_body event w) wifi) := by
  induction events generalizing wifi with
  | nil => exact HandlerFrame.refl wifi
  | cons event rest ih =>
    exact HandlerFrame.trans (eventHandler_body_frame event wifi) (ih _)

/-! ## Connect command -/

theorem dispatchConnect_from_pending_wait (env : Env) (wifi : Wifi)
    (hconfig : env.esp_wifi_set_config = ESP_OK) (hstart : env.esp_wifi_start = ESP_OK) :
    dispatchConnect_from_pending env wifi =
      dispatchConnect_after_wait wifi.connection_target.password env.wait_bits
        (connect_wait_exit env wifi) := by
  simp [dispatchConnect_from_pending, connect_wait_exit, connect_wait_entry, hconfig, hstart,
    Wifi.setRadioState, Wifi.call, publish_event_simple]

theorem dispatchConnect_eq_from_pending (env : Env) (wifi : Wifi)
    (hlock : env.radio_lock = true)
    (hstop : wifi.radio_state = WIFI_RADIO_ON ∨
      wifi.radio_state = WIFI_RADIO_CONNECTION_ACTIVE ∨
      wifi.radio_state = WIFI_RADIO_CONNECTION_PENDING → env.esp_wifi_stop = ESP_OK) :
    dispatchConnect env wifi = dispatchConnect_from_pending env (connect_stopped wifi) := by
  unfold dispatchConnect connect_stopped
  by_cases h : wifi.radio_state = WIFI_RADIO_ON ∨
      wifi.radio_state = WIFI_RADIO_CONNECTION_ACTIVE ∨
      wifi.radio_state = WIFI_RADIO_CONNECTION_PENDING
  · simp [hlock, Wifi.getRadioState, h, hstop h]
  · simp [hlock, Wifi.getRadioState, h]

theorem connect_stopped_frame (wifi : Wifi) :
    (connect_stopped wifi).connection_target = wifi.connection_target ∧
    (connect_stopped wifi).connection_target_remember = wifi.connection_target_remember ∧
    (connect_stopped wifi).saved = wifi.saved ∧
    (connect_stopped wifi).published = wifi.published ∧
    (connect_stopped wifi).fault = wifi.fault := by
  unfold connect_stopped
  split_ifs <;> simp [Wifi.call, Wifi.setScanActive]

/-- The connect command when every path to the wait is open and the wait reports the
`Connected` bit. -/
theorem dispatchConnect_connected (env : Env) (wifi : Wifi)
    (hlock : env.radio_lock = true)
    (hstop : wifi.radio_state = WIFI_RADIO_ON ∨
      wifi.radio_state = WIFI_RADIO_CONNECTION_ACTIVE ∨
      wifi.radio_state = WIFI_RADIO_CONNECTION_PENDING → env.esp_wifi_stop = ESP_OK)
    (hconfig : env.esp_wifi_set_config = ESP_OK) (hstart : env.esp_wifi_start = ESP_OK)
    (hbits : env.wait_bits &&& WIFI_CONNECTED_BIT ≠ 0) :
    (dispatchConnect env wifi).radio_state = WIFI_RADIO_CONNECTION_ACTIVE ∧
    (dispatchConnect env wifi).connection_target = wifi.connection_target ∧
    (dispatchConnect env wifi).secure_connection =
      decide (wifi.connection_target.password ≠ "") ∧
    (dispatchConnect env wifi).saved =
      wifi.saved ++ (if wifi.connection_target_remember then [wifi.connection_target] else []) ∧
    (dispatchConnect env wifi).fault = wifi.fault ∧
    ∃ events, (dispatchConnect env wifi).published =
        wifi.published ++ [WifiEventTypeConnectionPending] ++ events ++
          [WifiEventTypeConnectionSuccess] ∧
      (∀ e ∈ events, e = WifiEventTypeDisconnected ∨ e = WifiEventTypeScanFinished) ∧
      (env.during_wait = [] → events = []) := by
  obtain ⟨s1, s2, s3, s4, s5⟩ := connect_stopped_frame wifi
  obtain ⟨f1, f2, f3, f4, f5, events, f6, f7⟩ :=
    eventHandler_fold_frame env.during_wait (connect_wait_entry (connect_stopped wifi))
  rw [dispatchConnect_eq_from_pending env wifi hlock hstop,
    dispatchConnect_from_pending_wait env _ hconfig hstart]
  have hexit : connect_wait_exit env (connect_stopped wifi) =
      env.during_wait.foldl (fun w event => eventHandler_body event w)
        (connect_wait_entry (connect_stopped wifi)) := rfl
  rw [← hexit] at f1 f2 f3 f4 f5 f6
  have e1 : (connect_wait_entry (connect_stopped wifi)).connection_target =
      wifi.connection_target := by simp [connect_wait_entry, Wifi.setRadioState, Wifi.call,
        publish_event_simple, s1]
  have e2 : (connect_wait_entry (connect_stopped wifi)).connection_target_remember =
      wifi.connection_target_remember := by simp [connect_wait_entry, Wifi.setRadioState,
        Wifi.call, publish_event_simple, s2]
  have e3 : (connect_wait_entry (connect_stopped wifi)).saved = wifi.saved := by
    simp [connect_wait_entry, Wifi.setRadioState, Wifi.call, publish_event_simple, s3]
  have e4 : (connect_wait_entry (connect_stopped wifi)).published =
      wifi.published ++ [WifiEventTypeConnectionPending] := by
    simp [connect_wait_entry, Wifi.setRadioState, Wifi.call, publish_event_simple, s4]
  have e5 : (connect_wait_entry (connect_stopped wifi)).fault = wifi.fault := by
    simp [connect_wait_entry, Wifi.setRadioState, Wifi.call, publish_event_simple, s5]
  rw [e1] at f1
  rw [e2] at f2
  rw [e3] at f4
  rw [e5] at f5
  rw [e4] at f6
  refine ⟨?_, ?_, ?_, ?_, ?_, events, ?_, f7, ?_⟩
  · simp [dispatchConnect_after_wait, hbits, Wifi.setRadioState, Wifi.setSecureConnection,
      publish_event_simple]
    split_ifs <;> rfl
  · simp only [dispatchConnect_after_wait, hbits, Wifi.setRadioState, Wifi.setSecureConnection,
      publish_event_simple]
    split_ifs <;> simp [f1]
  · simp only [dispatchConnect_after_wait, hbits, Wifi.setRadioState, Wifi.setSecureConnection,
      publish_event_simple, s1]
    split_ifs <;> simp
  · simp only [dispatchConnect_after_wait, hbits, Wifi.setRadioState, Wifi.setSecureConnection,
      publish_event_simple, f2]
    split_ifs <;> simp [f1, f4]
  · simp only [dispatchConnect_after_wait, hbits, Wifi.setRadioState, Wifi.setSecureConnection,
      publish_event_simple]
    split_ifs <;> simp [f5]
  · simp only [dispatchConnect_after_wait, hbits, Wifi.setRadioState, Wifi.setSecureConnection,
      publish_event_simple]
    split_ifs <;> simp [f6]
  · intro hnil
    have : connect_wait_exit env (connect_stopped wifi) =
        connect_wait_entry (connect_stopped wifi) := by simp [connect_wait_exit, hnil]
    rw [this, e4] at f6
    simpa using f6

theorem dispatchConnect_after_wait_failed (password : String) (bits : Nat) (wifi : Wifi)
    (hbits : bits &&& WIFI_CONNECTED_BIT = 0) :
    (dispatchConnect_after_wait password bits wifi).radio_state = WIFI_RADIO_ON ∧
    (dispatchConnect_after_wait password bits wifi).saved = wifi.saved ∧
    (dispatchConnect_after_wait password bits wifi).fault = wifi.fault ∧
    (dispatchConnect_after_wait password bits wifi).published =
      wifi.published ++ [WifiEventTypeConnectionFailed] := by
  unfold dispatchConnect_after_wait
  rw [if_neg (by simp [hbits])]
  split_ifs <;> simp [Wifi.setRadioState, publish_event_simple]

/-- The connect command when the driver refuses the configuration or the start, or the wait
returns without the `Connected` bit. -/
theorem dispatchConnect_failed (env : Env) (wifi : Wifi)
    (hlock : env.radio_lock = true)
    (hstop : wifi.radio_state = WIFI_RADIO_ON ∨
      wifi.radio_state = WIFI_RADIO_CONNECTION_ACTIVE ∨
      wifi.radio_state = WIFI_RADIO_CONNECTION_PENDING → env.esp_wifi_stop = ESP_OK)
    (hfail : env.esp_wifi_set_config ≠ ESP_OK ∨ env.esp_wifi_start ≠ ESP_OK ∨
      env.wait_bits &&& WIFI_CONNECTED_BIT = 0) :
    (dispatchConnect env wifi).radio_state = WIFI_RADIO_ON ∧
    (dispatchConnect env wifi).saved = wifi.saved ∧
    (dispatchConnect env wifi).fault = wifi.fault ∧
    ∃ events, (dispatchConnect env wifi).published =
        wifi.published ++ [WifiEventTypeConnectionPending] ++ events ++
          [WifiEventTypeConnectionFailed] ∧
      (∀ e ∈ events, e = WifiEventTypeDisconnected ∨ e = WifiEventTypeScanFinished) := by
  obtain ⟨s1, s2, s3, s4, s5⟩ := connect_stopped_frame wifi
  rw [dispatchConnect_eq_from_pending env wifi hlock hstop]
  by_cases hconfig : env.esp_wifi_set_config = ESP_OK
  · by_cases hstart : env.esp_wifi_start = ESP_OK
    · have hbits : env.wait_bits &&& WIFI_CONNECTED_BIT = 0 := by
        rcases hfail with h | h | h
        · exact absurd hconfig h
        · exact absurd hstart h
        · exact h
      obtain ⟨-, -, -, f4, f5, events, f6, f7⟩ :=
        eventHandler_fold_frame env.during_wait (connect_wait_entry (connect_stopped wifi))
      rw [dispatchConnect_from_pending_wait env _ hconfig hstart]
      have hexit : connect_wait_exit env (connect_stopped wifi) =
          env.during_wait.foldl (fun w event => eventHandler_body event w)
            (connect_wait_entry (connect_stopped wifi)) := rfl
      rw [← hexit] at f4 f5 f6
      have e3 : (connect_wait_entry (connect_stopped wifi)).saved = wifi.saved := by
        simp [connect_wait_entry, Wifi.setRadioState, Wifi.call, publish_event_simple, s3]
      have e4 : (connect_wait_entry (connect_stopped wifi)).published =
          wifi.published ++ [WifiEventTypeConnectionPending] := by
        simp [connect_wait_entry, Wifi.setRadioState, Wifi.call, publish_event_simple, s4]
      have e5 : (connect_wait_entry (connect_stopped wifi)).fault = wifi.fault := by
        simp [connect_wait_entry, Wifi.setRadioState, Wifi.call, publish_event_simple, s5]
      rw [e3] at f4
      rw [e5] at f5
      rw [e4] at f6
      obtain ⟨a1, a2, a3, a4⟩ :=
        dispatchConnect_after_wait_failed (connect_stopped wifi).connection_target.password
          env.wait_bits (connect_wait_exit env (connect_stopped wifi)) hbits
      exact ⟨a1, a2.trans f4, a3.trans f5, events, by rw [a4, f6], f7⟩
    · refine ⟨?_, ?_, ?_, [], ?_, by simp⟩ <;>
        simp [dispatchConnect_from_pending, hconfig, hstart, Wifi.setRadioState, Wifi.call,
          publish_event_simple, s3, s4, s5]
  · refine ⟨?_, ?_, ?_, [], ?_, by simp⟩ <;>
      simp [dispatchConnect_from_pending, hconfig, Wifi.setRadioState, Wifi.call,
        publish_event_simple, s3, s4, s5]

theorem connect_then_execute_eq (ap : WifiApSettings) (remember : Bool) (env : Env)
    (wifi : Wifi) (hqueue : wifi.dispatched = []) (hfault : wifi.fault = none) :
    connect_then_execute ap remember env wifi =
      dispatchConnect env
        { wifi with
          pause_auto_connect := true, connection_target := ap,
          connection_target_remember := remember } := by
  simp [connect_then_execute, run, step, connect, runCommand, Wifi.dispatch, Wifi.dequeue,
    hqueue, hfault]

/-- C4: for every target `ap` (name and credential) and every state of a running service with
nothing else queued, when `connect(ap, remember = true)` is called and its command runs with the
driver stop (where the command issues it), set-config and start succeeding and the wait returning
the `Connected` bit: the radio state is `ConnectionActive`, `getConnectionTarget()` returns the
name, `isConnectionSecure()` is true exactly when the credential is non-empty, the command
publishes `ConnectionPending` first and `ConnectionSuccess` last (anything in between was
published by the notification handler during the wait, nothing when no notification arrived),
and the credential store received exactly one more `save` call, with that target. -/
theorem connect_success (ap : WifiApSettings) (env : Env) (wifi : Wifi)
    (hqueue : wifi.dispatched = []) (hfault : wifi.fault = none)
    (hlock : env.radio_lock = true)
    (hstop : wifi.radio_state = WIFI_RADIO_ON ∨
      wifi.radio_state = WIFI_RADIO_CONNECTION_ACTIVE ∨
      wifi.radio_state = WIFI_RADIO_CONNECTION_PENDING → env.esp_wifi_stop = ESP_OK)
    (hconfig : env.esp_wifi_set_config = ESP_OK) (hstart : env.esp_wifi_start = ESP_OK)
    (hbits : env.wait_bits &&& WIFI_CONNECTED_BIT ≠ 0) :
    (connect_then_execute ap true env wifi).radio_state = WIFI_RADIO_CONNECTION_ACTIVE ∧
    getConnectionTarget (some (connect_then_execute ap true env wifi)) = ap.ssid ∧
    isConnectionSecure true (some (connect_then_execute ap true env wifi)) =
      decide (ap.password ≠ "") ∧
    (∃ events, (connect_then_execute ap true env wifi).published =
        wifi.published ++ [WifiEventTypeConnectionPending] ++ events ++
          [WifiEventTypeConnectionSuccess] ∧
      (∀ e ∈ events, e = WifiEventTypeDisconnected ∨ e = WifiEventTypeScanFinished) ∧
      (env.during_wait = [] → events = [])) ∧
    (connect_then_execute ap true env wifi).saved = wifi.saved ++ [ap] := by
  rw [connect_then_execute_eq ap true env wifi hqueue hfault]
  obtain ⟨h1, h2, h3, h4, -, h6⟩ :=
    dispatchConnect_connected env
      { wifi with
        pause_auto_connect := true, connection_target := ap,
        connection_target_remember := true } hlock hstop hconfig hstart hbits
  refine ⟨h1, ?_, ?_, h6, ?_⟩
  · simp [getConnectionTarget, Wifi.getRadioState, h1, h2]
  · simp [isConnectionSecure, Wifi.isSecureConnection, h3]
  · simpa using h4

/-- Witness for `connect_success`: connecting the switched-on radio to "home". -/
theorem connect_success_witness :
    wifi_on.dispatched = [] ∧ env_got_ip.wait_bits &&& WIFI_CONNECTED_BIT ≠ 0 ∧
    (connect_then_execute ⟨"home", "pw", false⟩ true env_got_ip wifi_on).radio_state =
      WIFI_RADIO_CONNECTION_ACTIVE ∧
    getConnectionTarget (some (connect_then_execute ⟨"home", "pw", false⟩ true env_got_ip
      wifi_on)) = "home" :=
  ⟨by decide, by decide,
    (connect_success ⟨"home", "pw", false⟩ env_got_ip wifi_on (by decide) (by decide)
      (by decide) (by decide) (by decide) (by decide) (by decide)).1,
    (connect_success ⟨"home", "pw", false⟩ env_got_ip wifi_on (by decide) (by decide)
      (by decide) (by decide) (by decide) (by decide) (by decide)).2.1⟩

/-- C5: for every state of a running service with nothing else queued, every target and every
value of the remember flag, when `connect` is called and its command runs (driver stop
succeeding where the command issues it) and the attempt fails because set-config fails, start
fails, or the wait returns without the `Connected` bit (with the `Failed` bit or with neither):
the radio state is `On`, the command publishes `ConnectionPending` first and `ConnectionFailed`
last, `ConnectionSuccess` is not published, and no `save` call reaches the credential store. -/
theorem connect_failure (ap : WifiApSettings) (remember : Bool) (env : Env) (wifi : Wifi)
    (hqueue : wifi.dispatched = []) (hfault : wifi.fault = none)
    (hlock : env.radio_lock = true)
    (hstop : wifi.radio_state = WIFI_RADIO_ON ∨
      wifi.radio_state = WIFI_RADIO_CONNECTION_ACTIVE ∨
      wifi.radio_state = WIFI_RADIO_CONNECTION_PENDING → env.esp_wifi_stop = ESP_OK)
    (hfail : env.esp_wifi_set_config ≠ ESP_OK ∨ env.esp_wifi_start ≠ ESP_OK ∨
      env.wait_bits &&& WIFI_CONNECTED_BIT = 0) :
    (connect_then_execute ap remember env wifi).radio_state = WIFI_RADIO_ON ∧
    (∃ events, (connect_then_execute ap remember env wifi).published =
        wifi.published ++ events ∧
      events.getLast? = some WifiEventTypeConnectionFailed ∧
      events.head? = some WifiEventTypeConnectionPending ∧
      WifiEventTypeConnectionSuccess ∉ events) ∧
    (connect_then_execute ap remember env wifi).saved = wifi.saved := by
  rw [connect_then_execute_eq ap remember env wifi hqueue hfault]
  obtain ⟨h1, h2, -, events, h4, h5⟩ :=
    dispatchConnect_failed env
      { wifi with
        pause_auto_connect := true, connection_target := ap,
        connection_target_remember := remember } hlock hstop hfail
  refine ⟨h1, ⟨[WifiEventTypeConnectionPending] ++ events ++ [WifiEventTypeConnectionFailed],
    ?_, ?_, ?_, ?_⟩, h2⟩
  · simpa [List.append_assoc] using h4
  · exact List.getLast?_concat _
  · simp
  · intro hmem
    simp only [List.mem_append, List.mem_singleton] at hmem
    rcases hmem with (h | h) | h
    · exact absurd h (by decide)
    · rcases h5 _ h with h | h <;> exact absurd h (by decide)
    · exact absurd h (by decide)

/-- Witness for `connect_failure`: a failed attempt with the remember flag set. -/
theorem connect_failure_witness :
    wifi_on.dispatched = [] ∧ env_wait_failed.wait_bits &&& WIFI_CONNECTED_BIT = 0 ∧
    (connect_then_execute ⟨"home", "pw", false⟩ true env_wait_failed wifi_on).radio_state =
      WIFI_RADIO_ON ∧
    (connect_then_execute ⟨"home", "pw", false⟩ true env_wait_failed wifi_on).saved =
      wifi_on.saved :=
  ⟨by decide, by decide,
    (connect_failure ⟨"home", "pw", false⟩ true env_wait_failed wifi_on (by decide) (by decide)
      (by decide) (by decide) (by decide)).1,
    (connect_failure ⟨"home", "pw", false⟩ true env_wait_failed wifi_on (by decide) (by decide)
      (by decide) (by decide) (by decide)).2.2⟩

/-! ## Scan results -/

theorem eventHandler_body_scan_done_list (scan_result : esp_err_t)
    (found : List wifi_ap_record_t) (wifi : Wifi) :
    (eventHandler_body (Notification.WIFI_EVENT_SCAN_DONE scan_result found) wifi).scan_list =
      (copy_scan_list scan_result found wifi).2.scan_list ∧
    (eventHandler_body (Notification.WIFI_EVENT_SCAN_DONE scan_result found)
        wifi).scan_list_count =
      (copy_scan_list scan_result found wifi).2.scan_list_count ∧
    (eventHandler_body (Notification.WIFI_EVENT_SCAN_DONE scan_result found)
        wifi).scan_list_limit =
      (copy_scan_list scan_result found wifi).2.scan_list_limit := by
  unfold eventHandler_body
  simp only [Wifi.getRadioState, Wifi.setScanActive, Wifi.call, Wifi.dispatch,
    publish_event_simple]
  split_ifs <;> simp

theorem copy_scan_list_ok (found : List wifi_ap_record_t) (wifi : Wifi)
    (hstate : wifi.radio_state = WIFI_RADIO_ON ∨
      wifi.radio_state = WIFI_RADIO_CONNECTION_ACTIVE)
    (hactive : wifi.scan_active = true) :
    (copy_scan_list ESP_OK found wifi).2.scan_list_count =
      min wifi.scan_list_limit (found.take wifi.scan_list_limit).length ∧
    (copy_scan_list ESP_OK found wifi).2.scan_list_limit = wifi.scan_list_limit ∧
    (copy_scan_list ESP_OK found wifi).2.scan_list =
      some (found.take wifi.scan_list_limit ++
        ((wifi.scan_list.getD (List.replicate wifi.scan_list_limit ⟨"", 0, 0, 0⟩)).drop
          (found.take wifi.scan_list_limit).length)) := by
  unfold copy_scan_list
  cases hl : wifi.scan_list <;>
    simp [scan_list_alloc_safely, scan_list_alloc, esp_wifi_scan_get_ap_records,
      Wifi.getRadioState, Wifi.isScanActive, Wifi.call, Wifi.abort, hl, hstate, hactive]

/-- C6: for every scan limit `L` and every list of `N` access points found by the driver, a
scan-done notification handled while the radio is `On` or `ConnectionActive` with a scan active,
the driver handing out its records successfully and the scan buffer (when already allocated)
sized for the current limit: afterwards `getScanResults()` returns the first `min L N` records
found, in driver order, so exactly `min L N` of them and never more than `L`; the scan buffer
still has room for exactly `L` records. -/
theorem scan_done_results_truncated (found : List wifi_ap_record_t) (wifi : Wifi)
    (hstate : wifi.radio_state = WIFI_RADIO_ON ∨
      wifi.radio_state = WIFI_RADIO_CONNECTION_ACTIVE)
    (hactive : wifi.scan_active = true)
    (hbuffer : ∀ buffer, wifi.scan_list = some buffer → buffer.length = wifi.scan_list_limit) :
    getScanResults true
        (eventHandler (Notification.WIFI_EVENT_SCAN_DONE ESP_OK found) (some wifi)) =
      (found.take wifi.scan_list_limit).map
        (fun record => ⟨record.ssid, record.rssi, record.authmode⟩) ∧
    (getScanResults true
        (eventHandler (Notification.WIFI_EVENT_SCAN_DONE ESP_OK found) (some wifi))).length =
      min wifi.scan_list_limit found.length ∧
    (getScanResults true
        (eventHandler (Notification.WIFI_EVENT_SCAN_DONE ESP_OK found) (some wifi))).length ≤
      wifi.scan_list_limit ∧
    ∃ buffer,
      (eventHandler_body (Notification.WIFI_EVENT_SCAN_DONE ESP_OK found) wifi).scan_list =
        some buffer ∧
      buffer.length =
        (eventHandler_body (Notification.WIFI_EVENT_SCAN_DONE ESP_OK found)
          wifi).scan_list_limit := by
  obtain ⟨h1, h2, h3⟩ := eventHandler_body_scan_done_list ESP_OK found wifi
  obtain ⟨c1, c2, c3⟩ := copy_scan_list_ok found wifi hstate hactive
  rw [c3] at h1
  rw [c1] at h2
  rw [c2] at h3
  have hresults : getScanResults true
      (eventHandler (Notification.WIFI_EVENT_SCAN_DONE ESP_OK found) (some wifi)) =
      (found.take wifi.scan_list_limit).map
        (fun record => ⟨record.ssid, record.rssi, record.authmode⟩) := by
    have hlen : min wifi.scan_list_limit (List.take wifi.scan_list_limit found).length =
        (List.take wifi.scan_list_limit found).length := by
      simp [List.length_take]
    rw [hlen] at h2
    simp only [getScanResults, eventHandler, h1, h2, Option.getD_some, List.take_left]
    generalize List.take wifi.scan_list_limit found = copied
    cases copied with
    | nil => simp
    | cons record rest => simp
  refine ⟨hresults, ?_, ?_, ?_⟩
  · rw [hresults]
    simp [List.length_take]
  · rw [hresults]
    simp only [List.length_map, List.length_take]
    omega
  · refine ⟨_, h1, ?_⟩
    rw [h3]
    cases hl : wifi.scan_list with
    | none =>
      simp only [List.length_append, List.length_take, List.length_drop, Option.getD_none,
        List.length_replicate]
      omega
    | some buffer =>
      have := hbuffer buffer hl
      simp only [List.length_append, List.length_take, List.length_drop, Option.getD_some]
      omega

/-- Witness for `scan_done_results_truncated`: limit 5, the driver reports 12, 5 are returned. -/
theorem scan_done_results_truncated_witness :
    wifi_scanning_limit5.scan_list_limit = 5 ∧ twelve_access_points.length = 12 ∧
    (getScanResults true
      (eventHandler (Notification.WIFI_EVENT_SCAN_DONE ESP_OK twelve_access_points)
        (some wifi_scanning_limit5))).length = min 5 12 :=
  ⟨by decide, by decide,
    (scan_done_results_truncated twelve_access_points wifi_scanning_limit5 (by decide)
      (by decide)
      (by
        intro buffer h
        have hnone : wifi_scanning_limit5.scan_list = none := by decide
        rw [hnone] at h
        cases h)).2.1⟩

/-! ## Scan command -/

theorem dispatchScan_noop (env : Env) (wifi : Wifi)
    (h : wifi.scan_active = true ∨
      (wifi.radio_state ≠ WIFI_RADIO_ON ∧ wifi.radio_state ≠ WIFI_RADIO_CONNECTION_ACTIVE ∧
        wifi.radio_state ≠ WIFI_RADIO_CONNECTION_PENDING)) :
    dispatchScan env wifi = wifi := by
  unfold dispatchScan
  simp only [Wifi.getRadioState, Wifi.isScanActive]
  rcases h with h | h
  · split_ifs <;> rfl
  · split_ifs <;> rfl

theorem dispatchScan_started (env : Env) (wifi : Wifi)
    (hstate : wifi.radio_state = WIFI_RADIO_ON ∨
      wifi.radio_state = WIFI_RADIO_CONNECTION_ACTIVE ∨
      wifi.radio_state = WIFI_RADIO_CONNECTION_PENDING)
    (hidle : wifi.scan_active = false) (hlock : env.radio_lock = true)
    (hstart : env.esp_wifi_scan_start = ESP_OK) :
    (dispatchScan env wifi).scan_active = true ∧
    (dispatchScan env wifi).published = wifi.published ++ [WifiEventTypeScanStarted] ∧
    (dispatchScan env wifi).dispatched = wifi.dispatched ∧
    (dispatchScan env wifi).fault = wifi.fault := by
  rcases hstate with h | h | h <;>
    simp [dispatchScan, Wifi.getRadioState, Wifi.isScanActive, Wifi.setScanActive, Wifi.call,
      publish_event_simple, h, hidle, hlock, hstart]

theorem step_scan (wifi : Wifi) (hfault : wifi.fault = none) :
    step wifi Action.scan = wifi.dispatch Command.dispatchScan := by
  simp [step, scan, hfault]

theorem step_execute (wifi : Wifi) (env : Env) (f : Command) (rest : List Command)
    (hfault : wifi.fault = none) (hqueue : wifi.dispatched = f :: rest) :
    step wifi (Action.execute env) = runCommand f env (wifi.dequeue rest) := by
  simp [step, hfault, hqueue]

/-- C7: the scan command run while a scan is active, or while the radio state is none of `On`,
`ConnectionActive`, `ConnectionPending`, returns the instance unchanged: no field changes, so
nothing is published and no driver call is issued. Consequently, from a state in which a scan
is acceptable (one of those three states, no scan active, nothing else queued), two `scan()`
calls with no scan-done in between, the first command obtaining the radio lock and the driver
accepting the scan, publish `ScanStarted` exactly once, whether the second call is made before
or after the first command ran and whatever the inputs of the second command. -/
theorem scan_duplicate_dropped :
    (∀ (env : Env) (wifi : Wifi),
      (wifi.scan_active = true ∨
        (wifi.radio_state ≠ WIFI_RADIO_ON ∧ wifi.radio_state ≠ WIFI_RADIO_CONNECTION_ACTIVE ∧
          wifi.radio_state ≠ WIFI_RADIO_CONNECTION_PENDING)) →
      dispatchScan env wifi = wifi ∧
      (dispatchScan env wifi).published = wifi.published ∧
      (dispatchScan env wifi).driver_calls = wifi.driver_calls) ∧
    (∀ (first second : Env) (wifi : Wifi),
      (wifi.radio_state = WIFI_RADIO_ON ∨ wifi.radio_state = WIFI_RADIO_CONNECTION_ACTIVE ∨
        wifi.radio_state = WIFI_RADIO_CONNECTION_PENDING) →
      wifi.scan_active = false → wifi.dispatched = [] → wifi.fault = none →
      first.radio_lock = true → first.esp_wifi_scan_start = ESP_OK →
      (run wifi [Action.scan, Action.execute first, Action.scan,
          Action.execute second]).published = wifi.published ++ [WifiEventTypeScanStarted] ∧
      (run wifi [Action.scan, Action.scan, Action.execute first,
          Action.execute second]).published = wifi.published ++ [WifiEventTypeScanStarted]) := by
  constructor
  · intro env wifi h
    rw [dispatchScan_noop env wifi h]
    exact ⟨rfl, rfl, rfl⟩
  · intro first second wifi hstate hidle hqueue hfault hlock hstart
    have hq1 : (wifi.dispatch Command.dispatchScan).dispatched = [Command.dispatchScan] := by
      simp [Wifi.dispatch, hqueue]
    have hq2 : ((wifi.dispatch Command.dispatchScan).dispatch Command.dispatchScan).dispatched =
        [Command.dispatchScan, Command.dispatchScan] := by
      simp [Wifi.dispatch, hqueue]
    have hf1 : (wifi.dispatch Command.dispatchScan).fault = none := hfault
    have hf2 : ((wifi.dispatch Command.dispatchScan).dispatch Command.dispatchScan).fault =
        none := hfault
    constructor
    · obtain ⟨s1, s2, s3, s4⟩ := dispatchScan_started first
        ((wifi.dispatch Command.dispatchScan).dequeue []) hstate hidle hlock hstart
      have hf3 : (dispatchScan first ((wifi.dispatch Command.dispatchScan).dequeue [])).fault =
          none := s4.trans hfault
      have hf4 : ((dispatchScan first ((wifi.dispatch Command.dispatchScan).dequeue
          [])).dispatch Command.dispatchScan).fault = none := hf3
      have hq3 : ((dispatchScan first ((wifi.dispatch Command.dispatchScan).dequeue
          [])).dispatch Command.dispatchScan).dispatched = [Command.dispatchScan] := by
        show (dispatchScan first _).dispatched ++ [Command.dispatchScan] = _
        rw [s3]
        rfl
      simp only [run, List.foldl]
      rw [step_scan wifi hfault,
        step_execute (wifi.dispatch Command.dispatchScan) first _ _ hf1 hq1]
      simp only [runCommand]
      rw [step_scan _ hf3, step_execute _ second _ _ hf4 hq3]
      simp only [runCommand]
      rw [dispatchScan_noop second]
      · exact s2
      · exact Or.inl s1
    · obtain ⟨s1, s2, s3, s4⟩ := dispatchScan_started first
        (((wifi.dispatch Command.dispatchScan).dispatch Command.dispatchScan).dequeue
          [Command.dispatchScan]) hstate hidle hlock hstart
      have hf3 : (dispatchScan first
          (((wifi.dispatch Command.dispatchScan).dispatch Command.dispatchScan).dequeue
            [Command.dispatchScan])).fault = none := s4.trans hfault
      simp only [run, List.foldl]
      rw [step_scan wifi hfault, step_scan (wifi.dispatch Command.dispatchScan) hf1,
        step_execute ((wifi.dispatch Command.dispatchScan).dispatch Command.dispatchScan)
          first _ _ hf2 hq2]
      simp only [runCommand]
      rw [step_execute _ second _ _ hf3 s3]
      simp only [runCommand]
      rw [dispatchScan_noop second]
      · exact s2
      · exact Or.inl s1

/-- Witness for `scan_duplicate_dropped`: a scan requested of a connected but already scanning
radio, and two scans requested in a row of the switched-on radio. -/
theorem scan_duplicate_dropped_witness :
    wifi_connected_scanning.scan_active = true ∧
    dispatchScan env_ok wifi_connected_scanning = wifi_connected_scanning ∧
    (run wifi_on [Action.scan, Action.scan, Action.execute env_ok,
      Action.execute env_ok]).published = wifi_on.published ++ [WifiEventTypeScanStarted] :=
  ⟨by decide,
    (scan_duplicate_dropped.1 env_ok wifi_connected_scanning (Or.inl (by decide))).1,
    (scan_duplicate_dropped.2 env_ok env_ok wifi_on (by decide) (by decide) (by decide)
      (by decide) (by decide) (by decide)).2⟩

/-! ## Auto-connect -/

/-- C8 (evaluation at the failing input): in the run `manual_connect_before_evaluation` from a
fresh instance, the auto-connect evaluation is the oldest queued function and `pauseAutoConnect`
is true (set by the manual `connect`). Executing the evaluation then nevertheless submits a
connect: it replaces the connection target "cafe" by "home", clears the remember flag and hands
a second `dispatchConnect` to the dispatcher, all while `pauseAutoConnect` is true. -/
theorem auto_connect_evaluation_ignores_pause :
    (run wifi_fresh manual_connect_before_evaluation).pause_auto_connect = true ∧
    (run wifi_fresh manual_connect_before_evaluation).fault = none ∧
    (run wifi_fresh manual_connect_before_evaluation).dispatched =
      [Command.dispatchAutoConnect, Command.dispatchConnect] ∧
    (run wifi_fresh manual_connect_before_evaluation).connection_target = ap_cafe ∧
    (run wifi_fresh
      (manual_connect_before_evaluation ++ [Action.execute env_store])).dispatched =
      [Command.dispatchConnect, Command.dispatchConnect] ∧
    (run wifi_fresh
      (manual_connect_before_evaluation ++ [Action.execute env_store])).connection_target =
      ⟨"home", "pw", true⟩ ∧
    (run wifi_fresh
      (manual_connect_before_evaluation ++
        [Action.execute env_store])).connection_target_remember = false ∧
    (run wifi_fresh
      (manual_connect_before_evaluation ++ [Action.execute env_store])).pause_auto_connect =
      true := by
  decide

/-- C9 (as stated, refuted): after a scan that found "guest" then "home", with a
credential store that knows both, "guest" with auto-connect off and "home" with auto-connect on,
`find_auto_connect_ap` selects nothing and the queued auto-connect evaluation submits nothing and
leaves the connection target alone: the loop is left at the first known record. When the scan
found "home" first, "home" is selected and a connect is submitted. -/
theorem auto_connect_stops_at_first_known :
    store_home_guest.load "home" = some ⟨"home", "pw", true⟩ ∧
    store_home_guest.load "guest" = some ⟨"guest", "", false⟩ ∧
    find_auto_connect_ap env_store wifi_guest_then_home = none ∧
    dispatchAutoConnect env_store wifi_guest_then_home = wifi_guest_then_home ∧
    (run wifi_guest_then_home [Action.execute env_store]).dispatched = [] ∧
    (run wifi_guest_then_home [Action.execute env_store]).connection_target =
      wifi_guest_then_home.connection_target ∧
    getScanResults true (some wifi_guest_then_home) =
      [⟨"guest", -40, 0⟩, ⟨"home", -60, 3⟩] ∧
    wifi_guest_then_home.dispatched = [Command.dispatchAutoConnect] ∧
    find_auto_connect_ap env_store wifi_home_then_guest = some ⟨"home", "pw", true⟩ ∧
    (run wifi_home_then_guest [Action.execute env_store]).dispatched =
      [Command.dispatchConnect] := by
  decide

theorem find_auto_connect_ap_loop_first_known (settings : Settings)
    (records : List wifi_ap_record_t) :
    find_auto_connect_ap_loop settings records =
      match records.find? (fun record => settings.contains record.ssid) with
      | none => none
      | some record => (settings.load record.ssid).filter (fun loaded => loaded.auto_connect) := by
  induction records with
  | nil => rfl
  | cons record rest ih =>
    by_cases h : settings.contains record.ssid = true
    · simp only [find_auto_connect_ap_loop, h, if_true, List.find?_cons_of_pos]
      cases hl : settings.load record.ssid with
      | none => rfl
      | some loaded => cases ha : loaded.auto_connect <;> simp [Option.filter, ha]
    · simp only [find_auto_connect_ap_loop, h, if_false, Bool.false_eq_true]
      rw [ih]
      simp [List.find?_cons, h]

theorem find_auto_connect_ap_loop_skips_unknown (settings : Settings)
    (before after : List wifi_ap_record_t) (record : wifi_ap_record_t)
    (hbefore : ∀ b ∈ before, settings.contains b.ssid = false)
    (hknown : settings.contains record.ssid = true) :
    find_auto_connect_ap_loop settings (before ++ record :: after) =
      (settings.load record.ssid).filter (fun loaded => loaded.auto_connect) := by
  induction before with
  | nil =>
    simp only [List.nil_append, find_auto_connect_ap_loop, hknown, if_true]
    cases hl : settings.load record.ssid with
    | none => rfl
    | some loaded => cases ha : loaded.auto_connect <;> simp [Option.filter, ha]
  | cons b rest ih =>
    have hb := hbefore b (List.mem_cons_self _ _)
    simp only [List.cons_append, find_auto_connect_ap_loop, hb, Bool.false_eq_true, if_false]
    exact ih (fun x hx => hbefore x (List.mem_cons_of_mem _ hx))

theorem find_auto_connect_ap_loop_none_known (settings : Settings)
    (records : List wifi_ap_record_t)
    (hall : ∀ r ∈ records, settings.contains r.ssid = false) :
    find_auto_connect_ap_loop settings records = none := by
  induction records with
  | nil => rfl
  | cons r rest ih =>
    have hr := hall r (List.mem_cons_self _ _)
    simp only [find_auto_connect_ap_loop, hr, Bool.false_eq_true, if_false]
    exact ih (fun x hx => hall x (List.mem_cons_of_mem _ hx))

/-- C9 (amended): for every scan record list and every credential store, the auto-connect
evaluation is decided by the first scan record, in list order, whose name is known to the
credential store, whatever comes after it: when that credential loads with its auto-connect flag
set, `find_auto_connect_ap` selects it and the evaluation, obtaining the data lock, submits
`connect(that target, remember = false)`; when its flag is off or it does not load, nothing is
selected and nothing is submitted, and likewise when no record has a known name or the data lock
is not obtained. -/
theorem auto_connect_first_known_decides (env : Env) (wifi : Wifi) :
    (find_auto_connect_ap env wifi =
      if env.data_lock then
        match ((wifi.scan_list.getD []).take wifi.scan_list_count).find?
          (fun record => env.settings.contains record.ssid) with
        | none => none
        | some record =>
          (env.settings.load record.ssid).filter (fun loaded => loaded.auto_connect)
      else none) ∧
    (∀ (before after : List wifi_ap_record_t) (record : wifi_ap_record_t),
      env.data_lock = true →
      (wifi.scan_list.getD []).take wifi.scan_list_count = before ++ record :: after →
      (∀ b ∈ before, env.settings.contains b.ssid = false) →
      env.settings.contains record.ssid = true →
      find_auto_connect_ap env wifi =
        (env.settings.load record.ssid).filter (fun loaded => loaded.auto_connect)) ∧
    ((∀ r ∈ (wifi.scan_list.getD []).take wifi.scan_list_count,
        env.settings.contains r.ssid = false) → find_auto_connect_ap env wifi = none) ∧
    (∀ settings, find_auto_connect_ap env wifi = some settings → env.connect_lock = true →
      dispatchAutoConnect env wifi =
        { wifi with
          pause_auto_connect := true
          connection_target := settings
          connection_target_remember := false
          dispatched := wifi.dispatched ++ [Command.dispatchConnect] }) ∧
    (find_auto_connect_ap env wifi = none → dispatchAutoConnect env wifi = wifi) := by
  refine ⟨?_, ?_, ?_, ?_, ?_⟩
  · unfold find_auto_connect_ap
    split_ifs
    · exact find_auto_connect_ap_loop_first_known _ _
    · rfl
  · intro before after record hlock hrecords hbefore hknown
    simp only [find_auto_connect_ap, hlock, if_true, hrecords]
    exact find_auto_connect_ap_loop_skips_unknown _ _ _ _ hbefore hknown
  · intro hall
    unfold find_auto_connect_ap
    split_ifs
    · exact find_auto_connect_ap_loop_none_known _ _ hall
    · rfl
  · intro settings hfind hlock
    simp [dispatchAutoConnect, hfind, hlock, connect, Wifi.dispatch]
  · intro hfind
    simp [dispatchAutoConnect, hfind]

/-! ## Auto-connect timer -/

/-- C10 (as stated, refuted), with one tick per millisecond. First, radio `On`, no scan active,
auto-connect not paused, last scan at tick 5000 and the timer ticking at 15000: the elapsed time
is exactly the interval of 10000 ticks, yet the policy declines and the timer submits nothing.
Second, last scan at 4294967000 and the timer ticking at 100 after the counter wrapped: the
elapsed time modulo `2 ^ 32` is 396 ticks, well below the interval, yet the policy accepts and
the timer submits a scan. -/
theorem auto_scan_policy_boundary :
    (15000 + 2 ^ 32 - wifi_scanned_at_5000.last_scan_time) % 2 ^ 32 = 10000 ∧
    AUTO_SCAN_INTERVAL / 1 = 10000 ∧
    shouldScanForAutoConnect { ticks := 15000 } wifi_scanned_at_5000 = false ∧
    onAutoConnectTimer { ticks := 15000 } wifi_scanned_at_5000 = wifi_scanned_at_5000 ∧
    shouldScanForAutoConnect { ticks := 15001 } wifi_scanned_at_5000 = true ∧
    (100 + 2 ^ 32 - wifi_scanned_before_wrap.last_scan_time) % 2 ^ 32 = 396 ∧
    shouldScanForAutoConnect { ticks := 100 } wifi_scanned_before_wrap = true ∧
    (onAutoConnectTimer { ticks := 100 } wifi_scanned_before_wrap).dispatched =
      [Command.dispatchScan] := by
  decide

/-- C10 (amended): on a timer tick the policy submits a scan if and only if it obtains the data
lock, the radio state is `On`, no scan is active, auto-connect is not paused, and either the
tick counter reads less than the time of the last scan request (the counter has wrapped, or no
scan was requested yet), or the time elapsed since the last scan request, computed modulo
`2 ^ 32`, is strictly greater than the auto-scan interval of 10000 ms in ticks. When it does
not submit a scan the timer callback changes nothing. -/
theorem auto_scan_policy (env : Env) (wifi : Wifi) :
    (shouldScanForAutoConnect env wifi = true ↔
      env.data_lock = true ∧ wifi.radio_state = WIFI_RADIO_ON ∧ wifi.scan_active = false ∧
        wifi.pause_auto_connect = false ∧
        (env.ticks % 2 ^ 32 < wifi.last_scan_time ∨
          (env.ticks % 2 ^ 32 + 2 ^ 32 - wifi.last_scan_time) % 2 ^ 32 >
            AUTO_SCAN_INTERVAL / env.portTICK_PERIOD_MS)) ∧
    (shouldScanForAutoConnect env wifi = true →
      onAutoConnectTimer env wifi = wifi.dispatch Command.dispatchScan) ∧
    (shouldScanForAutoConnect env wifi = false → onAutoConnectTimer env wifi = wifi) := by
  refine ⟨?_, ?_, ?_⟩
  · unfold shouldScanForAutoConnect
    simp only [Wifi.getRadioState, Wifi.isScanActive]
    cases hl : env.data_lock <;> cases hs : wifi.scan_active <;>
      cases hp : wifi.pause_auto_connect <;>
      by_cases hr : wifi.radio_state = WIFI_RADIO_ON <;>
      simp [hr]
  · intro h
    simp [onAutoConnectTimer, h]
  · intro h
    simp [onAutoConnectTimer, h]

/-! ## Disconnect -/

theorem disconnect_then_execute_ok (env : Env) (wifi : Wifi)
    (hqueue : wifi.dispatched = []) (hfault : wifi.fault = none)
    (hlock : env.radio_lock = true) (hstop : env.esp_wifi_stop = ESP_OK)
    (hconfig : env.esp_wifi_set_config = ESP_OK) (hstart : env.esp_wifi_start = ESP_OK) :
    (disconnect_then_execute env wifi).radio_state = WIFI_RADIO_ON ∧
    (disconnect_then_execute env wifi).published =
      wifi.published ++ [WifiEventTypeDisconnected] ∧
    (disconnect_then_execute env wifi).driver_calls =
      wifi.driver_calls ++ [DriverCall.esp_wifi_stop, DriverCall.esp_wifi_set_config "" "",
        DriverCall.esp_wifi_start] ∧
    (disconnect_then_execute env wifi).connection_target = ⟨"", "", false⟩ ∧
    (disconnect_then_execute env wifi).pause_auto_connect = true ∧
    (disconnect_then_execute env wifi).dispatched = [] ∧
    (disconnect_then_execute env wifi).fault = none := by
  simp [disconnect_then_execute, run, step, disconnect, runCommand,
    dispatchDisconnectButKeepActive, Wifi.dispatch, Wifi.dequeue, Wifi.call, Wifi.setRadioState,
    publish_event_simple, hqueue, hfault, hlock, hstop, hconfig, hstart]

/-- C12: for every state of a running service with nothing else queued: `disconnect()` (obtaining
the data lock) clears the connection target (empty name, empty credential, auto-connect false),
sets `pauseAutoConnect` and hands the disconnect command to the dispatcher without touching the
radio state or publishing; when that command runs with the radio lock obtained and the driver
stop, set-config and start succeeding, it ends with radio state `On`, not `Off`, and publishes
exactly one event, `Disconnected`. -/
theorem disconnect_keeps_radio_on (env : Env) (wifi : Wifi)
    (hqueue : wifi.dispatched = []) (hfault : wifi.fault = none)
    (hlock : env.radio_lock = true) (hstop : env.esp_wifi_stop = ESP_OK)
    (hconfig : env.esp_wifi_set_config = ESP_OK) (hstart : env.esp_wifi_start = ESP_OK) :
    (∃ called, disconnect true (some wifi) = some called ∧
      called.connection_target = ⟨"", "", false⟩ ∧ called.pause_auto_connect = true ∧
      called.dispatched = [Command.dispatchDisconnectButKeepActive] ∧
      called.radio_state = wifi.radio_state ∧ called.published = wifi.published) ∧
    (disconnect_then_execute env wifi).radio_state = WIFI_RADIO_ON ∧
    (disconnect_then_execute env wifi).radio_state ≠ WIFI_RADIO_OFF ∧
    (disconnect_then_execute env wifi).published =
      wifi.published ++ [WifiEventTypeDisconnected] ∧
    (disconnect_then_execute env wifi).connection_target = ⟨"", "", false⟩ ∧
    (disconnect_then_execute env wifi).pause_auto_connect = true := by
  obtain ⟨h1, h2, -, h4, h5, -, -⟩ :=
    disconnect_then_execute_ok env wifi hqueue hfault hlock hstop hconfig hstart
  refine ⟨⟨_, rfl, ?_, ?_, ?_, ?_, ?_⟩, h1, ?_, h2, h4, h5⟩
  · rfl
  · rfl
  · simp [Wifi.dispatch, hqueue]
  · rfl
  · rfl
  · rw [h1]
    decide

/-- Witness for `disconnect_keeps_radio_on`: disconnecting the connected radio. -/
theorem disconnect_keeps_radio_on_witness :
    wifi_connected.dispatched = [] ∧ wifi_connected.fault = none ∧
    wifi_connected.radio_state = WIFI_RADIO_CONNECTION_ACTIVE ∧
    (disconnect_then_execute env_ok wifi_connected).radio_state = WIFI_RADIO_ON ∧
    (disconnect_then_execute env_ok wifi_connected).published =
      wifi_connected.published ++ [WifiEventTypeDisconnected] :=
  ⟨by decide, by decide, by decide,
    (disconnect_keeps_radio_on env_ok wifi_connected (by decide) (by decide) (by decide)
      (by decide) (by decide) (by decide)).2.1,
    (disconnect_keeps_radio_on env_ok wifi_connected (by decide) (by decide) (by decide)
      (by decide) (by decide) (by decide)).2.2.2.1⟩

/-- C11 (as stated, refuted): on the connected radio, `disconnect()` twice in a row, each followed
by its command with every driver call succeeding, publishes `Disconnected` twice, not once.
After the first round the radio is `On` with an empty connection target, and the second command
is not a no-op: it issues stop, set-config and start again. -/
theorem disconnect_twice_publishes_twice_connected :
    (run wifi_connected [Action.disconnect true, Action.execute env_ok,
      Action.disconnect true, Action.execute env_ok]).published =
      wifi_connected.published ++ [WifiEventTypeDisconnected, WifiEventTypeDisconnected] ∧
    (run wifi_connected [Action.disconnect true, Action.execute env_ok]).radio_state =
      WIFI_RADIO_ON ∧
    (run wifi_connected [Action.disconnect true, Action.execute env_ok]).connection_target =
      ⟨"", "", false⟩ ∧
    (run wifi_connected [Action.disconnect true, Action.execute env_ok,
      Action.disconnect true, Action.execute env_ok]).driver_calls =
      (run wifi_connected [Action.disconnect true, Action.execute env_ok]).driver_calls ++
        [DriverCall.esp_wifi_stop, DriverCall.esp_wifi_set_config "" "",
          DriverCall.esp_wifi_start] := by
  decide

/-- C11 (amended): for every state of a running service with nothing else queued, `disconnect()`
called twice in a row, each call obtaining the data lock and followed by its command with the
radio lock obtained and the driver stop, set-config and start succeeding, publishes
`Disconnected` twice, once per command. Neither `disconnect()` nor its command looks at the radio
state or the connection target: the second command issues the three driver calls again and again
ends in `On`. -/
theorem disconnect_twice (first second : Env) (wifi : Wifi)
    (hqueue : wifi.dispatched = []) (hfault : wifi.fault = none)
    (hlock1 : first.radio_lock = true) (hstop1 : first.esp_wifi_stop = ESP_OK)
    (hconfig1 : first.esp_wifi_set_config = ESP_OK) (hstart1 : first.esp_wifi_start = ESP_OK)
    (hlock2 : second.radio_lock = true) (hstop2 : second.esp_wifi_stop = ESP_OK)
    (hconfig2 : second.esp_wifi_set_config = ESP_OK)
    (hstart2 : second.esp_wifi_start = ESP_OK) :
    (run wifi [Action.disconnect true, Action.execute first, Action.disconnect true,
      Action.execute second]).published =
      wifi.published ++ [WifiEventTypeDisconnected, WifiEventTypeDisconnected] ∧
    (run wifi [Action.disconnect true, Action.execute first, Action.disconnect true,
      Action.execute second]).driver_calls =
      (run wifi [Action.disconnect true, Action.execute first]).driver_calls ++
        [DriverCall.esp_wifi_stop, DriverCall.esp_wifi_set_config "" "",
          DriverCall.esp_wifi_start] ∧
    (run wifi [Action.disconnect true, Action.execute first, Action.disconnect true,
      Action.execute second]).radio_state = WIFI_RADIO_ON := by
  have hsplit : run wifi [Action.disconnect true, Action.execute first, Action.disconnect true,
      Action.execute second] =
      disconnect_then_execute second (disconnect_then_execute first wifi) := rfl
  have hone : run wifi [Action.disconnect true, Action.execute first] =
      disconnect_then_execute first wifi := rfl
  obtain ⟨-, a2, -, -, -, a6, a7⟩ :=
    disconnect_then_execute_ok first wifi hqueue hfault hlock1 hstop1 hconfig1 hstart1
  obtain ⟨b1, b2, b3, -, -, -, -⟩ :=
    disconnect_then_execute_ok second (disconnect_then_execute first wifi) a6 a7 hlock2 hstop2
      hconfig2 hstart2
  rw [hsplit, hone]
  refine ⟨?_, b3, b1⟩
  rw [b2, a2, List.append_assoc]
  rfl

/-- Witness for `disconnect_twice`: two disconnects of the switched-on radio. -/
theorem disconnect_twice_witness :
    wifi_on.dispatched = [] ∧ wifi_on.fault = none ∧ env_ok.radio_lock = true ∧
    (run wifi_on [Action.disconnect true, Action.execute env_ok, Action.disconnect true,
      Action.execute env_ok]).published =
      wifi_on.published ++ [WifiEventTypeDisconnected, WifiEventTypeDisconnected] :=
  ⟨by decide, by decide, by decide,
    (disconnect_twice env_ok env_ok wifi_on (by decide) (by decide) (by decide) (by decide)
      (by decide) (by decide) (by decide) (by decide) (by decide) (by decide)).1⟩

/-! ## Scan buffer invariant -/

theorem ScanFrame.unchanged (wifi : Wifi) : ScanFrame wifi wifi := ⟨rfl, rfl, rfl⟩

theorem ScanFrame.inv {a b : Wifi} (hab : ScanFrame a b) (ha : ScanListInv a) :
    ScanListInv b := by
  obtain ⟨h1, h2, h3⟩ := hab
  unfold ScanListInv at *
  rw [h1, h2, h3]
  exact ha

theorem dispatchEnable_scan_frame (env : Env) (wifi : Wifi) :
    ScanFrame wifi (dispatchEnable env wifi) := by
  unfold dispatchEnable ScanFrame
  simp only [Wifi.getRadioState, Wifi.setRadioState, Wifi.call, Wifi.abort, publish_event_simple]
  split_ifs <;> simp

theorem dispatchScan_scan_frame (env : Env) (wifi : Wifi) :
    ScanFrame wifi (dispatchScan env wifi) := by
  unfold dispatchScan ScanFrame
  simp only [Wifi.getRadioState, Wifi.setRadioState, Wifi.call, Wifi.isScanActive,
    Wifi.setScanActive, publish_event_simple]
  split_ifs <;> simp

theorem dispatchDisconnectButKeepActive_scan_frame (env : Env) (wifi : Wifi) :
    ScanFrame wifi (dispatchDisconnectButKeepActive env wifi) := by
  unfold dispatchDisconnectButKeepActive ScanFrame
  simp only [Wifi.getRadioState, Wifi.setRadioState, Wifi.call, publish_event_simple]
  split_ifs <;> simp

theorem connect_scan_frame (ap : WifiApSettings) (remember lock_acquired : Bool) (wifi : Wifi) :
    ScanFrame wifi ((connect ap remember lock_acquired (some wifi)).getD wifi) := by
  unfold connect ScanFrame
  cases lock_acquired <;> simp [Wifi.dispatch]

theorem dispatchAutoConnect_scan_frame (env : Env) (wifi : Wifi) :
    ScanFrame wifi (dispatchAutoConnect env wifi) := by
  unfold dispatchAutoConnect
  cases find_auto_connect_ap env wifi with
  | none => exact ScanFrame.unchanged wifi
  | some settings => exact connect_scan_frame settings false env.connect_lock wifi

theorem ScanListInv.of_freed {b : Wifi} (hlist : b.scan_list = none)
    (hcount : b.scan_list_count = 0) : ScanListInv b := by
  refine ⟨fun _ => hcount, ?_⟩
  intro buffer h
  rw [hlist] at h
  cases h

theorem dispatchDisable_scan (env : Env) (wifi : Wifi) :
    ScanFrame wifi (dispatchDisable env wifi) ∨
    ((dispatchDisable env wifi).scan_list = none ∧
      (dispatchDisable env wifi).scan_list_count = 0) := by
  unfold ScanFrame
  cases hl : wifi.scan_list <;>
    simp only [dispatchDisable, Wifi.getRadioState] <;>
    split_ifs <;>
    simp [Wifi.setRadioState, Wifi.call, Wifi.abort, Wifi.setScanActive,
      publish_event_simple, scan_list_free_safely, scan_list_free, hl]

theorem dispatchDisable_scan_inv (env : Env) (wifi : Wifi) (h : ScanListInv wifi) :
    ScanListInv (dispatchDisable env wifi) := by
  rcases dispatchDisable_scan env wifi with hf | ⟨h1, h2⟩
  · exact hf.inv h
  · exact ScanListInv.of_freed h1 h2

theorem copy_scan_list_skip (scan_result : esp_err_t) (found : List wifi_ap_record_t)
    (wifi : Wifi)
    (h : ¬ ((wifi.radio_state = WIFI_RADIO_ON ∨
      wifi.radio_state = WIFI_RADIO_CONNECTION_ACTIVE) ∧ wifi.scan_active = true)) :
    copy_scan_list scan_result found wifi = (false, wifi) := by
  simp only [copy_scan_list, Wifi.getRadioState, Wifi.isScanActive]
  rw [if_pos h]

theorem copy_scan_list_failed (scan_result : esp_err_t) (found : List wifi_ap_record_t)
    (wifi : Wifi)
    (hstate : wifi.radio_state = WIFI_RADIO_ON ∨
      wifi.radio_state = WIFI_RADIO_CONNECTION_ACTIVE)
    (hactive : wifi.scan_active = true) (hresult : scan_result ≠ ESP_OK) :
    (copy_scan_list scan_result found wifi).1 = false ∧
    (copy_scan_list scan_result found wifi).2.scan_list_count = 0 ∧
    (copy_scan_list scan_result found wifi).2.scan_list_limit = wifi.scan_list_limit ∧
    (copy_scan_list scan_result found wifi).2.scan_list =
      some (wifi.scan_list.getD (List.replicate wifi.scan_list_limit ⟨"", 0, 0, 0⟩)) := by
  unfold copy_scan_list
  cases hl : wifi.scan_list <;>
    simp [scan_list_alloc_safely, scan_list_alloc, esp_wifi_scan_get_ap_records,
      Wifi.getRadioState, Wifi.isScanActive, Wifi.call, Wifi.abort, hl, hstate, hactive,
      hresult]

theorem ScanListInv.getD_length {wifi : Wifi} (h : ScanListInv wifi) :
    (wifi.scan_list.getD (List.replicate wifi.scan_list_limit ⟨"", 0, 0, 0⟩)).length =
      wifi.scan_list_limit := by
  cases hl : wifi.scan_list with
  | none => simp
  | some buffer => simpa using (h.2 buffer hl).1

theorem copy_scan_list_scan_inv (scan_result : esp_err_t) (found : List wifi_ap_record_t)
    (wifi : Wifi) (h : ScanListInv wifi) :
    ScanListInv (copy_scan_list scan_result found wifi).2 := by
  by_cases hfetch : (wifi.radio_state = WIFI_RADIO_ON ∨
      wifi.radio_state = WIFI_RADIO_CONNECTION_ACTIVE) ∧ wifi.scan_active = true
  · have hlen := h.getD_length
    by_cases hresult : scan_result = ESP_OK
    · subst hresult
      obtain ⟨c1, c2, c3⟩ := copy_scan_list_ok found wifi hfetch.1 hfetch.2
      refine ⟨fun hnone => ?_, fun buffer hsome => ?_⟩
      · rw [c3] at hnone
        cases hnone
      · rw [c3] at hsome
        rw [c1, c2]
        cases hsome
        simp only [List.length_append, List.length_take, List.length_drop, hlen]
        omega
    · obtain ⟨-, c1, c2, c3⟩ := copy_scan_list_failed scan_result found wifi hfetch.1 hfetch.2
        hresult
      refine ⟨fun hnone => ?_, fun buffer hsome => ?_⟩
      · rw [c3] at hnone
        cases hnone
      · rw [c3] at hsome
        rw [c1, c2]
        cases hsome
        exact ⟨hlen, Nat.zero_le _⟩
  · rw [copy_scan_list_skip scan_result found wifi hfetch]
    exact h

theorem eventHandler_body_scan_inv (event : Notification) (wifi : Wifi)
    (h : ScanListInv wifi) : ScanListInv (eventHandler_body event wifi) := by
  cases event with
  | WIFI_EVENT_STA_START =>
    refine ScanFrame.inv ?_ h
    unfold eventHandler_body ScanFrame
    by_cases hs : wifi.getRadioState = WIFI_RADIO_CONNECTION_PENDING <;> simp [hs, Wifi.call]
  | WIFI_EVENT_STA_DISCONNECTED =>
    refine ScanFrame.inv ?_ h
    unfold eventHandler_body ScanFrame
    by_cases hs : wifi.getRadioState = WIFI_RADIO_CONNECTION_PENDING <;>
      simp [hs, Wifi.setRadioState, publish_event_simple]
  | IP_EVENT_STA_GOT_IP =>
    refine ScanFrame.inv ?_ h
    unfold eventHandler_body ScanFrame
    by_cases hs : wifi.getRadioState = WIFI_RADIO_CONNECTION_PENDING <;> simp [hs]
  | WIFI_EVENT_SCAN_DONE scan_result found =>
    obtain ⟨e1, e2, e3⟩ := eventHandler_body_scan_done_list scan_result found wifi
    exact ScanFrame.inv (a := (copy_scan_list scan_result found wifi).2) ⟨e1, e2, e3⟩
      (copy_scan_list_scan_inv scan_result found wifi h)
  | other => exact h

theorem eventHandler_fold_scan_inv (events : List Notification) (wifi : Wifi)
    (h : ScanListInv wifi) :
    ScanListInv (events.foldl (fun w event => eventHandler_body event w) wifi) := by
  induction events generalizing wifi with
  | nil => exact h
  | cons event rest ih => exact ih _ (eventHandler_body_scan_inv event wifi h)

theorem dispatchConnect_after_wait_scan_frame (password : String) (bits : Nat) (wifi : Wifi) :
    ScanFrame wifi (dispatchConnect_after_wait password bits wifi) := by
  unfold dispatchConnect_after_wait ScanFrame
  simp only [Wifi.setRadioState, Wifi.setSecureConnection, publish_event_simple]
  split_ifs <;> simp

theorem dispatchConnect_from_pending_scan_inv (env : Env) (wifi : Wifi)
    (h : ScanListInv wifi) : ScanListInv (dispatchConnect_from_pending env wifi) := by
  unfold dispatchConnect_from_pending
  simp only []
  split_ifs
  · refine ScanFrame.inv ?_ h
    simp [ScanFrame, Wifi.setRadioState, Wifi.call, publish_event_simple]
  · refine ScanFrame.inv ?_ h
    simp [ScanFrame, Wifi.setRadioState, Wifi.call, publish_event_simple]
  · refine (dispatchConnect_after_wait_scan_frame _ _ _).inv ?_
    refine eventHandler_fold_scan_inv _ _ ?_
    refine ScanFrame.inv ?_ h
    simp [ScanFrame, Wifi.setRadioState, Wifi.call, publish_event_simple]

theorem dispatchConnect_scan_inv (env : Env) (wifi : Wifi) (h : ScanListInv wifi) :
    ScanListInv (dispatchConnect env wifi) := by
  unfold dispatchConnect
  simp only [Wifi.getRadioState]
  split_ifs <;> first
    | exact h
    | exact dispatchConnect_from_pending_scan_inv env _ h

theorem runCommand_scan_inv (f : Command) (env : Env) (wifi : Wifi) (h : ScanListInv wifi) :
    ScanListInv (runCommand f env wifi) := by
  cases f with
  | dispatchAutoConnect => exact (dispatchAutoConnect_scan_frame env wifi).inv h
  | dispatchEnable => exact (dispatchEnable_scan_frame env wifi).inv h
  | dispatchDisable => exact dispatchDisable_scan_inv env wifi h
  | dispatchScan => exact (dispatchScan_scan_frame env wifi).inv h
  | dispatchConnect => exact dispatchConnect_scan_inv env wifi h
  | dispatchDisconnectButKeepActive =>
    exact (dispatchDisconnectButKeepActive_scan_frame env wifi).inv h

theorem setScanRecords_scan_inv (records : Nat) (lock_acquired : Bool) (wifi : Wifi)
    (h : ScanListInv wifi) :
    ScanListInv ((setScanRecords records lock_acquired (some wifi)).getD wifi) := by
  unfold setScanRecords
  cases lock_acquired
  · simpa using h
  · by_cases hr : records = wifi.scan_list_limit
    · simpa [hr] using h
    · cases hl : wifi.scan_list with
      | none =>
        refine ⟨fun _ => ?_, fun buffer hsome => ?_⟩
        · simpa [hr, scan_list_free_safely, hl] using h.1 hl
        · simp [hr, scan_list_free_safely, hl] at hsome
      | some buffer =>
        refine ⟨fun _ => ?_, fun buffer hsome => ?_⟩
        · simp [hr, scan_list_free_safely, scan_list_free, hl]
        · simp [hr, scan_list_free_safely, scan_list_free, hl] at hsome

theorem step_scan_inv (wifi : Wifi) (a : Action) (h : ScanListInv wifi) :
    ScanListInv (step wifi a) := by
  unfold step
  split_ifs
  · exact h
  · cases a with
    | setEnabled enabled lock_acquired =>
      refine ScanFrame.inv ?_ h
      cases lock_acquired <;> cases enabled <;> simp [ScanFrame, setEnabled, Wifi.dispatch]
    | scan => exact ScanFrame.inv (by simp [ScanFrame, scan, Wifi.dispatch]) h
    | connect ap remember lock_acquired =>
      exact (connect_scan_frame ap remember lock_acquired wifi).inv h
    | disconnect lock_acquired =>
      refine ScanFrame.inv ?_ h
      cases lock_acquired <;> simp [ScanFrame, disconnect, Wifi.dispatch]
    | setScanRecords records lock_acquired =>
      exact setScanRecords_scan_inv records lock_acquired wifi h
    | onAutoConnectTimer env =>
      refine ScanFrame.inv ?_ h
      unfold onAutoConnectTimer
      simp only []
      split_ifs <;> simp [ScanFrame, Wifi.dispatch]
    | eventHandler event => exact eventHandler_body_scan_inv event wifi h
    | execute env =>
      simp only []
      cases hq : wifi.dispatched with
      | nil => exact h
      | cons f rest =>
        exact runCommand_scan_inv f env _ (ScanFrame.inv (by simp [ScanFrame, Wifi.dequeue]) h)

theorem run_scan_inv (actions : List Action) (wifi : Wifi) (h : ScanListInv wifi) :
    ScanListInv (run wifi actions) := by
  unfold run
  induction actions generalizing wifi with
  | nil => exact h
  | cons a rest ih => exact ih _ (step_scan_inv wifi a h)

theorem wifi_started_scan_inv (limit : Nat) : ScanListInv (wifi_started limit) := by
  refine ⟨fun _ => rfl, fun buffer h => ?_⟩
  cases h

/-- C13: in every state a service reaches from its start (any initial scan limit, any run of
public calls, timer ticks, notifications and executed commands, with any driver results),
`setScanRecords(n)` obtaining the data lock: if `n` equals the current scan limit the instance
is unchanged, scan buffer and records included; if `n` differs, the instance afterwards differs
from the one before in exactly three fields, the scan buffer is unallocated, the record count
is 0 and the limit is `n`, and `getScanResults()` is empty. -/
theorem setScanRecords_effect (limit : Nat) (actions : List Action) (records : Nat) :
    (records = (run (wifi_started limit) actions).scan_list_limit →
      setScanRecords records true (some (run (wifi_started limit) actions)) =
        some (run (wifi_started limit) actions)) ∧
    (records ≠ (run (wifi_started limit) actions).scan_list_limit →
      setScanRecords records true (some (run (wifi_started limit) actions)) =
        some { run (wifi_started limit) actions with
          scan_list := none, scan_list_count := 0, scan_list_limit := records } ∧
      getScanResults true
        (setScanRecords records true (some (run (wifi_started limit) actions))) = []) := by
  have hinv := run_scan_inv actions (wifi_started limit) (wifi_started_scan_inv limit)
  generalize run (wifi_started limit) actions = wifi at hinv
  constructor
  · intro h
    simp [setScanRecords, h]
  · intro h
    have hset : setScanRecords records true (some wifi) =
        some { wifi with scan_list := none, scan_list_count := 0, scan_list_limit := records } := by
      cases hl : wifi.scan_list with
      | none =>
        have hcount := hinv.1 hl
        simp [setScanRecords, h, scan_list_free_safely, hl, hcount]
      | some buffer =>
        simp [setScanRecords, h, scan_list_free_safely, scan_list_free, hl]
    refine ⟨hset, ?_⟩
    rw [hset]
    simp [getScanResults]

/-! ## Notifications -/

theorem EventFlag_set_bit (flags bit : Nat) : EventFlag_set flags bit &&& bit = bit := by
  unfold EventFlag_set
  apply Nat.eq_of_testBit_eq
  intro i
  simp only [Nat.testBit_and, Nat.testBit_or]
  cases flags.testBit i <;> cases bit.testBit i <;> rfl

/-- C14: for every state of a running service, handling a disconnected notification leaves the
radio state `On` and publishes exactly one event, `Disconnected`. When the state before was
`ConnectionPending` the handler sets the `Failed` bit of the wait-signal, which is then raised;
in every other state the handler leaves the wait-signal as it was. -/
theorem disconnected_notification (wifi : Wifi) :
    eventHandler Notification.WIFI_EVENT_STA_DISCONNECTED (some wifi) =
      some (eventHandler_body Notification.WIFI_EVENT_STA_DISCONNECTED wifi) ∧
    (eventHandler_body Notification.WIFI_EVENT_STA_DISCONNECTED wifi).radio_state =
      WIFI_RADIO_ON ∧
    (eventHandler_body Notification.WIFI_EVENT_STA_DISCONNECTED wifi).published =
      wifi.published ++ [WifiEventTypeDisconnected] ∧
    (wifi.radio_state = WIFI_RADIO_CONNECTION_PENDING →
      (eventHandler_body Notification.WIFI_EVENT_STA_DISCONNECTED wifi).connection_wait_flags =
        EventFlag_set wifi.connection_wait_flags WIFI_FAIL_BIT ∧
      (eventHandler_body Notification.WIFI_EVENT_STA_DISCONNECTED wifi).connection_wait_flags
        &&& WIFI_FAIL_BIT ≠ 0) ∧
    (wifi.radio_state ≠ WIFI_RADIO_CONNECTION_PENDING →
      (eventHandler_body Notification.WIFI_EVENT_STA_DISCONNECTED wifi).connection_wait_flags =
        wifi.connection_wait_flags) := by
  refine ⟨rfl, ?_, ?_, ?_, ?_⟩
  · by_cases h : wifi.radio_state = WIFI_RADIO_CONNECTION_PENDING <;>
      simp [eventHandler_body, Wifi.getRadioState, Wifi.setRadioState, publish_event_simple, h]
  · by_cases h : wifi.radio_state = WIFI_RADIO_CONNECTION_PENDING <;>
      simp [eventHandler_body, Wifi.getRadioState, Wifi.setRadioState, publish_event_simple, h]
  · intro h
    have hflags : (eventHandler_body Notification.WIFI_EVENT_STA_DISCONNECTED
        wifi).connection_wait_flags = EventFlag_set wifi.connection_wait_flags WIFI_FAIL_BIT := by
      simp [eventHandler_body, Wifi.getRadioState, Wifi.setRadioState, publish_event_simple, h]
    refine ⟨hflags, ?_⟩
    rw [hflags, EventFlag_set_bit]
    decide
  · intro h
    simp [eventHandler_body, Wifi.getRadioState, Wifi.setRadioState, publish_event_simple, h]

/-- C15: an address-acquired notification handled while the radio state is `ConnectionPending`
changes exactly two fields, it sets the `Connected` bit of the wait-signal, which is then raised,
and clears `pauseAutoConnect`; the radio state stays `ConnectionPending` and nothing is
published. Handled in any other state it leaves the whole instance unchanged, so radio state,
wait-signal and `pauseAutoConnect` are as before and nothing is published. -/
theorem address_acquired_notification (wifi : Wifi) :
    (wifi.radio_state = WIFI_RADIO_CONNECTION_PENDING →
      eventHandler_body Notification.IP_EVENT_STA_GOT_IP wifi =
        { wifi with
          connection_wait_flags := EventFlag_set wifi.connection_wait_flags WIFI_CONNECTED_BIT
          pause_auto_connect := false } ∧
      (eventHandler_body Notification.IP_EVENT_STA_GOT_IP wifi).connection_wait_flags
        &&& WIFI_CONNECTED_BIT ≠ 0 ∧
      (eventHandler_body Notification.IP_EVENT_STA_GOT_IP wifi).pause_auto_connect = false ∧
      (eventHandler_body Notification.IP_EVENT_STA_GOT_IP wifi).radio_state =
        WIFI_RADIO_CONNECTION_PENDING ∧
      (eventHandler_body Notification.IP_EVENT_STA_GOT_IP wifi).published = wifi.published) ∧
    (wifi.radio_state ≠ WIFI_RADIO_CONNECTION_PENDING →
      eventHandler_body Notification.IP_EVENT_STA_GOT_IP wifi = wifi ∧
      eventHandler Notification.IP_EVENT_STA_GOT_IP (some wifi) = some wifi) := by
  constructor
  · intro h
    have hbody : eventHandler_body Notification.IP_EVENT_STA_GOT_IP wifi =
        { wifi with
          connection_wait_flags := EventFlag_set wifi.connection_wait_flags WIFI_CONNECTED_BIT
          pause_auto_connect := false } := by
      simp [eventHandler_body, Wifi.getRadioState, h]
    refine ⟨hbody, ?_, ?_, ?_, ?_⟩
    · rw [hbody]
      show EventFlag_set wifi.connection_wait_flags WIFI_CONNECTED_BIT &&& WIFI_CONNECTED_BIT ≠ 0
      rw [EventFlag_set_bit]
      decide
    · rw [hbody]
    · rw [hbody]
      exact h
    · rw [hbody]
  · intro h
    have hbody : eventHandler_body Notification.IP_EVENT_STA_GOT_IP wifi = wifi := by
      simp [eventHandler_body, Wifi.getRadioState, h]
    exact ⟨hbody, by simp [eventHandler, hbody]⟩

/-- C16 (as stated, refuted): three scan-done notifications. On the switched-on radio (`On`,
auto-connect not paused) with no scan marked active, no auto-connect evaluation is submitted.
On the same radio with a scan active but the driver failing to hand out its records, none is
submitted either (with a successful fetch one is). With the radio `Off` and a scan still marked
active, `scanActive` stays true after the notification; `ScanFinished` is published. -/
theorem scan_done_without_evaluation :
    wifi_on.radio_state = WIFI_RADIO_ON ∧ wifi_on.pause_auto_connect = false ∧
    wifi_on.scan_active = false ∧
    (run wifi_on [Action.eventHandler
      (Notification.WIFI_EVENT_SCAN_DONE ESP_OK [ap_home])]).dispatched = [] ∧
    wifi_on_scanning.radio_state = WIFI_RADIO_ON ∧
    wifi_on_scanning.pause_auto_connect = false ∧ wifi_on_scanning.scan_active = true ∧
    (run wifi_on_scanning [Action.eventHandler
      (Notification.WIFI_EVENT_SCAN_DONE (-1) [ap_home])]).dispatched = [] ∧
    (run wifi_on_scanning [Action.eventHandler
      (Notification.WIFI_EVENT_SCAN_DONE ESP_OK [ap_home])]).dispatched =
      [Command.dispatchAutoConnect] ∧
    wifi_off_scanning.radio_state = WIFI_RADIO_OFF ∧ wifi_off_scanning.scan_active = true ∧
    (run wifi_off_scanning [Action.eventHandler
      (Notification.WIFI_EVENT_SCAN_DONE ESP_OK [ap_home])]).scan_active = true ∧
    (run wifi_off_scanning [Action.eventHandler
      (Notification.WIFI_EVENT_SCAN_DONE ESP_OK [ap_home])]).published =
      wifi_off_scanning.published ++ [WifiEventTypeScanFinished] := by
  decide

/-- C16 (amended): on every scan-done notification the handler publishes `ScanFinished`, once.
Unless the radio state is `Off` or `OffPending` it sets `scanActive` to false and asks the driver
to stop scanning (`esp_wifi_scan_stop`, after the fetch of the records when there was one); in
`Off` and `OffPending` it leaves `scanActive` as it was and makes no driver call. It submits an
auto-connect evaluation exactly when the scan records were fetched, that is a scan was marked
active and the driver handed out its records, and the radio state is `On` and `pauseAutoConnect`
is false; otherwise it submits nothing. -/
theorem scan_done_notification (scan_result : esp_err_t) (found : List wifi_ap_record_t)
    (wifi : Wifi) :
    (eventHandler_body (Notification.WIFI_EVENT_SCAN_DONE scan_result found) wifi).published =
      wifi.published ++ [WifiEventTypeScanFinished] ∧
    (wifi.radio_state ≠ WIFI_RADIO_OFF ∧ wifi.radio_state ≠ WIFI_RADIO_OFF_PENDING →
      (eventHandler_body (Notification.WIFI_EVENT_SCAN_DONE scan_result found)
        wifi).scan_active = false) ∧
    (wifi.radio_state = WIFI_RADIO_OFF ∨ wifi.radio_state = WIFI_RADIO_OFF_PENDING →
      (eventHandler_body (Notification.WIFI_EVENT_SCAN_DONE scan_result found)
        wifi).scan_active = wifi.scan_active) ∧
    (wifi.radio_state = WIFI_RADIO_ON ∧ wifi.pause_auto_connect = false ∧
        wifi.scan_active = true ∧ scan_result = ESP_OK →
      (eventHandler_body (Notification.WIFI_EVENT_SCAN_DONE scan_result found)
        wifi).dispatched = wifi.dispatched ++ [Command.dispatchAutoConnect]) ∧
    (¬ (wifi.radio_state = WIFI_RADIO_ON ∧ wifi.pause_auto_connect = false ∧
        wifi.scan_active = true ∧ scan_result = ESP_OK) →
      (eventHandler_body (Notification.WIFI_EVENT_SCAN_DONE scan_result found)
        wifi).dispatched = wifi.dispatched) ∧
    (wifi.radio_state ≠ WIFI_RADIO_OFF ∧ wifi.radio_state ≠ WIFI_RADIO_OFF_PENDING →
      (eventHandler_body (Notification.WIFI_EVENT_SCAN_DONE scan_result found)
        wifi).driver_calls =
          wifi.driver_calls ++
            (if (wifi.radio_state = WIFI_RADIO_ON ∨
                wifi.radio_state = WIFI_RADIO_CONNECTION_ACTIVE) ∧ wifi.scan_active = true then
              [DriverCall.esp_wifi_scan_get_ap_records]
            else []) ++ [DriverCall.esp_wifi_scan_stop]) ∧
    (wifi.radio_state = WIFI_RADIO_OFF ∨ wifi.radio_state = WIFI_RADIO_OFF_PENDING →
      (eventHandler_body (Notification.WIFI_EVENT_SCAN_DONE scan_result found)
        wifi).driver_calls = wifi.driver_calls) := by
  cases hs : wifi.radio_state <;> cases ha : wifi.scan_active <;>
    cases hp : wifi.pause_auto_connect <;> cases hl : wifi.scan_list <;>
    by_cases hr : scan_result = ESP_OK <;>
    simp [eventHandler_body, copy_scan_list, scan_list_alloc_safely, scan_list_alloc,
      esp_wifi_scan_get_ap_records, Wifi.getRadioState, Wifi.isScanActive, Wifi.setScanActive,
      Wifi.call, Wifi.abort, Wifi.dispatch, publish_event_simple, hs, ha, hp, hl, hr]

/-! ## Radio state changes -/

theorem dispatchEnable_trace (env : Env) (wifi : Wifi) :
    (dispatchEnable env wifi).dispatched = wifi.dispatched ∧
    ThroughPending WIFI_RADIO_ON_PENDING wifi (dispatchEnable env wifi) := by
  unfold ThroughPending
  simp only [dispatchEnable, Wifi.getRadioState]
  split_ifs <;> simp [Wifi.setRadioState, Wifi.call, Wifi.abort, publish_event_simple]

theorem dispatchDisable_trace (env : Env) (wifi : Wifi) :
    (dispatchDisable env wifi).dispatched = wifi.dispatched ∧
    ThroughPending WIFI_RADIO_OFF_PENDING wifi (dispatchDisable env wifi) := by
  unfold ThroughPending
  cases hl : wifi.scan_list <;>
    simp only [dispatchDisable, Wifi.getRadioState] <;>
    split_ifs <;>
    simp [Wifi.setRadioState, Wifi.call, Wifi.abort, Wifi.setScanActive, publish_event_simple,
      scan_list_free_safely, scan_list_free, hl]

theorem ThroughPending.changes {pending : WifiRadioState} {before after : Wifi}
    (h : ThroughPending pending before after) :
    ∃ changes, after.radio_state_changes = before.radio_state_changes ++ changes ∧
      ∀ p ∈ changes,
        (p.1 = pending ∨ p.2 = pending) ∧
        (p.1 = before.radio_state ∨ p.1 = pending) ∧
        (p.2 = pending ∨ p.2 = WIFI_RADIO_OFF ∨ p.2 = WIFI_RADIO_ON) := by
  rcases h with ⟨-, h⟩ | ⟨-, h⟩ | ⟨-, h⟩ | ⟨-, h⟩
  · exact ⟨[], by simp [h], by simp⟩
  · exact ⟨_, h, by simp⟩
  · exact ⟨_, h, by simp⟩
  · exact ⟨_, h, by simp⟩

theorem ThroughPending.cycle {pending : WifiRadioState} {before after : Wifi}
    (h : ThroughPending pending before after) (hpending : inEnableCycle pending)
    (hdispatched : after.dispatched = before.dispatched) (hinv : EnableCycleInv before) :
    EnableCycleInv after := by
  obtain ⟨h1, h2, h3⟩ := hinv
  obtain ⟨changes, hc, hall⟩ := h.changes
  refine ⟨?_, ?_, ?_⟩
  · rcases h with ⟨hs, -⟩ | ⟨hs, -⟩ | ⟨hs, -⟩ | ⟨hs, -⟩
    · rw [hs]; exact h1
    · rw [hs]; exact hpending
    · rw [hs]; exact Or.inl rfl
    · rw [hs]; exact Or.inr (Or.inr (Or.inl rfl))
  · intro p hp
    rw [hc] at hp
    rcases List.mem_append.mp hp with hp | hp
    · exact h2 p hp
    · obtain ⟨-, hfrom, hto⟩ := hall p hp
      constructor
      · rcases hfrom with hf | hf
        · rw [hf]; exact h1
        · rw [hf]; exact hpending
      · rcases hto with ht | ht | ht
        · rw [ht]; exact hpending
        · rw [ht]; exact Or.inl rfl
        · rw [ht]; exact Or.inr (Or.inr (Or.inl rfl))
  · rw [hdispatched]
    exact h3

theorem step_cycle (wifi : Wifi) (a : Action) (ha : isSetEnabledStep a = true)
    (h : EnableCycleInv wifi) : EnableCycleInv (step wifi a) := by
  unfold step
  split_ifs
  · exact h
  · cases a with
    | setEnabled enabled lock_acquired =>
      obtain ⟨h1, h2, h3⟩ := h
      cases lock_acquired
      · exact ⟨h1, h2, h3⟩
      · cases enabled
        · refine ⟨h1, h2, ?_⟩
          intro f hf
          have hmem : f ∈ wifi.dispatched ++ [Command.dispatchDisable] := hf
          rcases List.mem_append.mp hmem with hm | hm
          · exact h3 f hm
          · exact Or.inr (List.mem_singleton.mp hm)
        · refine ⟨h1, h2, ?_⟩
          intro f hf
          have hmem : f ∈ wifi.dispatched ++ [Command.dispatchEnable] := hf
          rcases List.mem_append.mp hmem with hm | hm
          · exact h3 f hm
          · exact Or.inl (List.mem_singleton.mp hm)
    | execute env =>
      simp only []
      cases hq : wifi.dispatched with
      | nil => exact h
      | cons f rest =>
        have hrest : EnableCycleInv (wifi.dequeue rest) := by
          refine ⟨h.1, h.2.1, ?_⟩
          intro g hg
          exact h.2.2 g (by rw [hq]; exact List.mem_cons_of_mem f hg)
        have hf := h.2.2 f (by rw [hq]; exact List.mem_cons_self f rest)
        rcases hf with hf | hf
        · subst hf
          exact (dispatchEnable_trace env _).2.cycle (Or.inr (Or.inl rfl))
            (dispatchEnable_trace env _).1 hrest
        · subst hf
          exact (dispatchDisable_trace env _).2.cycle (Or.inr (Or.inr (Or.inr rfl)))
            (dispatchDisable_trace env _).1 hrest
    | scan => cases ha
    | connect ap remember lock_acquired => cases ha
    | disconnect lock_acquired => cases ha
    | setScanRecords records lock_acquired => cases ha
    | onAutoConnectTimer env => cases ha
    | eventHandler event => cases ha

theorem run_cycle (actions : List Action) (wifi : Wifi)
    (ha : ∀ a ∈ actions, isSetEnabledStep a = true) (h : EnableCycleInv wifi) :
    EnableCycleInv (run wifi actions) := by
  unfold run
  induction actions generalizing wifi with
  | nil => exact h
  | cons a rest ih =>
    exact ih _ (fun b hb => ha b (List.mem_cons_of_mem a hb))
      (step_cycle wifi a (ha a (List.mem_cons_self a rest)) h)

theorem dispatchEnable_interleaved_nil (env : Env) (wifi : Wifi) :
    dispatchEnable_interleaved env [] wifi = dispatchEnable env wifi := by
  simp only [dispatchEnable_interleaved, dispatchEnable, dispatchEnable_after_start,
    List.foldl_nil]

theorem dispatchDisable_interleaved_nil (env : Env) (wifi : Wifi) :
    dispatchDisable_interleaved env [] wifi = dispatchDisable env wifi := by
  simp only [dispatchDisable_interleaved, dispatchDisable, dispatchDisable_after_stop,
    List.foldl_nil]

theorem eventHandler_body_radio_state (event : Notification) (wifi : Wifi)
    (h : event ≠ Notification.WIFI_EVENT_STA_DISCONNECTED) :
    (eventHandler_body event wifi).radio_state = wifi.radio_state ∧
    (eventHandler_body event wifi).radio_state_changes = wifi.radio_state_changes ∧
    (eventHandler_body event wifi).netif = wifi.netif := by
  cases event with
  | WIFI_EVENT_STA_START =>
    unfold eventHandler_body
    by_cases hs : wifi.getRadioState = WIFI_RADIO_CONNECTION_PENDING <;> simp [hs, Wifi.call]
  | WIFI_EVENT_STA_DISCONNECTED => exact absurd rfl h
  | IP_EVENT_STA_GOT_IP =>
    unfold eventHandler_body
    by_cases hs : wifi.getRadioState = WIFI_RADIO_CONNECTION_PENDING <;> simp [hs]
  | WIFI_EVENT_SCAN_DONE scan_result found =>
    have hcopy : (copy_scan_list scan_result found wifi).2.radio_state = wifi.radio_state ∧
        (copy_scan_list scan_result found wifi).2.radio_state_changes =
          wifi.radio_state_changes ∧
        (copy_scan_list scan_result found wifi).2.netif = wifi.netif := by
      unfold copy_scan_list
      cases hl : wifi.scan_list <;>
        simp only [scan_list_alloc_safely, scan_list_alloc, esp_wifi_scan_get_ap_records,
          Wifi.getRadioState, Wifi.isScanActive, Wifi.call, Wifi.abort, hl] <;>
        split_ifs <;> simp_all
    unfold eventHandler_body
    simp only [Wifi.getRadioState, Wifi.setScanActive, Wifi.call, Wifi.dispatch,
      publish_event_simple]
    split_ifs <;> simp [hcopy]
  | other => exact ⟨rfl, rfl, rfl⟩

theorem eventHandler_fold_radio_state (events : List Notification) (wifi : Wifi)
    (h : Notification.WIFI_EVENT_STA_DISCONNECTED ∉ events) :
    (events.foldl (fun w event => eventHandler_body event w) wifi).radio_state =
      wifi.radio_state ∧
    (events.foldl (fun w event => eventHandler_body event w) wifi).radio_state_changes =
      wifi.radio_state_changes ∧
    (events.foldl (fun w event => eventHandler_body event w) wifi).netif = wifi.netif := by
  induction events generalizing wifi with
  | nil => exact ⟨rfl, rfl, rfl⟩
  | cons event rest ih =>
    have hne : event ≠ Notification.WIFI_EVENT_STA_DISCONNECTED := by
      intro he
      exact h (he ▸ List.mem_cons_self _ _)
    have hrest : Notification.WIFI_EVENT_STA_DISCONNECTED ∉ rest :=
      fun hm => h (List.mem_cons_of_mem _ hm)
    obtain ⟨h1, h2, h3⟩ := eventHandler_body_radio_state event wifi hne
    obtain ⟨g1, g2, g3⟩ := ih (eventHandler_body event wifi) hrest
    rw [List.foldl_cons, g1, g2, g3, h1, h2, h3]
    exact ⟨rfl, rfl, rfl⟩

theorem dispatchEnable_after_start_handled (env : Env) (events : List Notification)
    (wifi : Wifi) (h : Notification.WIFI_EVENT_STA_DISCONNECTED ∉ events) :
    (dispatchEnable_after_start env
      (events.foldl (fun w event => eventHandler_body event w) wifi)).radio_state =
        (if env.esp_wifi_start ≠ ESP_OK then WIFI_RADIO_OFF else WIFI_RADIO_ON) ∧
    (dispatchEnable_after_start env
      (events.foldl (fun w event => eventHandler_body event w) wifi)).radio_state_changes =
        wifi.radio_state_changes ++
          [(wifi.radio_state,
            if env.esp_wifi_start ≠ ESP_OK then WIFI_RADIO_OFF else WIFI_RADIO_ON)] := by
  obtain ⟨h1, h2, -⟩ := eventHandler_fold_radio_state events wifi h
  unfold dispatchEnable_after_start
  split_ifs <;> simp [Wifi.setRadioState, Wifi.call, publish_event_simple, h1, h2]

theorem dispatchDisable_after_stop_handled (env : Env) (events : List Notification)
    (wifi : Wifi) (h : Notification.WIFI_EVENT_STA_DISCONNECTED ∉ events) :
    (dispatchDisable_after_stop env
      (events.foldl (fun w event => eventHandler_body event w) wifi)).radio_state =
        (if env.esp_wifi_stop ≠ ESP_OK then WIFI_RADIO_ON
          else if wifi.netif = false then wifi.radio_state else WIFI_RADIO_OFF) ∧
    (dispatchDisable_after_stop env
      (events.foldl (fun w event => eventHandler_body event w) wifi)).radio_state_changes =
        wifi.radio_state_changes ++
          (if env.esp_wifi_stop ≠ ESP_OK then [(wifi.radio_state, WIFI_RADIO_ON)]
            else if wifi.netif = false then [] else [(wifi.radio_state, WIFI_RADIO_OFF)]) := by
  obtain ⟨h1, h2, h3⟩ := eventHandler_fold_radio_state events wifi h
  unfold dispatchDisable_after_stop
  cases hn : wifi.netif <;> by_cases hs : env.esp_wifi_stop = ESP_OK <;>
    simp [Wifi.setRadioState, Wifi.call, Wifi.abort, Wifi.setScanActive, publish_event_simple,
      h1, h2, h3, hn, hs]

theorem dispatchEnable_interleaved_trace (env : Env) (events : List Notification) (wifi : Wifi)
    (h : Notification.WIFI_EVENT_STA_DISCONNECTED ∉ events) :
    ThroughPending WIFI_RADIO_ON_PENDING wifi (dispatchEnable_interleaved env events wifi) := by
  have hstate := fun w => (dispatchEnable_after_start_handled env events w h).1
  have hchanges := fun w => (dispatchEnable_after_start_handled env events w h).2
  unfold ThroughPending
  simp only [dispatchEnable_interleaved, Wifi.getRadioState]
  by_cases hstart : env.esp_wifi_start = ESP_OK <;>
    split_ifs <;>
    simp [hstate, hchanges, hstart, Wifi.setRadioState, Wifi.call, Wifi.abort,
      publish_event_simple]

theorem dispatchDisable_interleaved_trace (env : Env) (events : List Notification) (wifi : Wifi)
    (h : Notification.WIFI_EVENT_STA_DISCONNECTED ∉ events) :
    ThroughPending WIFI_RADIO_OFF_PENDING wifi (dispatchDisable_interleaved env events wifi) := by
  have hstate := fun w => (dispatchDisable_after_stop_handled env events w h).1
  have hchanges := fun w => (dispatchDisable_after_stop_handled env events w h).2
  unfold ThroughPending
  cases hl : wifi.scan_list <;> cases hn : wifi.netif <;>
    by_cases hstop : env.esp_wifi_stop = ESP_OK <;>
    simp only [dispatchDisable_interleaved, Wifi.getRadioState] <;>
    split_ifs <;>
    simp [hstate, hchanges, hstop, hn, hl, Wifi.setRadioState, Wifi.call, Wifi.abort,
      publish_event_simple, scan_list_free_safely, scan_list_free]

/-- C17 (as stated, refuted): on the connected radio, a `disconnect()` whose command cannot
configure the driver writes `Off` over `ConnectionActive`, and the disconnected notification
that follows writes `On` over `Off`: two changes of the radio state with no pending state in
between. And on the connected radio, a disable command during which the disconnected
notification is handled after `esp_wifi_stop()` writes `OffPending`, the handler writes `On`,
and the command then writes `Off` over `On`. -/
theorem radio_state_changes_skip_pending :
    wifi_connected.radio_state = WIFI_RADIO_CONNECTION_ACTIVE ∧
    (run wifi_connected [Action.disconnect true, Action.execute env_config_fails,
      Action.eventHandler Notification.WIFI_EVENT_STA_DISCONNECTED]).radio_state_changes =
      wifi_connected.radio_state_changes ++
        [(WIFI_RADIO_CONNECTION_ACTIVE, WIFI_RADIO_OFF), (WIFI_RADIO_OFF, WIFI_RADIO_ON)] ∧
    wifi_disable_start.radio_state = WIFI_RADIO_CONNECTION_ACTIVE ∧
    (dispatchDisable_interleaved env_ok [Notification.WIFI_EVENT_STA_DISCONNECTED]
      wifi_disable_start).radio_state_changes =
      wifi_disable_start.radio_state_changes ++
        [(WIFI_RADIO_CONNECTION_ACTIVE, WIFI_RADIO_OFF_PENDING),
          (WIFI_RADIO_OFF_PENDING, WIFI_RADIO_ON), (WIFI_RADIO_ON, WIFI_RADIO_OFF)] := by
  decide

/-- C17 (amended): as long as no disconnected notification is handled while the command runs, no
change of the radio state made by the enable command or by the disable command skips the pending
intermediate. Every write of the radio state by the enable command has `OnPending` as the state
before or the state written, every write by the disable command has `OffPending` as the state
before or the state written; so neither command changes the state directly from `Off` to `On`,
nor directly from `On`, `ConnectionPending` or `ConnectionActive` to `Off`. This holds for the
commands run without interruption and for the commands during which the driver task handles
notifications other than the disconnected one, none of which writes the radio state. -/
theorem enable_disable_through_pending (env : Env) (wifi : Wifi) :
    (∃ changes,
      (dispatchEnable env wifi).radio_state_changes = wifi.radio_state_changes ++ changes ∧
      ∀ p ∈ changes,
        (p.1 = WIFI_RADIO_ON_PENDING ∨ p.2 = WIFI_RADIO_ON_PENDING) ∧
        ¬ (p.1 = WIFI_RADIO_OFF ∧ p.2 = WIFI_RADIO_ON) ∧
        ¬ ((p.1 = WIFI_RADIO_ON ∨ p.1 = WIFI_RADIO_CONNECTION_PENDING ∨
            p.1 = WIFI_RADIO_CONNECTION_ACTIVE) ∧ p.2 = WIFI_RADIO_OFF)) ∧
    (∃ changes,
      (dispatchDisable env wifi).radio_state_changes = wifi.radio_state_changes ++ changes ∧
      ∀ p ∈ changes,
        (p.1 = WIFI_RADIO_OFF_PENDING ∨ p.2 = WIFI_RADIO_OFF_PENDING) ∧
        ¬ (p.1 = WIFI_RADIO_OFF ∧ p.2 = WIFI_RADIO_ON) ∧
        ¬ ((p.1 = WIFI_RADIO_ON ∨ p.1 = WIFI_RADIO_CONNECTION_PENDING ∨
            p.1 = WIFI_RADIO_CONNECTION_ACTIVE) ∧ p.2 = WIFI_RADIO_OFF)) ∧
    dispatchEnable_interleaved env [] wifi = dispatchEnable env wifi ∧
    dispatchDisable_interleaved env [] wifi = dispatchDisable env wifi ∧
    (∀ events : List Notification, Notification.WIFI_EVENT_STA_DISCONNECTED ∉ events →
      ∃ changes,
        (dispatchEnable_interleaved env events wifi).radio_state_changes =
          wifi.radio_state_changes ++ changes ∧
        ∀ p ∈ changes,
          (p.1 = WIFI_RADIO_ON_PENDING ∨ p.2 = WIFI_RADIO_ON_PENDING) ∧
          ¬ (p.1 = WIFI_RADIO_OFF ∧ p.2 = WIFI_RADIO_ON) ∧
          ¬ ((p.1 = WIFI_RADIO_ON ∨ p.1 = WIFI_RADIO_CONNECTION_PENDING ∨
              p.1 = WIFI_RADIO_CONNECTION_ACTIVE) ∧ p.2 = WIFI_RADIO_OFF)) ∧
    (∀ events : List Notification, Notification.WIFI_EVENT_STA_DISCONNECTED ∉ events →
      ∃ changes,
        (dispatchDisable_interleaved env events wifi).radio_state_changes =
          wifi.radio_state_changes ++ changes ∧
        ∀ p ∈ changes,
          (p.1 = WIFI_RADIO_OFF_PENDING ∨ p.2 = WIFI_RADIO_OFF_PENDING) ∧
          ¬ (p.1 = WIFI_RADIO_OFF ∧ p.2 = WIFI_RADIO_ON) ∧
          ¬ ((p.1 = WIFI_RADIO_ON ∨ p.1 = WIFI_RADIO_CONNECTION_PENDING ∨
              p.1 = WIFI_RADIO_CONNECTION_ACTIVE) ∧ p.2 = WIFI_RADIO_OFF)) ∧
    (∀ (event : Notification) (handled : Wifi),
      event ≠ Notification.WIFI_EVENT_STA_DISCONNECTED →
        (eventHandler_body event handled).radio_state = handled.radio_state ∧
        (eventHandler_body event handled).radio_state_changes =
          handled.radio_state_changes) := by
  have hthrough : ∀ (pending : WifiRadioState) (after : Wifi),
      (pending = WIFI_RADIO_ON_PENDING ∨ pending = WIFI_RADIO_OFF_PENDING) →
      ThroughPending pending wifi after →
      ∃ changes, after.radio_state_changes = wifi.radio_state_changes ++ changes ∧
        ∀ p ∈ changes,
          (p.1 = pending ∨ p.2 = pending) ∧
          ¬ (p.1 = WIFI_RADIO_OFF ∧ p.2 = WIFI_RADIO_ON) ∧
          ¬ ((p.1 = WIFI_RADIO_ON ∨ p.1 = WIFI_RADIO_CONNECTION_PENDING ∨
              p.1 = WIFI_RADIO_CONNECTION_ACTIVE) ∧ p.2 = WIFI_RADIO_OFF) := by
    intro pending after hpending h
    obtain ⟨changes, hc, hall⟩ := h.changes
    refine ⟨changes, hc, fun p hp => ?_⟩
    obtain ⟨h1, -, -⟩ := hall p hp
    refine ⟨h1, ?_, ?_⟩
    · rintro ⟨ha, hb⟩
      rcases h1 with h | h
      · rw [h] at ha
        rcases hpending with g | g <;> (rw [g] at ha; cases ha)
      · rw [h] at hb
        rcases hpending with g | g <;> (rw [g] at hb; cases hb)
    · rintro ⟨ha, hb⟩
      rcases h1 with h | h
      · rw [h] at ha
        rcases hpending with g | g <;> (rw [g] at ha; rcases ha with ha | ha | ha <;> cases ha)
      · rw [h] at hb
        rcases hpending with g | g <;> (rw [g] at hb; cases hb)
  refine ⟨hthrough _ _ (Or.inl rfl) (dispatchEnable_trace env wifi).2,
    hthrough _ _ (Or.inr rfl) (dispatchDisable_trace env wifi).2,
    dispatchEnable_interleaved_nil env wifi, dispatchDisable_interleaved_nil env wifi,
    fun events h => hthrough _ _ (Or.inl rfl) (dispatchEnable_interleaved_trace env events wifi h),
    fun events h => hthrough _ _ (Or.inr rfl) (dispatchDisable_interleaved_trace env events wifi h),
    fun event handled h => ?_⟩
  exact ⟨(eventHandler_body_radio_state event handled h).1,
    (eventHandler_body_radio_state event handled h).2.1⟩

/-- C18: for every finite run of `setEnabled(true)`/`setEnabled(false)` calls (whether or not
they obtain the data lock) and executions of the commands they queue, with arbitrary driver
results and no driver notification, starting from the freshly started service in `Off`: the
radio state after the run, and every state written to the radio state during the run, the
intermediate states inside each command included, is one of `Off`, `OnPending`, `On`,
`OffPending`; `ConnectionPending` and `ConnectionActive` are never entered. -/
theorem setEnabled_sequences_stay_in_cycle (limit : Nat) (actions : List Action)
    (hactions : ∀ a ∈ actions, isSetEnabledStep a = true) :
    (wifi_started limit).radio_state = WIFI_RADIO_OFF ∧
    inEnableCycle (run (wifi_started limit) actions).radio_state ∧
    (∀ p ∈ (run (wifi_started limit) actions).radio_state_changes,
      inEnableCycle p.1 ∧ inEnableCycle p.2) ∧
    (run (wifi_started limit) actions).radio_state ≠ WIFI_RADIO_CONNECTION_PENDING ∧
    (run (wifi_started limit) actions).radio_state ≠ WIFI_RADIO_CONNECTION_ACTIVE ∧
    ∀ p ∈ (run (wifi_started limit) actions).radio_state_changes,
      p.2 ≠ WIFI_RADIO_CONNECTION_PENDING ∧ p.2 ≠ WIFI_RADIO_CONNECTION_ACTIVE := by
  have hstart : EnableCycleInv (wifi_started limit) :=
    ⟨Or.inl rfl, (by intro p hp; cases hp), (by intro f hf; cases hf)⟩
  obtain ⟨h1, h2, -⟩ := run_cycle actions (wifi_started limit) hactions hstart
  have hnot : ∀ s : WifiRadioState, inEnableCycle s →
      s ≠ WIFI_RADIO_CONNECTION_PENDING ∧ s ≠ WIFI_RADIO_CONNECTION_ACTIVE := by
    intro s hs
    rcases hs with hs | hs | hs | hs <;> subst hs <;> exact ⟨by decide, by decide⟩
  exact ⟨rfl, h1, h2, (hnot _ h1).1, (hnot _ h1).2, fun p hp => hnot _ (h2 p hp).2⟩

/-- Witness for `setEnabled_sequences_stay_in_cycle`: a run with failing driver steps. -/
theorem setEnabled_sequences_stay_in_cycle_witness :
    (∀ a ∈ enable_disable_run, isSetEnabledStep a = true) ∧
    inEnableCycle (run (wifi_started 16) enable_disable_run).radio_state ∧
    ∀ p ∈ (run (wifi_started 16) enable_disable_run).radio_state_changes,
      p.2 ≠ WIFI_RADIO_CONNECTION_PENDING ∧ p.2 ≠ WIFI_RADIO_CONNECTION_ACTIVE :=
  ⟨by decide,
    (setEnabled_sequences_stay_in_cycle 16 enable_disable_run (by decide)).2.1,
    (setEnabled_sequences_stay_in_cycle 16 enable_disable_run (by decide)).2.2.2.2.2⟩

/-! ## Fatal checks -/

/-- C19 (evaluation at the failing inputs): from a freshly started service, `setEnabled(true)`
whose command cannot register the first event handler ends in the fatal `ESP_ERROR_CHECK`. A
`connect` without a prior enable whose configuration the driver refuses leaves the radio `On`
with no interface handle; `setEnabled(false)` then runs the disable command into its assertion
on the interface handle. The same assertion fails after a disconnected notification without a
prior enable. On a running service `getPubsub()` and `getRssi()` pass their checks; they are
fatal only when the service is not running. -/
theorem fatal_checks_reached :
    (run (wifi_started 16) [Action.setEnabled true true,
      Action.execute env_register_fails]).fault = some Fault.esp_error_check ∧
    wifi_on_without_enable.radio_state = WIFI_RADIO_ON ∧
    wifi_on_without_enable.netif = false ∧ wifi_on_without_enable.fault = none ∧
    (run wifi_on_without_enable [Action.setEnabled false true,
      Action.execute env_ok]).fault = some Fault.tt_assert ∧
    (run (wifi_started 16) [Action.eventHandler Notification.WIFI_EVENT_STA_DISCONNECTED,
      Action.setEnabled false true, Action.execute env_ok]).fault = some Fault.tt_assert ∧
    getPubsub (some wifi_on_without_enable) = Except.ok wifi_on_without_enable.published ∧
    getRssi ESP_OK (-55) (some wifi_on_without_enable) = Except.ok (-55) ∧
    getPubsub none = Except.error Fault.tt_crash ∧
    getRssi ESP_OK (-55) none = Except.error Fault.tt_assert :=
  ⟨by decide, by decide, by decide, by decide, by decide, by decide, rfl, rfl, rfl, rfl⟩

/-! ## Read accessors and the data lock -/

/-- With the data lock free the accessors with the explicit wait agree with the plain ones. -/
theorem accessors_wait_free (portTICK_PERIOD_MS : Nat) (wifi_singleton : Option Wifi) :
    getRadioState_wait (some 0) wifi_singleton = some (getRadioState wifi_singleton) ∧
    isScanning_wait (some 0) wifi_singleton = some (isScanning wifi_singleton) ∧
    getConnectionTarget_wait (some 0) wifi_singleton =
      some (getConnectionTarget wifi_singleton) ∧
    getScanResults_wait portTICK_PERIOD_MS (some 0) wifi_singleton =
      some (getScanResults true wifi_singleton) ∧
    isConnectionSecure_wait portTICK_PERIOD_MS (some 0) wifi_singleton =
      some (isConnectionSecure true wifi_singleton) := by
  cases wifi_singleton with
  | none => exact ⟨rfl, rfl, rfl, rfl, rfl⟩
  | some wifi =>
    refine ⟨rfl, rfl, ?_, ?_, ?_⟩
    · simp only [getConnectionTarget_wait, getConnectionTarget, Wifi.getRadioState_wait,
        Mutex_acquire, Wifi.getRadioState]
      split_ifs <;> rfl
    · simp [getScanResults_wait, Mutex_acquire]
    · simp [isConnectionSecure_wait, Mutex_acquire]

/-- C20 (evaluation at the failing input): on the connected radio with the data lock held by
another task and never released, `getRadioState()`, `isScanning()` and `getConnectionTarget()`
never return, they wait on the lock without a timeout; with the lock held for a million ticks
they return the actual state and target name after that wait, not the defaults. With the same
lock `getScanResults()` and `isConnectionSecure()` give up after their timeout and return the
empty list and false. When the service is not running all five return their defaults. -/
theorem accessors_wait_without_timeout :
    wifi_connected.radio_state = WIFI_RADIO_CONNECTION_ACTIVE ∧
    getRadioState_wait none (some wifi_connected) = none ∧
    isScanning_wait none (some wifi_connected) = none ∧
    getConnectionTarget_wait none (some wifi_connected) = none ∧
    getRadioState_wait (some 1000000) (some wifi_connected) =
      some WIFI_RADIO_CONNECTION_ACTIVE ∧
    getConnectionTarget_wait (some 1000000) (some wifi_connected) = some "home" ∧
    getScanResults_wait 1 none (some wifi_connected) = some [] ∧
    isConnectionSecure_wait 1 none (some wifi_connected) = some false ∧
    getScanResults_wait 1 (some 1000000) (some wifi_connected) = some [] ∧
    isConnectionSecure_wait 1 (some 1000000) (some wifi_connected) = some false ∧
    isConnectionSecure_wait 1 (some 0) (some wifi_connected) = some true ∧
    (∀ busy, getRadioState_wait busy none = some WIFI_RADIO_OFF) ∧
    (∀ busy, isScanning_wait busy none = some false) ∧
    (∀ busy, getConnectionTarget_wait busy none = some "") ∧
    (∀ ms busy, getScanResults_wait ms busy none = some []) ∧
    (∀ ms busy, isConnectionSecure_wait ms busy none = some false) := by
  refine ⟨by decide, by decide, by decide, by decide, by decide, by decide, by decide,
    by decide, by decide, by decide, by decide, ?_, ?_, ?_, ?_, ?_⟩ <;> intros <;> rfl

/-! ## End-to-end scenario -/

theorem scenario_enabled_eq (limit : Nat) :
    scenario_enabled limit =
      { scan_list_limit := limit, radio_state := WIFI_RADIO_ON, netif := true,
        event_handler_any_id := true, event_handler_got_ip := true, last_scan_time := 0,
        published := [WifiEventTypeRadioStateOnPending, WifiEventTypeRadioStateOn],
        driver_calls := [DriverCall.esp_netif_create_default_wifi_sta, DriverCall.esp_wifi_init,
          DriverCall.esp_wifi_set_storage, DriverCall.esp_event_handler_instance_register_wifi,
          DriverCall.esp_event_handler_instance_register_ip, DriverCall.esp_wifi_set_mode_sta,
          DriverCall.esp_wifi_start],
        radio_state_changes := [(WIFI_RADIO_OFF, WIFI_RADIO_ON_PENDING),
          (WIFI_RADIO_ON_PENDING, WIFI_RADIO_ON)] } := by
  rfl

theorem scenario_scanned_eq (limit : Nat) (r1 r2 r3 : wifi_ap_record_t) (hlimit : 3 ≤ limit) :
    scenario_scanned limit [r1, r2, r3] =
      { scenario_enabled limit with
        scan_list := some ([r1, r2, r3] ++ List.replicate (limit - 3) ⟨"", 0, 0, 0⟩)
        scan_list_count := 3
        published := [WifiEventTypeRadioStateOnPending, WifiEventTypeRadioStateOn,
          WifiEventTypeScanStarted, WifiEventTypeScanFinished]
        driver_calls := (scenario_enabled limit).driver_calls ++
          [DriverCall.esp_wifi_scan_start, DriverCall.esp_wifi_scan_get_ap_records,
            DriverCall.esp_wifi_scan_stop]
        dispatched := [Command.dispatchAutoConnect] } := by
  obtain ⟨k, rfl⟩ : ∃ k, limit = 3 + k := ⟨limit - 3, by omega⟩
  have ht : List.take (3 + k) [r1, r2, r3] = [r1, r2, r3] := by simp
  rw [scenario_enabled_eq]
  simp [scenario_scanned, scenario_enabled_eq, run, step, scan, Wifi.dispatch, runCommand,
    dispatchScan, env_ok, Wifi.dequeue, Wifi.getRadioState, Wifi.isScanActive, Wifi.call,
    Wifi.setScanActive, publish_event_simple, eventHandler, eventHandler_body, copy_scan_list,
    scan_list_alloc_safely, scan_list_alloc, esp_wifi_scan_get_ap_records, ESP_OK, ht]

theorem scenario_connect_called_eq (limit : Nat) (r1 r2 r3 : wifi_ap_record_t)
    (ap : WifiApSettings) (hlimit : 3 ≤ limit) :
    scenario_connect_called limit [r1, r2, r3] ap =
      { scenario_scanned limit [r1, r2, r3] with
        pause_auto_connect := true
        connection_target := ap
        connection_target_remember := true
        dispatched := [Command.dispatchConnect] } := by
  rw [scenario_connect_called, scenario_scanned_eq limit r1 r2 r3 hlimit, scenario_enabled_eq]
  have ht : List.take 3 ([r1, r2, r3] ++
      List.replicate (limit - 3) (⟨"", 0, 0, 0⟩ : wifi_ap_record_t)) = [r1, r2, r3] := by simp
  simp [run, step, connect, Wifi.dispatch, runCommand, env_ok, Wifi.dequeue,
    dispatchAutoConnect, find_auto_connect_ap, find_auto_connect_ap_loop]

theorem scenario_connected_eq (limit : Nat) (r1 r2 r3 : wifi_ap_record_t) (ap : WifiApSettings)
    (hlimit : 3 ≤ limit) :
    scenario_connected limit [r1, r2, r3] ap =
      some { scenario_scanned limit [r1, r2, r3] with
        radio_state := WIFI_RADIO_CONNECTION_ACTIVE
        secure_connection := decide (ap.password ≠ "")
        connection_target := ap
        connection_target_remember := true
        saved := [ap]
        published := [WifiEventTypeRadioStateOnPending, WifiEventTypeRadioStateOn,
          WifiEventTypeScanStarted, WifiEventTypeScanFinished, WifiEventTypeConnectionPending,
          WifiEventTypeConnectionSuccess]
        driver_calls := (scenario_scanned limit [r1, r2, r3]).driver_calls ++
          [DriverCall.esp_wifi_stop, DriverCall.esp_wifi_set_config ap.ssid ap.password,
            DriverCall.esp_wifi_start]
        dispatched := []
        radio_state_changes := [(WIFI_RADIO_OFF, WIFI_RADIO_ON_PENDING),
          (WIFI_RADIO_ON_PENDING, WIFI_RADIO_ON), (WIFI_RADIO_ON, WIFI_RADIO_CONNECTION_PENDING),
          (WIFI_RADIO_CONNECTION_PENDING, WIFI_RADIO_CONNECTION_ACTIVE)] } := by
  rw [scenario_connected, scenario_connect_called_eq limit r1 r2 r3 ap hlimit,
    scenario_scanned_eq limit r1 r2 r3 hlimit, scenario_enabled_eq]
  simp [dispatchConnect_signalled, EventFlag_wait, connect_wait_exit, connect_wait_entry,
    connect_stopped, dispatchConnect, dispatchConnect_from_pending, dispatchConnect_after_wait,
    env_address_acquired, eventHandler_body, Wifi.setSecureConnection, EventFlag_set,
    EventFlag_clear, Wifi.dequeue, Wifi.getRadioState, Wifi.call, Wifi.setScanActive,
    publish_event_simple, Wifi.setRadioState, ESP_OK, WIFI_CONNECTED_BIT, WIFI_FAIL_BIT]

theorem scenario_blocked (limit : Nat) (r1 r2 r3 : wifi_ap_record_t) (ap : WifiApSettings)
    (hlimit : 3 ≤ limit) :
    dispatchConnect_signalled env_no_notification
      ((scenario_connect_called limit [r1, r2, r3] ap).dequeue []) = none := by
  rw [scenario_connect_called_eq limit r1 r2 r3 ap hlimit,
    scenario_scanned_eq limit r1 r2 r3 hlimit, scenario_enabled_eq]
  simp [dispatchConnect_signalled, EventFlag_wait, connect_wait_exit, connect_wait_entry,
    connect_stopped, env_no_notification, Wifi.dequeue, Wifi.getRadioState, Wifi.call,
    Wifi.setScanActive, publish_event_simple, Wifi.setRadioState, ESP_OK, WIFI_CONNECTED_BIT,
    WIFI_FAIL_BIT]

/-- C21: a freshly started service (radio `Off`, any scan limit of at least 3) with an empty
credential store, every driver call succeeding and every lock obtained. After `setEnabled(true)`
and its command the state is `On` and `RadioOnPending`, `RadioOn` have been published. After
`scan()`, its command and a scan-done notification with three driver records, `ScanStarted` and
`ScanFinished` have been published as well and `getScanResults()` returns the three records.
After the queued auto-connect evaluation and `connect("home", "pw", remember = true)` the connect
command is queued. The address-acquired notification handled during its wait raises the
`Connected` bit of the wait-signal, the wait returns it, and the command ends in
`ConnectionActive`: the published events are `RadioOnPending`, `RadioOn`, `ScanStarted`,
`ScanFinished`, `ConnectionPending`, `ConnectionSuccess`, ("home", "pw") was saved, so the store,
which did not know "home" before, holds it, no fatal check fired and no command is left queued.
Without the notification the wait does not return. -/
theorem end_to_end_scenario (limit : Nat) (r1 r2 r3 : wifi_ap_record_t) (auto_connect : Bool)
    (hlimit : 3 ≤ limit) :
    (wifi_started limit).radio_state = WIFI_RADIO_OFF ∧
    (scenario_enabled limit).radio_state = WIFI_RADIO_ON ∧
    (scenario_enabled limit).published =
      [WifiEventTypeRadioStateOnPending, WifiEventTypeRadioStateOn] ∧
    (scenario_scanned limit [r1, r2, r3]).published =
      [WifiEventTypeRadioStateOnPending, WifiEventTypeRadioStateOn, WifiEventTypeScanStarted,
        WifiEventTypeScanFinished] ∧
    getScanResults true (some (scenario_scanned limit [r1, r2, r3])) =
      [⟨r1.ssid, r1.rssi, r1.authmode⟩, ⟨r2.ssid, r2.rssi, r2.authmode⟩,
        ⟨r3.ssid, r3.rssi, r3.authmode⟩] ∧
    (getScanResults true (some (scenario_scanned limit [r1, r2, r3]))).length = 3 ∧
    (scenario_connect_called limit [r1, r2, r3] ⟨"home", "pw", auto_connect⟩).dispatched =
      [Command.dispatchConnect] ∧
    (connect_wait_exit env_address_acquired (connect_stopped
      ((scenario_connect_called limit [r1, r2, r3]
        ⟨"home", "pw", auto_connect⟩).dequeue []))).connection_wait_flags =
      WIFI_CONNECTED_BIT ∧
    (∃ connected,
      scenario_connected limit [r1, r2, r3] ⟨"home", "pw", auto_connect⟩ = some connected ∧
      connected.radio_state = WIFI_RADIO_CONNECTION_ACTIVE ∧
      connected.published =
        [WifiEventTypeRadioStateOnPending, WifiEventTypeRadioStateOn, WifiEventTypeScanStarted,
          WifiEventTypeScanFinished, WifiEventTypeConnectionPending,
          WifiEventTypeConnectionSuccess] ∧
      connected.saved = [⟨"home", "pw", auto_connect⟩] ∧
      (env_ok.settings.after_saves connected.saved).contains "home" = true ∧
      (env_ok.settings.after_saves connected.saved).load "home" =
        some ⟨"home", "pw", auto_connect⟩ ∧
      connected.fault = none ∧ connected.dispatched = []) ∧
    env_ok.settings.contains "home" = false ∧
    dispatchConnect_signalled env_no_notification
      ((scenario_connect_called limit [r1, r2, r3]
        ⟨"home", "pw", auto_connect⟩).dequeue []) = none := by
  have hresults : getScanResults true (some (scenario_scanned limit [r1, r2, r3])) =
      [⟨r1.ssid, r1.rssi, r1.authmode⟩, ⟨r2.ssid, r2.rssi, r2.authmode⟩,
        ⟨r3.ssid, r3.rssi, r3.authmode⟩] := by
    rw [scenario_scanned_eq limit r1 r2 r3 hlimit]
    simp [getScanResults]
  have hflags : (connect_wait_exit env_address_acquired (connect_stopped
      ((scenario_connect_called limit [r1, r2, r3]
        ⟨"home", "pw", auto_connect⟩).dequeue []))).connection_wait_flags =
      WIFI_CONNECTED_BIT := by
    rw [scenario_connect_called_eq limit r1 r2 r3 _ hlimit,
      scenario_scanned_eq limit r1 r2 r3 hlimit, scenario_enabled_eq]
    simp [connect_wait_exit, connect_wait_entry, connect_stopped, env_address_acquired,
      eventHandler_body, EventFlag_set, Wifi.dequeue, Wifi.getRadioState, Wifi.call,
      Wifi.setScanActive, publish_event_simple, Wifi.setRadioState, WIFI_CONNECTED_BIT]
  refine ⟨rfl, ?_, ?_, ?_, hresults, ?_, ?_, hflags, ?_, rfl,
    scenario_blocked limit r1 r2 r3 _ hlimit⟩
  · rw [scenario_enabled_eq]
  · rw [scenario_enabled_eq]
  · rw [scenario_scanned_eq limit r1 r2 r3 hlimit]
  · rw [hresults]
    rfl
  · rw [scenario_connect_called_eq limit r1 r2 r3 _ hlimit]
  · refine ⟨_, scenario_connected_eq limit r1 r2 r3 _ hlimit, rfl, rfl, rfl, ?_, ?_, ?_, rfl⟩
    · simp [Settings.after_saves]
    · simp [Settings.after_saves]
    · rw [scenario_scanned_eq limit r1 r2 r3 hlimit, scenario_enabled_eq]

/-- Witness for `end_to_end_scenario`: scan limit 16 and the access points "guest", "home" and
"cafe" in range. -/
theorem end_to_end_scenario_witness :
    3 ≤ 16 ∧
    (∃ connected,
      scenario_connected 16 [ap_guest, ap_home, ⟨"cafe", -70, 3, 11⟩] ⟨"home", "pw", false⟩ =
        some connected ∧
      connected.radio_state = WIFI_RADIO_CONNECTION_ACTIVE ∧
      connected.saved = [⟨"home", "pw", false⟩]) ∧
    dispatchConnect_signalled env_no_notification
      ((scenario_connect_called 16 [ap_guest, ap_home, ⟨"cafe", -70, 3, 11⟩]
        ⟨"home", "pw", false⟩).dequeue []) = none :=
  ⟨by decide,
    (end_to_end_scenario 16 ap_guest ap_home ⟨"cafe", -70, 3, 11⟩ false
      (by decide)).2.2.2.2.2.2.2.2.1.imp
      (fun _ h => ⟨h.1, h.2.1, h.2.2.2.1⟩),
    (end_to_end_scenario 16 ap_guest ap_home ⟨"cafe", -70, 3, 11⟩ false
      (by decide)).2.2.2.2.2.2.2.2.2.2⟩

/-! ## Event bus -/

theorem tt_pubsub_publish_fold (message : Nat) (items : List PubSubSubscription) (bus : PubSub) :
    items.foldl
      (fun bus it => { bus with delivered := bus.delivered ++ [callback_call message it] }) bus =
      { bus with delivered := bus.delivered ++ items.map (callback_call message) } := by
  induction items generalizing bus with
  | nil => simp
  | cons it rest ih => simp [ih]

theorem tt_pubsub_publish_eq (pubsub : PubSub) (message : Nat) :
    tt_pubsub_publish pubsub message =
      { pubsub with
        delivered := pubsub.delivered ++ pubsub.items.map (callback_call message) } :=
  tt_pubsub_publish_fold message pubsub.items pubsub

theorem tt_pubsub_unsubscribe_loop_eq (id : Nat) (items : List PubSubSubscription)
    (hdistinct : (items.map PubSubSubscription.id).Nodup) :
    (tt_pubsub_unsubscribe_loop id items).2 = items.filter (fun it => it.id ≠ id) ∧
    ((tt_pubsub_unsubscribe_loop id items).1 = true ↔ ∃ it ∈ items, it.id = id) := by
  induction items with
  | nil => simp [tt_pubsub_unsubscribe_loop]
  | cons head rest ih =>
    rw [List.map_cons, List.nodup_cons] at hdistinct
    obtain ⟨ih1, ih2⟩ := ih hdistinct.2
    by_cases hhead : head.id = id
    · have hrest : rest.filter (fun it => it.id ≠ id) = rest := by
        rw [List.filter_eq_self]
        intro other hother
        have : other.id ≠ id := by
          intro heq
          exact hdistinct.1 (List.mem_map.mpr ⟨other, hother, heq.trans hhead.symm⟩)
        simpa using this
      refine ⟨?_, ?_⟩
      · rw [List.filter_cons, if_neg (by simp [hhead]), hrest]
        simp [tt_pubsub_unsubscribe_loop, hhead]
      · simp [tt_pubsub_unsubscribe_loop, hhead]
    · refine ⟨?_, ?_⟩
      · rw [List.filter_cons, if_pos (by simp [hhead]), ← ih1]
        simp [tt_pubsub_unsubscribe_loop, hhead]
      · simp [tt_pubsub_unsubscribe_loop, hhead, ih2]

theorem pubsub_inv_subscribe {state : PubSub × List Nat} (h : PubSubInv state)
    (hroom : state.2.length + 1 < 2 ^ ID_BITS) (callback callback_context : Nat) :
    PubSubInv ((tt_pubsub_subscribe state.1 callback callback_context).1,
      state.2 ++ [(tt_pubsub_subscribe state.1 callback callback_context).2]) := by
  obtain ⟨h1, h2, h3, h4⟩ := h
  have hid : (state.1.last_id + 1) % 2 ^ ID_BITS = state.2.length + 1 := by
    rw [h1]
    exact Nat.mod_eq_of_lt hroom
  have hnew : state.2.length + 1 ∉ state.2 := by
    intro hmem
    have hrange : state.2.length + 1 ∈ List.range' 1 state.2.length := by
      rw [← h2]
      exact hmem
    have := List.mem_range'_1.mp hrange
    omega
  refine ⟨?_, ?_, ?_, ?_⟩
  · simp [tt_pubsub_subscribe, tt_pubsub_subscribe_locked, tt_pubsub_subscribe_return, hid]
  · simp only [tt_pubsub_subscribe, tt_pubsub_subscribe_locked, tt_pubsub_subscribe_return, hid,
      List.length_append, List.length_singleton]
    rw [List.range'_concat, ← h2]
    simp [Nat.add_comm]
  · intro it hit
    simp only [tt_pubsub_subscribe, tt_pubsub_subscribe_locked, tt_pubsub_subscribe_return, hid,
      List.mem_append, List.mem_singleton] at hit ⊢
    rcases hit with hit | hit
    · exact Or.inl (h3 it hit)
    · right
      rw [hit]
  · simp only [tt_pubsub_subscribe, tt_pubsub_subscribe_locked, hid, List.map_append, List.map_cons,
      List.map_nil]
    rw [List.nodup_append]
    refine ⟨h4, List.nodup_singleton _, ?_⟩
    intro a ha hb
    rw [List.mem_singleton] at hb
    obtain ⟨it, hit, rfl⟩ := List.mem_map.mp ha
    exact hnew (hb ▸ h3 it hit)

theorem tt_pubsub_unsubscribe_loop_missing (id : Nat) (items : List PubSubSubscription)
    (hall : ∀ it ∈ items, it.id ≠ id) : tt_pubsub_unsubscribe_loop id items = (false, items) := by
  induction items with
  | nil => rfl
  | cons head rest ih =>
    have hhead : head.id ≠ id := hall head (List.mem_cons_self _ _)
    have hrest := ih (fun it hit => hall it (List.mem_cons_of_mem _ hit))
    simp [tt_pubsub_unsubscribe_loop, hhead, hrest]

theorem tt_pubsub_unsubscribe_loop_length (id : Nat) (items : List PubSubSubscription)
    (hfound : (tt_pubsub_unsubscribe_loop id items).1 = true) :
    (tt_pubsub_unsubscribe_loop id items).2.length + 1 = items.length := by
  induction items with
  | nil => simp [tt_pubsub_unsubscribe_loop] at hfound
  | cons head rest ih =>
    by_cases hhead : head.id = id
    · simp [tt_pubsub_unsubscribe_loop, hhead]
    · simp only [tt_pubsub_unsubscribe_loop, hhead, if_false] at hfound ⊢
      simp [ih hfound]

theorem tt_pubsub_unsubscribe_missing (pubsub : PubSub) (handle : Nat)
    (hall : ∀ it ∈ pubsub.items, it.id ≠ handle) :
    (tt_pubsub_unsubscribe pubsub handle).fault =
      some (if handle = 0 then Fault.tt_assert else Fault.tt_check) ∧
    (tt_pubsub_unsubscribe pubsub handle).items = pubsub.items := by
  by_cases hz : handle = 0
  · simp [tt_pubsub_unsubscribe, hz]
  · simp [tt_pubsub_unsubscribe, hz, tt_pubsub_unsubscribe_loop_missing handle pubsub.items hall]

theorem tt_pubsub_unsubscribe_fields (pubsub : PubSub) (pubsub_subscription : Nat) :
    (tt_pubsub_unsubscribe pubsub pubsub_subscription).last_id = pubsub.last_id ∧
    (tt_pubsub_unsubscribe pubsub pubsub_subscription).delivered = pubsub.delivered ∧
    ((tt_pubsub_unsubscribe pubsub pubsub_subscription).items = pubsub.items ∨
      (tt_pubsub_unsubscribe pubsub pubsub_subscription).items =
        (tt_pubsub_unsubscribe_loop pubsub_subscription pubsub.items).2) := by
  simp only [tt_pubsub_unsubscribe]
  split_ifs <;> simp

theorem pubsub_inv_unsubscribe {state : PubSub × List Nat} (h : PubSubInv state)
    (pubsub_subscription : Nat) :
    PubSubInv (tt_pubsub_unsubscribe state.1 pubsub_subscription, state.2) := by
  obtain ⟨h1, h2, h3, h4⟩ := h
  have hloop := (tt_pubsub_unsubscribe_loop_eq pubsub_subscription state.1.items h4).1
  obtain ⟨g1, -, g3⟩ := tt_pubsub_unsubscribe_fields state.1 pubsub_subscription
  refine ⟨g1.trans h1, h2, ?_, ?_⟩
  · intro it hit
    rcases g3 with g | g
    · exact h3 it (g ▸ hit)
    · rw [g, hloop] at hit
      exact h3 it (List.mem_of_mem_filter hit)
  · rcases g3 with g | g
    · exact g ▸ h4
    · show (List.map PubSubSubscription.id
        (tt_pubsub_unsubscribe state.1 pubsub_subscription).items).Nodup
      rw [g, hloop]
      exact h4.sublist (List.Sublist.map _ (List.filter_sublist _))

theorem pubsub_inv_step {state : PubSub × List Nat} (h : PubSubInv state)
    (hroom : state.2.length + 1 < 2 ^ ID_BITS) (call : PubSubCall) :
    PubSubInv (pubsub_step state call) ∧
    (pubsub_step state call).2.length ≤ state.2.length + 1 := by
  unfold pubsub_step
  split_ifs
  · exact ⟨h, Nat.le_succ _⟩
  · cases call with
    | subscribe callback callback_context =>
      exact ⟨pubsub_inv_subscribe h hroom callback callback_context, by simp⟩
    | unsubscribe pubsub_subscription =>
      exact ⟨pubsub_inv_unsubscribe h pubsub_subscription, Nat.le_succ _⟩
    | publish message =>
      refine ⟨?_, Nat.le_succ _⟩
      simp only [tt_pubsub_publish_eq]
      exact h

theorem pubsub_inv_run (calls : List PubSubCall) (state : PubSub × List Nat)
    (h : PubSubInv state) (hroom : state.2.length + calls.length < 2 ^ ID_BITS) :
    PubSubInv (pubsub_run state calls) := by
  unfold pubsub_run
  induction calls generalizing state with
  | nil => exact h
  | cons call rest ih =>
    rw [List.length_cons] at hroom
    obtain ⟨hinv, hlen⟩ := pubsub_inv_step h (by omega) call
    exact ih _ hinv (by omega)

theorem pubsub_new_inv : PubSubInv (pubsub_new, []) :=
  ⟨rfl, rfl, fun it hit => (by cases hit), List.nodup_nil⟩

/-- C23 (evaluation at the failing input): two tasks subscribe to a new bus at the same time,
the first is preempted between the release of the mutex and its return statement and the second
runs its call. Both calls return the handle 2 and the id 1 of the first subscription is returned
to no one. `tt_pubsub_unsubscribe` with the first task's handle removes the second task's
subscription, and the second task's own unsubscribe then fails `tt_check(result)`. -/
theorem subscribe_overlapping_calls_same_handle :
    pubsub_overlapping.2 = 2 ∧
    tt_pubsub_subscribe_return pubsub_overlapping.1 = 2 ∧
    pubsub_overlapping.1.items = [⟨1, 7, 70⟩, ⟨2, 8, 80⟩] ∧
    (tt_pubsub_unsubscribe pubsub_overlapping.1 2).items = [⟨1, 7, 70⟩] ∧
    (tt_pubsub_unsubscribe (tt_pubsub_unsubscribe pubsub_overlapping.1 2) 2).fault =
      some Fault.tt_check := by
  decide

/-- C23 (calls that do not overlap): on a new bus that receives fewer than `2 ^ 64` calls (the
64-bit id counter does not wrap), subscribe, unsubscribe and publish in any order, each call
running to its return before the next one starts: the handles returned by
`tt_pubsub_subscribe` are 1, 2, 3, ... in the order of the calls, so none is null and no two are
equal, whatever was unsubscribed in between. `tt_pubsub_unsubscribe` with the handle of a
subscription in the list removes that subscription and no other, the remaining ones keep their
order, and the list is one shorter; with a handle that no subscription in the list carries it
leaves the list as it is and fails a check (`tt_assert` for the null handle, `tt_check(result)`
otherwise); a second `tt_pubsub_unsubscribe` with the same handle always fails a check. -/
theorem subscription_handles (calls : List PubSubCall) (hroom : calls.length < 2 ^ ID_BITS) :
    (pubsub_run (pubsub_new, []) calls).2 =
      List.range' 1 (pubsub_run (pubsub_new, []) calls).2.length ∧
    0 ∉ (pubsub_run (pubsub_new, []) calls).2 ∧
    (pubsub_run (pubsub_new, []) calls).2.Nodup ∧
    ∀ handle : Nat,
      ((∃ it ∈ (pubsub_run (pubsub_new, []) calls).1.items, it.id = handle) →
        tt_pubsub_unsubscribe (pubsub_run (pubsub_new, []) calls).1 handle =
          { (pubsub_run (pubsub_new, []) calls).1 with
            items := (pubsub_run (pubsub_new, []) calls).1.items.filter
              (fun it => it.id ≠ handle) } ∧
        ((pubsub_run (pubsub_new, []) calls).1.items.filter (fun it => it.id ≠ handle)).length
          + 1 = (pubsub_run (pubsub_new, []) calls).1.items.length) ∧
      ((∀ it ∈ (pubsub_run (pubsub_new, []) calls).1.items, it.id ≠ handle) →
        (tt_pubsub_unsubscribe (pubsub_run (pubsub_new, []) calls).1 handle).fault =
          some (if handle = 0 then Fault.tt_assert else Fault.tt_check) ∧
        (tt_pubsub_unsubscribe (pubsub_run (pubsub_new, []) calls).1 handle).items =
          (pubsub_run (pubsub_new, []) calls).1.items) ∧
      (tt_pubsub_unsubscribe
        (tt_pubsub_unsubscribe (pubsub_run (pubsub_new, []) calls).1 handle) handle).fault ≠
          none := by
  have hinv := pubsub_inv_run calls (pubsub_new, []) pubsub_new_inv (by simpa using hroom)
  generalize pubsub_run (pubsub_new, []) calls = state at hinv
  obtain ⟨h1, h2, h3, h4⟩ := hinv
  have hzero : 0 ∉ state.2 := by
    rw [h2]
    simp
  refine ⟨h2, hzero, ?_, ?_⟩
  · rw [h2]
    exact List.nodup_range' _ _
  intro handle
  obtain ⟨hloop, hfound⟩ := tt_pubsub_unsubscribe_loop_eq handle state.1.items h4
  refine ⟨?_, ?_, ?_⟩
  · intro hex
    have hne : handle ≠ 0 := by
      obtain ⟨it, hit, rfl⟩ := hex
      intro hz
      exact hzero (hz ▸ h3 it hit)
    refine ⟨?_, ?_⟩
    · simp [tt_pubsub_unsubscribe, hne, hfound.mpr hex, hloop]
    · rw [← hloop]
      exact tt_pubsub_unsubscribe_loop_length handle state.1.items (hfound.mpr hex)
  · exact tt_pubsub_unsubscribe_missing state.1 handle
  · have hgone : ∀ it ∈ (tt_pubsub_unsubscribe state.1 handle).items, it.id ≠ handle := by
      intro it hit
      rcases (tt_pubsub_unsubscribe_fields state.1 handle).2.2 with g | g
      · rw [g] at hit
        by_cases hex : ∃ other ∈ state.1.items, other.id = handle
        · have hne : handle ≠ 0 := by
            obtain ⟨other, hother, rfl⟩ := hex
            intro hz
            exact hzero (hz ▸ h3 other hother)
          have hitems : (tt_pubsub_unsubscribe state.1 handle).items =
              state.1.items.filter (fun it => it.id ≠ handle) := by
            simp [tt_pubsub_unsubscribe, hne, hfound.mpr hex, hloop]
          rw [← g, hitems] at hit
          simpa using (List.mem_filter.mp hit).2
        · intro hid
          exact hex ⟨it, hit, hid⟩
      · rw [g, hloop] at hit
        simpa using (List.mem_filter.mp hit).2
    rw [(tt_pubsub_unsubscribe_missing _ handle hgone).1]
    simp

/-- Witness for `subscription_handles`: two subscriptions, the first is unsubscribed, a third
subscription gets the handle 3, not the freed handle 1. -/
theorem subscription_handles_witness :
    pubsub_calls.length < 2 ^ ID_BITS ∧
    (pubsub_run (pubsub_new, []) pubsub_calls).2 =
      List.range' 1 (pubsub_run (pubsub_new, []) pubsub_calls).2.length ∧
    (pubsub_run (pubsub_new, []) pubsub_calls).2 = [1, 2, 3] ∧
    (tt_pubsub_unsubscribe
      (tt_pubsub_unsubscribe (pubsub_run (pubsub_new, []) pubsub_calls).1 2) 2).fault ≠ none :=
  ⟨by decide, (subscription_handles pubsub_calls (by decide)).1, by decide,
    ((subscription_handles pubsub_calls (by decide)).2.2.2 2).2.2⟩

/-! ## Scan buffer and scan limit -/

/-- C24: in every state a service reaches from its start (any initial scan limit, any run of
public calls, timer ticks, notifications and executed commands, with any driver results and lock
outcomes) the record count is at most the scan limit, a non-zero count comes with an allocated
buffer, and an allocated buffer has exactly as many slots as the scan limit. Hence at a scan-done
notification the buffer handed to the driver (allocated first when there is none, which fires no
check) has room for the records the driver writes, at most the scan limit many, and keeps its
size. -/
theorem scan_buffer_invariant (limit : Nat) (actions : List Action) :
    (run (wifi_started limit) actions).scan_list_count ≤
      (run (wifi_started limit) actions).scan_list_limit ∧
    ((run (wifi_started limit) actions).scan_list_count ≠ 0 →
      (run (wifi_started limit) actions).scan_list ≠ none) ∧
    (∀ buffer, (run (wifi_started limit) actions).scan_list = some buffer →
      buffer.length = (run (wifi_started limit) actions).scan_list_limit) ∧
    ∀ (scan_result : esp_err_t) (found : List wifi_ap_record_t),
      ∃ buffer, (scan_list_alloc_safely (run (wifi_started limit) actions)).scan_list =
          some buffer ∧
        (scan_list_alloc_safely (run (wifi_started limit) actions)).fault =
          (run (wifi_started limit) actions).fault ∧
        (found.take (run (wifi_started limit) actions).scan_list_limit).length ≤ buffer.length ∧
        ((esp_wifi_scan_get_ap_records scan_result found
          (run (wifi_started limit) actions).scan_list_limit (some buffer)).2.2.getD []).length =
            buffer.length := by
  have hinv := run_scan_inv actions (wifi_started limit) (wifi_started_scan_inv limit)
  generalize run (wifi_started limit) actions = wifi at hinv
  obtain ⟨hnone, hsome⟩ := hinv
  refine ⟨?_, ?_, ?_, ?_⟩
  · cases hl : wifi.scan_list with
    | none => rw [hnone hl]; exact Nat.zero_le _
    | some buffer => exact (hsome buffer hl).2
  · intro hcount hl
    exact hcount (hnone hl)
  · intro buffer hl
    exact (hsome buffer hl).1
  · intro scan_result found
    cases hl : wifi.scan_list with
    | none =>
      refine ⟨List.replicate wifi.scan_list_limit ⟨"", 0, 0, 0⟩, ?_, ?_, ?_, ?_⟩
      · simp [scan_list_alloc_safely, scan_list_alloc, hl]
      · simp [scan_list_alloc_safely, scan_list_alloc, hl]
      · simp
      · unfold esp_wifi_scan_get_ap_records
        split_ifs <;> simp
    | some buffer =>
      have hlen := (hsome buffer hl).1
      refine ⟨buffer, ?_, ?_, ?_, ?_⟩
      · simp [scan_list_alloc_safely, hl]
      · simp [scan_list_alloc_safely, hl]
      · simp [hlen]
      · unfold esp_wifi_scan_get_ap_records
        split_ifs <;> simp
        omega

theorem copy_scan_list_limit (scan_result : esp_err_t) (found : List wifi_ap_record_t)
    (wifi : Wifi) :
    (copy_scan_list scan_result found wifi).2.scan_list_limit = wifi.scan_list_limit := by
  unfold copy_scan_list
  cases hl : wifi.scan_list <;>
    simp only [scan_list_alloc_safely, scan_list_alloc, esp_wifi_scan_get_ap_records,
      Wifi.getRadioState, Wifi.isScanActive, Wifi.call, Wifi.abort, hl] <;>
    split_ifs <;> simp_all

theorem eventHandler_body_limit (event : Notification) (wifi : Wifi) :
    (eventHandler_body event wifi).scan_list_limit = wifi.scan_list_limit := by
  cases event with
  | WIFI_EVENT_STA_START =>
    unfold eventHandler_body
    by_cases hs : wifi.getRadioState = WIFI_RADIO_CONNECTION_PENDING <;> simp [hs, Wifi.call]
  | WIFI_EVENT_STA_DISCONNECTED =>
    unfold eventHandler_body
    by_cases hs : wifi.getRadioState = WIFI_RADIO_CONNECTION_PENDING <;>
      simp [hs, Wifi.setRadioState, publish_event_simple]
  | IP_EVENT_STA_GOT_IP =>
    unfold eventHandler_body
    by_cases hs : wifi.getRadioState = WIFI_RADIO_CONNECTION_PENDING <;> simp [hs]
  | WIFI_EVENT_SCAN_DONE scan_result found =>
    rw [(eventHandler_body_scan_done_list scan_result found wifi).2.2]
    exact copy_scan_list_limit scan_result found wifi
  | other => rfl

theorem eventHandler_fold_limit (events : List Notification) (wifi : Wifi) :
    (events.foldl (fun w event => eventHandler_body event w) wifi).scan_list_limit =
      wifi.scan_list_limit := by
  induction events generalizing wifi with
  | nil => rfl
  | cons event rest ih => rw [List.foldl_cons, ih, eventHandler_body_limit]

theorem dispatchConnect_from_pending_limit (env : Env) (wifi : Wifi) :
    (dispatchConnect_from_pending env wifi).scan_list_limit = wifi.scan_list_limit := by
  unfold dispatchConnect_from_pending
  simp only []
  split_ifs
  · simp [Wifi.setRadioState, Wifi.call, publish_event_simple]
  · simp [Wifi.setRadioState, Wifi.call, publish_event_simple]
  · rw [(dispatchConnect_after_wait_scan_frame _ _ _).2.2, eventHandler_fold_limit]
    simp [Wifi.setRadioState, Wifi.call, publish_event_simple]

theorem dispatchConnect_limit (env : Env) (wifi : Wifi) :
    (dispatchConnect env wifi).scan_list_limit = wifi.scan_list_limit := by
  have hstopped := dispatchConnect_from_pending_limit env
    ((wifi.call DriverCall.esp_wifi_stop).setScanActive false)
  have hdirect := dispatchConnect_from_pending_limit env wifi
  unfold dispatchConnect
  simp only [Wifi.getRadioState]
  split_ifs <;> first
    | rfl
    | exact hdirect
    | exact hstopped

theorem dispatchDisable_limit (env : Env) (wifi : Wifi) :
    (dispatchDisable env wifi).scan_list_limit = wifi.scan_list_limit := by
  cases hl : wifi.scan_list <;>
    simp only [dispatchDisable, Wifi.getRadioState] <;>
    split_ifs <;>
    simp [Wifi.setRadioState, Wifi.call, Wifi.abort, Wifi.setScanActive, publish_event_simple,
      scan_list_free_safely, scan_list_free, hl]

theorem runCommand_limit (f : Command) (env : Env) (wifi : Wifi) :
    (runCommand f env wifi).scan_list_limit = wifi.scan_list_limit := by
  cases f with
  | dispatchAutoConnect => exact (dispatchAutoConnect_scan_frame env wifi).2.2
  | dispatchEnable => exact (dispatchEnable_scan_frame env wifi).2.2
  | dispatchDisable => exact dispatchDisable_limit env wifi
  | dispatchScan => exact (dispatchScan_scan_frame env wifi).2.2
  | dispatchConnect => exact dispatchConnect_limit env wifi
  | dispatchDisconnectButKeepActive =>
    exact (dispatchDisconnectButKeepActive_scan_frame env wifi).2.2

theorem step_limit (wifi : Wifi) (a : Action)
    (h : ∀ records, a ≠ Action.setScanRecords records true) :
    (step wifi a).scan_list_limit = wifi.scan_list_limit := by
  unfold step
  split_ifs
  · rfl
  · cases a with
    | setEnabled enabled lock_acquired =>
      cases lock_acquired <;> cases enabled <;> simp [setEnabled, Wifi.dispatch]
    | scan => simp [scan, Wifi.dispatch]
    | connect ap remember lock_acquired =>
      exact (connect_scan_frame ap remember lock_acquired wifi).2.2
    | disconnect lock_acquired =>
      cases lock_acquired <;> simp [disconnect, Wifi.dispatch]
    | setScanRecords records lock_acquired =>
      cases lock_acquired
      · simp [setScanRecords]
      · exact absurd rfl (h records)
    | onAutoConnectTimer env =>
      unfold onAutoConnectTimer
      simp only []
      split_ifs <;> simp [Wifi.dispatch]
    | eventHandler event => exact eventHandler_body_limit event wifi
    | execute env =>
      simp only []
      cases hq : wifi.dispatched with
      | nil => rfl
      | cons f rest => exact runCommand_limit f env _

/-- C25 (evaluation at the failing input): `setScanRecords(n)` obtaining the data lock stores
`n` as the scan limit in every state and for every `n`, without a check, and no other step
changes the limit; so on a freshly started service `setScanRecords(0)` makes the limit 0. With
the limit 0 a scan that finds twelve access points stores none: `getScanResults()` is empty. -/
theorem scan_limit_zero_accepted :
    (∀ (wifi : Wifi) (records : Nat), wifi.fault = none →
      (step wifi (Action.setScanRecords records true)).scan_list_limit = records ∧
      (step wifi (Action.setScanRecords records true)).fault = none) ∧
    (∀ (wifi : Wifi) (a : Action), (∀ records, a ≠ Action.setScanRecords records true) →
      (step wifi a).scan_list_limit = wifi.scan_list_limit) ∧
    (run wifi_fresh [Action.setScanRecords 0 true]).scan_list_limit = 0 ∧
    getScanResults true (some (run wifi_fresh
      [Action.setScanRecords 0 true, Action.setEnabled true true, Action.execute env_ok,
        Action.scan, Action.execute env_ok,
        Action.eventHandler (Notification.WIFI_EVENT_SCAN_DONE ESP_OK twelve_access_points)])) =
      [] := by
  refine ⟨?_, step_limit, by decide, by decide⟩
  intro wifi records hfault
  by_cases h : records = wifi.scan_list_limit
  · simp [step, setScanRecords, hfault, h]
  · cases hl : wifi.scan_list <;>
      simp [step, setScanRecords, scan_list_free_safely, scan_list_free, hfault, h, hl]

/-! ## Pending states -/

theorem dispatchEnable_settled (env : Env) (wifi : Wifi) (h : isSettled wifi.radio_state)
    (hfault : wifi.fault = none) :
    (isSettled (dispatchEnable env wifi).radio_state ∧ (dispatchEnable env wifi).fault = none) ∨
    ((dispatchEnable env wifi).radio_state = WIFI_RADIO_ON_PENDING ∧
      (dispatchEnable env wifi).fault = some Fault.esp_error_check ∧
      (env.register_wifi ≠ ESP_OK ∨ env.register_ip ≠ ESP_OK)) := by
  unfold isSettled at *
  simp only [dispatchEnable, Wifi.getRadioState]
  split_ifs <;>
    simp_all [Wifi.setRadioState, Wifi.call, Wifi.abort, publish_event_simple]

theorem dispatchDisable_settled (env : Env) (wifi : Wifi) (h : isSettled wifi.radio_state)
    (hfault : wifi.fault = none) :
    (isSettled (dispatchDisable env wifi).radio_state ∧ (dispatchDisable env wifi).fault = none) ∨
    ((dispatchDisable env wifi).radio_state = WIFI_RADIO_OFF_PENDING ∧
      (dispatchDisable env wifi).fault = some Fault.tt_assert ∧ wifi.netif = false) := by
  unfold isSettled at *
  cases hl : wifi.scan_list <;>
    simp only [dispatchDisable, Wifi.getRadioState] <;>
    split_ifs <;>
    simp_all [Wifi.setRadioState, Wifi.call, Wifi.abort, Wifi.setScanActive, publish_event_simple,
      scan_list_free_safely, scan_list_free]

theorem dispatchConnect_after_wait_settled (password : String) (bits : Nat) (wifi : Wifi) :
    isSettled (dispatchConnect_after_wait password bits wifi).radio_state ∧
    (dispatchConnect_after_wait password bits wifi).fault = wifi.fault := by
  unfold isSettled dispatchConnect_after_wait
  simp only [Wifi.setSecureConnection, Wifi.setRadioState, publish_event_simple]
  split_ifs <;> simp

theorem dispatchConnect_from_pending_settled (env : Env) (wifi : Wifi) :
    isSettled (dispatchConnect_from_pending env wifi).radio_state ∧
    (dispatchConnect_from_pending env wifi).fault = wifi.fault := by
  by_cases hconfig : env.esp_wifi_set_config = ESP_OK
  · by_cases hstart : env.esp_wifi_start = ESP_OK
    · rw [dispatchConnect_from_pending_wait env wifi hconfig hstart]
      refine ⟨(dispatchConnect_after_wait_settled _ _ _).1, ?_⟩
      rw [(dispatchConnect_after_wait_settled _ _ _).2]
      have hf := (eventHandler_fold_frame env.during_wait (connect_wait_entry wifi)).2.2.2.2.1
      unfold connect_wait_exit
      rw [hf]
      simp [connect_wait_entry, Wifi.call, publish_event_simple, Wifi.setRadioState]
    · simp [dispatchConnect_from_pending, hconfig, hstart, isSettled, Wifi.setRadioState, Wifi.call,
        publish_event_simple]
  · simp [dispatchConnect_from_pending, hconfig, isSettled, Wifi.setRadioState, Wifi.call,
      publish_event_simple]

theorem dispatchConnect_settled (env : Env) (wifi : Wifi) (h : isSettled wifi.radio_state) :
    isSettled (dispatchConnect env wifi).radio_state ∧
    (dispatchConnect env wifi).fault = wifi.fault := by
  unfold dispatchConnect
  simp only [Wifi.getRadioState]
  have hstopped := dispatchConnect_from_pending_settled env
    ((wifi.call DriverCall.esp_wifi_stop).setScanActive false)
  have hdirect := dispatchConnect_from_pending_settled env wifi
  split_ifs <;> first
    | exact ⟨h, rfl⟩
    | exact hdirect
    | exact hstopped

theorem dispatchDisconnectButKeepActive_settled (env : Env) (wifi : Wifi)
    (h : isSettled wifi.radio_state) :
    isSettled (dispatchDisconnectButKeepActive env wifi).radio_state ∧
    (dispatchDisconnectButKeepActive env wifi).fault = wifi.fault := by
  unfold isSettled at *
  simp only [dispatchDisconnectButKeepActive]
  split_ifs <;> simp_all [Wifi.setRadioState, Wifi.call, publish_event_simple]

theorem dispatchScan_settled (env : Env) (wifi : Wifi) :
    (dispatchScan env wifi).radio_state = wifi.radio_state ∧
    (dispatchScan env wifi).fault = wifi.fault := by
  simp only [dispatchScan, Wifi.getRadioState, Wifi.isScanActive]
  split_ifs <;> simp [Wifi.call, Wifi.setScanActive, publish_event_simple]

theorem dispatchAutoConnect_settled (env : Env) (wifi : Wifi) :
    (dispatchAutoConnect env wifi).radio_state = wifi.radio_state ∧
    (dispatchAutoConnect env wifi).fault = wifi.fault := by
  unfold dispatchAutoConnect
  cases find_auto_connect_ap env wifi with
  | none => exact ⟨rfl, rfl⟩
  | some settings => cases hl : env.connect_lock <;> simp [connect, Wifi.dispatch]

/-- C26: a command (enable, disable, scan, connect, disconnect, auto-connect evaluation) started
with the radio state `Off`, `On` or `ConnectionActive`, with any driver results, lock outcomes,
wait result and notifications handled during the connect wait: when the command returns, the
radio state is again `Off`, `On` or `ConnectionActive`. The command does not return only when a
fatal check ends the process: `ESP_ERROR_CHECK` in the enable command when a handler registration
fails, or the assertion on the interface handle in the disable command when there is none. -/
theorem pending_states_transient (f : Command) (env : Env) (wifi : Wifi)
    (hstate : isSettled wifi.radio_state) (hfault : wifi.fault = none) :
    ((runCommand f env wifi).fault = none → isSettled (runCommand f env wifi).radio_state) ∧
    ((runCommand f env wifi).fault ≠ none →
      (f = Command.dispatchEnable ∧
        (runCommand f env wifi).fault = some Fault.esp_error_check ∧
        (env.register_wifi ≠ ESP_OK ∨ env.register_ip ≠ ESP_OK)) ∨
      (f = Command.dispatchDisable ∧ (runCommand f env wifi).fault = some Fault.tt_assert ∧
        wifi.netif = false)) := by
  cases f with
  | dispatchAutoConnect =>
    obtain ⟨h1, h2⟩ := dispatchAutoConnect_settled env wifi
    simp only [runCommand]
    rw [h1, h2]
    exact ⟨fun _ => hstate, fun h => absurd hfault h⟩
  | dispatchEnable =>
    simp only [runCommand]
    rcases dispatchEnable_settled env wifi hstate hfault with ⟨h1, h2⟩ | ⟨h1, h2, h3⟩
    · exact ⟨fun _ => h1, fun h => absurd h2 h⟩
    · refine ⟨fun h => ?_, fun _ => Or.inl ⟨trivial, h2, h3⟩⟩
      rw [h2] at h
      cases h
  | dispatchDisable =>
    simp only [runCommand]
    rcases dispatchDisable_settled env wifi hstate hfault with ⟨h1, h2⟩ | ⟨h1, h2, h3⟩
    · exact ⟨fun _ => h1, fun h => absurd h2 h⟩
    · refine ⟨fun h => ?_, fun _ => Or.inr ⟨trivial, h2, h3⟩⟩
      rw [h2] at h
      cases h
  | dispatchScan =>
    obtain ⟨h1, h2⟩ := dispatchScan_settled env wifi
    simp only [runCommand]
    rw [h1, h2]
    exact ⟨fun _ => hstate, fun h => absurd hfault h⟩
  | dispatchConnect =>
    obtain ⟨h1, h2⟩ := dispatchConnect_settled env wifi hstate
    simp only [runCommand]
    rw [h2]
    exact ⟨fun _ => h1, fun h => absurd hfault h⟩
  | dispatchDisconnectButKeepActive =>
    obtain ⟨h1, h2⟩ := dispatchDisconnectButKeepActive_settled env wifi hstate
    simp only [runCommand]
    rw [h2]
    exact ⟨fun _ => h1, fun h => absurd hfault h⟩

/-- Witness for `pending_states_transient`: the connect command, called during a scan on the
switched-on radio, with a disconnected notification during the wait ends in `On`. -/
theorem pending_states_transient_witness :
    isSettled wifi_connect_start.radio_state ∧ wifi_connect_start.fault = none ∧
    isSettled (runCommand Command.dispatchConnect env_wait_failed wifi_connect_start).radio_state :=
  ⟨Or.inr (Or.inl (by decide)), by decide,
    (pending_states_transient Command.dispatchConnect env_wait_failed wifi_connect_start
      (Or.inr (Or.inl (by decide))) (by decide)).1 (by decide)⟩

/-! ## Auto-connect pause -/

theorem eventHandler_body_pause (event : Notification) (wifi : Wifi)
    (h : address_acquired_while_pending [event] wifi = false) :
    (eventHandler_body event wifi).pause_auto_connect = wifi.pause_auto_connect := by
  cases event with
  | WIFI_EVENT_STA_START =>
    unfold eventHandler_body
    by_cases h : wifi.getRadioState = WIFI_RADIO_CONNECTION_PENDING <;> simp [h, Wifi.call]
  | WIFI_EVENT_STA_DISCONNECTED =>
    unfold eventHandler_body
    by_cases h : wifi.getRadioState = WIFI_RADIO_CONNECTION_PENDING <;>
      simp [h, Wifi.setRadioState, publish_event_simple]
  | IP_EVENT_STA_GOT_IP =>
    simp [address_acquired_while_pending] at h
    simp [eventHandler_body, Wifi.getRadioState, h]
  | WIFI_EVENT_SCAN_DONE scan_result found =>
    obtain ⟨-, -, -, hp⟩ := copy_scan_list_frame scan_result found wifi
    unfold eventHandler_body
    simp only [Wifi.getRadioState, Wifi.setScanActive, Wifi.call, Wifi.dispatch,
      publish_event_simple]
    split_ifs <;> simp [hp]
  | other => rfl

theorem eventHandler_fold_pause (events : List Notification) (wifi : Wifi)
    (h : address_acquired_while_pending events wifi = false) :
    (events.foldl (fun w event => eventHandler_body event w) wifi).pause_auto_connect =
      wifi.pause_auto_connect := by
  induction events generalizing wifi with
  | nil => rfl
  | cons event rest ih =>
    simp only [address_acquired_while_pending, Bool.or_eq_false_iff] at h
    rw [List.foldl_cons, ih _ h.2]
    apply eventHandler_body_pause
    simp only [address_acquired_while_pending, Bool.or_eq_false_iff]
    exact ⟨h.1, trivial⟩

theorem dispatchConnect_from_pending_pause (env : Env) (wifi : Wifi)
    (h : address_acquired_while_pending env.during_wait (connect_wait_entry wifi) = false) :
    (dispatchConnect_from_pending env wifi).pause_auto_connect = wifi.pause_auto_connect := by
  by_cases hconfig : env.esp_wifi_set_config = ESP_OK
  · by_cases hstart : env.esp_wifi_start = ESP_OK
    · rw [dispatchConnect_from_pending_wait env wifi hconfig hstart]
      have hexit : (connect_wait_exit env wifi).pause_auto_connect = wifi.pause_auto_connect := by
        unfold connect_wait_exit
        rw [eventHandler_fold_pause _ _ h]
        simp [connect_wait_entry, Wifi.call, publish_event_simple, Wifi.setRadioState]
      rw [← hexit]
      unfold dispatchConnect_after_wait
      simp only [Wifi.setSecureConnection, Wifi.setRadioState, publish_event_simple]
      split_ifs <;> simp
    · simp [dispatchConnect_from_pending, hconfig, hstart, Wifi.setRadioState, Wifi.call,
        publish_event_simple]
  · simp [dispatchConnect_from_pending, hconfig, Wifi.setRadioState, Wifi.call,
      publish_event_simple]

theorem dispatchConnect_pause (env : Env) (wifi : Wifi)
    (h : address_acquired_while_pending env.during_wait
      (connect_wait_entry (connect_stopped wifi)) = false) :
    (dispatchConnect env wifi).pause_auto_connect = wifi.pause_auto_connect := by
  unfold connect_stopped at h
  unfold dispatchConnect
  simp only [Wifi.getRadioState]
  by_cases hs : wifi.radio_state = WIFI_RADIO_ON ∨
      wifi.radio_state = WIFI_RADIO_CONNECTION_ACTIVE ∨
      wifi.radio_state = WIFI_RADIO_CONNECTION_PENDING
  · rw [if_pos hs] at h
    have := dispatchConnect_from_pending_pause env _ h
    split_ifs <;> first
      | rfl
      | exact this
  · rw [if_neg hs] at h
    have := dispatchConnect_from_pending_pause env _ h
    split_ifs <;> first
      | rfl
      | exact this

theorem dispatchEnable_pause (env : Env) (wifi : Wifi) :
    (dispatchEnable env wifi).pause_auto_connect = wifi.pause_auto_connect := by
  simp only [dispatchEnable, Wifi.getRadioState, Wifi.setRadioState, Wifi.call,
    Wifi.abort, publish_event_simple]
  split_ifs <;> simp

theorem dispatchDisable_pause (env : Env) (wifi : Wifi) :
    (dispatchDisable env wifi).pause_auto_connect = wifi.pause_auto_connect := by
  cases hl : wifi.scan_list <;>
    simp only [dispatchDisable, Wifi.getRadioState] <;>
    split_ifs <;>
    simp [Wifi.setRadioState, Wifi.call, Wifi.abort, Wifi.setScanActive, publish_event_simple,
      scan_list_free_safely, scan_list_free, hl]

theorem dispatchScan_pause (env : Env) (wifi : Wifi) :
    (dispatchScan env wifi).pause_auto_connect = wifi.pause_auto_connect := by
  simp only [dispatchScan, Wifi.getRadioState, Wifi.isScanActive]
  split_ifs <;> simp [Wifi.call, Wifi.setScanActive, publish_event_simple]

theorem dispatchDisconnectButKeepActive_pause (env : Env) (wifi : Wifi) :
    (dispatchDisconnectButKeepActive env wifi).pause_auto_connect = wifi.pause_auto_connect := by
  simp only [dispatchDisconnectButKeepActive]
  split_ifs <;> simp [Wifi.setRadioState, Wifi.call, publish_event_simple]

theorem runCommand_pause (f : Command) (env : Env) (wifi : Wifi)
    (hpause : wifi.pause_auto_connect = true)
    (h : f = Command.dispatchConnect →
      address_acquired_while_pending env.during_wait
        (connect_wait_entry (connect_stopped wifi)) = false) :
    (runCommand f env wifi).pause_auto_connect = true := by
  cases f with
  | dispatchAutoConnect =>
    simp only [runCommand, dispatchAutoConnect]
    cases find_auto_connect_ap env wifi with
    | none => exact hpause
    | some settings => cases hl : env.connect_lock <;> simp [connect, Wifi.dispatch, hpause]
  | dispatchEnable => exact (dispatchEnable_pause env wifi).trans hpause
  | dispatchDisable => exact (dispatchDisable_pause env wifi).trans hpause
  | dispatchScan => exact (dispatchScan_pause env wifi).trans hpause
  | dispatchConnect => exact (dispatchConnect_pause env wifi (h rfl)).trans hpause
  | dispatchDisconnectButKeepActive =>
    exact (dispatchDisconnectButKeepActive_pause env wifi).trans hpause

theorem step_pause (wifi : Wifi) (a : Action) (hpause : wifi.pause_auto_connect = true)
    (h : liftsPause wifi a = false) : (step wifi a).pause_auto_connect = true := by
  unfold step
  split_ifs
  · exact hpause
  · cases a with
    | setEnabled enabled lock_acquired =>
      simp only [liftsPause] at h
      simp [setEnabled, h, hpause]
    | scan => simpa [scan, Wifi.dispatch] using hpause
    | connect ap remember lock_acquired =>
      cases lock_acquired <;> simp [connect, Wifi.dispatch, hpause]
    | disconnect lock_acquired =>
      cases lock_acquired <;> simp [disconnect, Wifi.dispatch, hpause]
    | setScanRecords records lock_acquired =>
      cases hl : wifi.scan_list <;>
        simp only [setScanRecords] <;>
        split_ifs <;> simp [scan_list_free_safely, scan_list_free, hl, hpause]
    | onAutoConnectTimer env =>
      unfold onAutoConnectTimer
      simp only []
      split_ifs <;> simp [Wifi.dispatch, hpause]
    | eventHandler event =>
      simp only [liftsPause] at h
      simp only [eventHandler, Option.getD_some]
      rw [eventHandler_body_pause event wifi h]
      exact hpause
    | execute env =>
      simp only []
      cases hq : wifi.dispatched with
      | nil => exact hpause
      | cons f rest =>
        simp only []
        apply runCommand_pause f env (wifi.dequeue rest) (by simpa [Wifi.dequeue] using hpause)
        intro hf
        subst hf
        simpa [liftsPause, hq] using h

theorem run_pause (actions : List Action) (wifi : Wifi)
    (hpause : wifi.pause_auto_connect = true) (h : pauseKept wifi actions = true) :
    (run wifi actions).pause_auto_connect = true := by
  unfold run
  induction actions generalizing wifi with
  | nil => exact hpause
  | cons a rest ih =>
    simp only [pauseKept, Bool.and_eq_true, Bool.not_eq_true'] at h
    exact ih _ (step_pause wifi a hpause h.1) h.2

theorem shouldScanForAutoConnect_paused (env : Env) (wifi : Wifi)
    (hpause : wifi.pause_auto_connect = true) :
    shouldScanForAutoConnect env wifi = false ∧ onAutoConnectTimer env wifi = wifi := by
  have h : shouldScanForAutoConnect env wifi = false := by
    unfold shouldScanForAutoConnect
    cases env.data_lock <;> simp [hpause]
  exact ⟨h, by simp [onAutoConnectTimer, h]⟩

/-- C27: an auto-connect evaluation that finds a stored network and obtains the data lock is the
call `connect(settings, false)`: it sets `pause_auto_connect`, stores the target and hands the
connect command to the main dispatcher. A connect command started with `pause_auto_connect` set
returns with it still set unless an address-acquired notification was handled during its wait
while the state was `ConnectionPending`. From then on, over any run of public calls, timer ticks,
notifications and executed commands in which no `setEnabled` obtains the data lock and no
address-acquired notification is handled while `ConnectionPending`, `pause_auto_connect` stays
set and every timer tick declines to scan and changes nothing. -/
theorem auto_connect_failure_keeps_pause (env : Env) (wifi : Wifi) (settings : WifiApSettings)
    (hfind : find_auto_connect_ap env wifi = some settings)
    (hlock : env.connect_lock = true) :
    dispatchAutoConnect env wifi = (connect settings false true (some wifi)).getD wifi ∧
    dispatchAutoConnect env wifi =
      { wifi with
        pause_auto_connect := true
        connection_target := settings
        connection_target_remember := false
        dispatched := wifi.dispatched ++ [Command.dispatchConnect] } ∧
    (∀ (env_connect : Env) (attempt : Wifi), attempt.pause_auto_connect = true →
      address_acquired_while_pending env_connect.during_wait
        (connect_wait_entry (connect_stopped attempt)) = false →
      (dispatchConnect env_connect attempt).pause_auto_connect = true) ∧
    ∀ later : List Action, pauseKept (dispatchAutoConnect env wifi) later = true →
      (run (dispatchAutoConnect env wifi) later).pause_auto_connect = true ∧
      ∀ env_timer : Env,
        shouldScanForAutoConnect env_timer (run (dispatchAutoConnect env wifi) later) = false ∧
        onAutoConnectTimer env_timer (run (dispatchAutoConnect env wifi) later) =
          run (dispatchAutoConnect env wifi) later := by
  have heq : dispatchAutoConnect env wifi =
      { wifi with
        pause_auto_connect := true
        connection_target := settings
        connection_target_remember := false
        dispatched := wifi.dispatched ++ [Command.dispatchConnect] } := by
    simp [dispatchAutoConnect, hfind, hlock, connect, Wifi.dispatch]
  refine ⟨by simp [dispatchAutoConnect, hfind, hlock], heq, ?_, ?_⟩
  · intro env_connect attempt hpause hno
    exact (dispatchConnect_pause env_connect attempt hno).trans hpause
  · intro later hkept
    have hpause : (dispatchAutoConnect env wifi).pause_auto_connect = true := by rw [heq]
    have hrun := run_pause later _ hpause hkept
    exact ⟨hrun, fun env_timer => shouldScanForAutoConnect_paused env_timer _ hrun⟩

/-- Witness for `auto_connect_failure_keeps_pause`: the evaluation after a scan that found the
stored network "home", followed by a connect command that fails. -/
theorem auto_connect_failure_keeps_pause_witness :
    find_auto_connect_ap env_store wifi_evaluation_start = some ⟨"home", "pw", true⟩ ∧
    env_store.connect_lock = true ∧
    (dispatchAutoConnect env_store wifi_evaluation_start).pause_auto_connect = true ∧
    (run (dispatchAutoConnect env_store wifi_evaluation_start)
      [Action.execute env_wait_failed]).pause_auto_connect = true :=
  ⟨by decide, by decide,
    (auto_connect_failure_keeps_pause env_store wifi_evaluation_start ⟨"home", "pw", true⟩
      (by decide) (by decide)).2.1 ▸ rfl,
    ((auto_connect_failure_keeps_pause env_store wifi_evaluation_start ⟨"home", "pw", true⟩
      (by decide) (by decide)).2.2.2 [Action.execute env_wait_failed] (by decide)).1⟩

/-! ## `setEnabled`, `getConnectionTarget` and scan-done without a fetch -/

/-- C28: `setEnabled(b)` obtaining the data lock hands exactly one command to the main dispatcher,
the enable command when `b` is true and the disable command when it is false, sets
`pause_auto_connect` to false and `last_scan_time` to 0, and leaves every other field as it was,
whatever the state; without the lock it changes nothing, and on a service that is not running it
does nothing. -/
theorem setEnabled_frame (enabled : Bool) (wifi : Wifi) :
    setEnabled enabled true (some wifi) =
      some { wifi with
        dispatched :=
          wifi.dispatched ++ [if enabled then Command.dispatchEnable else Command.dispatchDisable]
        pause_auto_connect := false
        last_scan_time := 0 } ∧
    setEnabled enabled false (some wifi) = some wifi ∧
    setEnabled enabled true none = none := by
  cases enabled <;> simp [setEnabled, Wifi.dispatch]

/-- C29: `getConnectionTarget()` returns the stored target name when the radio state is
`ConnectionPending` or `ConnectionActive`, and the empty string in every other state, whatever
target is stored, and when the service is not running. So for a non-empty stored name the result
is that name exactly in the two connection states. The function only reads: its result is a
string, the instance is not changed. -/
theorem getConnectionTarget_value (wifi : Wifi) :
    getConnectionTarget none = "" ∧
    (wifi.radio_state = WIFI_RADIO_CONNECTION_PENDING ∨
      wifi.radio_state = WIFI_RADIO_CONNECTION_ACTIVE →
        getConnectionTarget (some wifi) = wifi.connection_target.ssid) ∧
    (¬ (wifi.radio_state = WIFI_RADIO_CONNECTION_PENDING ∨
      wifi.radio_state = WIFI_RADIO_CONNECTION_ACTIVE) → getConnectionTarget (some wifi) = "") ∧
    (wifi.connection_target.ssid ≠ "" →
      (getConnectionTarget (some wifi) = wifi.connection_target.ssid ↔
        wifi.radio_state = WIFI_RADIO_CONNECTION_PENDING ∨
          wifi.radio_state = WIFI_RADIO_CONNECTION_ACTIVE)) := by
  refine ⟨rfl, ?_, ?_, ?_⟩
  · intro h
    rcases h with h | h <;> simp [getConnectionTarget, Wifi.getRadioState, h]
  · intro h
    rw [not_or] at h
    simp [getConnectionTarget, Wifi.getRadioState, h.1, h.2]
  · intro hname
    by_cases h : wifi.radio_state = WIFI_RADIO_CONNECTION_PENDING ∨
        wifi.radio_state = WIFI_RADIO_CONNECTION_ACTIVE
    · rcases h with h | h <;> simp [getConnectionTarget, Wifi.getRadioState, h]
    · have h2 := h
      rw [not_or] at h2
      simp [getConnectionTarget, Wifi.getRadioState, h2.1, h2.2, h, Ne.symm hname]

/-- C30: a scan-done notification handled while the radio state is `ConnectionPending`, or while
no scan is marked active, with any driver result and any records found: the driver's results are
not fetched, the scan buffer and the record count are as before, `scan_active` is false
afterwards, `ScanFinished` is published once, nothing is handed to the main dispatcher, and the
only other change is the `esp_wifi_scan_stop` call made unless the state is `Off` or
`OffPending`. The scan command is accepted in `ConnectionPending`: with the radio lock, no scan
active and the driver starting the scan it marks the scan active. -/
theorem scan_done_without_fetch (scan_result : esp_err_t) (found : List wifi_ap_record_t)
    (wifi : Wifi)
    (h : wifi.radio_state = WIFI_RADIO_CONNECTION_PENDING ∨ wifi.scan_active = false) :
    eventHandler (Notification.WIFI_EVENT_SCAN_DONE scan_result found) (some wifi) =
      some { wifi with
        scan_active := false
        driver_calls :=
          if wifi.radio_state ≠ WIFI_RADIO_OFF ∧ wifi.radio_state ≠ WIFI_RADIO_OFF_PENDING then
            wifi.driver_calls ++ [DriverCall.esp_wifi_scan_stop]
          else wifi.driver_calls
        published := wifi.published ++ [WifiEventTypeScanFinished] } ∧
    (∀ env : Env, wifi.radio_state = WIFI_RADIO_CONNECTION_PENDING → wifi.scan_active = false →
      env.radio_lock = true → env.esp_wifi_scan_start = ESP_OK →
        (dispatchScan env wifi).scan_active = true) := by
  have hskip : copy_scan_list scan_result found wifi = (false, wifi) := by
    rcases h with h | h <;> simp [copy_scan_list, Wifi.getRadioState, Wifi.isScanActive, h]
  refine ⟨?_, ?_⟩
  · simp only [eventHandler, eventHandler_body, hskip]
    rcases h with h | h
    · simp [Wifi.getRadioState, h, Wifi.setScanActive, Wifi.call, publish_event_simple]
    · by_cases hs : wifi.radio_state ≠ WIFI_RADIO_OFF ∧ wifi.radio_state ≠ WIFI_RADIO_OFF_PENDING
      · simp [Wifi.getRadioState, hs, Wifi.setScanActive, Wifi.call, publish_event_simple]
      · simp only [Wifi.getRadioState, hs, if_false, publish_event_simple]
        simp
        cases wifi; simp_all
  · intro env hstate hactive hlock hstart
    simp [dispatchScan, hlock, hstart, Wifi.getRadioState, Wifi.isScanActive, hstate, hactive,
      Wifi.call, Wifi.setScanActive, publish_event_simple]

/-- Witness for `scan_done_without_fetch`: the scan-done notification arrives while the connect
command, called during a scan, waits for the driver. -/
theorem scan_done_without_fetch_witness :
    (wifi_waiting_after_scan.radio_state = WIFI_RADIO_CONNECTION_PENDING ∨
      wifi_waiting_after_scan.scan_active = false) ∧
    eventHandler (Notification.WIFI_EVENT_SCAN_DONE ESP_OK [ap_home])
      (some wifi_waiting_after_scan) =
      some { wifi_waiting_after_scan with
        scan_active := false
        driver_calls :=
          if wifi_waiting_after_scan.radio_state ≠ WIFI_RADIO_OFF ∧
              wifi_waiting_after_scan.radio_state ≠ WIFI_RADIO_OFF_PENDING then
            wifi_waiting_after_scan.driver_calls ++ [DriverCall.esp_wifi_scan_stop]
          else wifi_waiting_after_scan.driver_calls
        published := wifi_waiting_after_scan.published ++ [WifiEventTypeScanFinished] } :=
  ⟨Or.inl (by decide),
    (scan_done_without_fetch ESP_OK [ap_home] wifi_waiting_after_scan (Or.inl (by decide))).1⟩

end WifiEsp
